import Mathlib

/-!
# wecube-plugins-qcloud: batch provisioning of NAT gateways, Redis instances and CBS disks

A shallow embedding of `plugins/storage.go`, `plugins/nat_gateway.go` and `plugins/redis.go`.

The remote control plane is an arbitrary deterministic responder: every SDK call is answered
by a function of the history of calls issued so far (the trace) and of the request. A Go
function becomes a trace transformer `Prog α`; it either returns a value, dereferences a nil
pointer, or is still looping when the iteration budget of the model (the fuel) is used up.
Go errors are represented by their message.
-/

namespace Qcloud

/-! ## Data model -/

/-- Go `error` values, identified with the text of `err.Error()`. -/
abbrev Err := String

/-- Connection settings handed to `CreateCbsClient`, `newVpcClient`, `CreateRedisClient` and
`CreateDescribeZonesClient`. -/
structure Client where
  region : String
  secretId : String
  secretKey : String
deriving DecidableEq, Repr

/-- The fields of `cbs.Disk` that the plugin reads; both are pointers in the SDK. -/
structure Disk where
  DiskState : Option String
  InstanceId : Option String
deriving DecidableEq, Repr

/-- The `cbs.DiskChargePrepaid` block of a creation request. -/
structure DiskChargePrepaid where
  Period : Nat
  RenewFlag : String
deriving DecidableEq, Repr

/-- The request built by `createStorage` for `client.CreateDisks`. -/
structure CreateDisksRequest where
  DiskName : Option String
  DiskType : String
  DiskSize : Nat
  DiskChargeType : String
  DiskChargePrepaid : Option DiskChargePrepaid
  PlacementZone : String
deriving DecidableEq, Repr

/-- The part of the `CreateDisks` response that `createStorage` reads. -/
structure CreateDisksResponse where
  DiskIdSet : List (Option String)
  RequestId : Option String
deriving DecidableEq, Repr

/-- The request built by `createNatGateway`. -/
structure CreateNatGatewayRequest where
  VpcId : String
  NatName : String
  MaxConcurrent : Int
  Bandwidth : Int
  AutoAllocEipNum : Int
  AssignedEipSet : List String
deriving DecidableEq, Repr

/-- The part of the `CreateNatGateway` response that is read. -/
structure CreateNatGatewayResponse where
  NatGatewayId : Option String
deriving DecidableEq, Repr

/-- The part of the `DeleteNatGateway` response that is read; the task id pointer is copied
into the task query without being dereferenced. -/
structure DeleteNatGatewayResponse where
  TaskId : Option Int
deriving DecidableEq, Repr

/-- The part of the `DescribeVpcTaskResult` response that is read: `*taskResp.Data.Status`. -/
structure VpcTaskResult where
  Status : Option Int
deriving DecidableEq, Repr

/-- The request built by `createRedis`. -/
structure CreateInstancesRequest where
  ZoneId : Nat
  TypeId : Nat
  MemSize : Nat
  GoodsNum : Nat
  Period : Nat
  Password : String
  BillingMode : Int
  VpcId : Option String
  SubnetId : Option String
deriving DecidableEq, Repr

/-- The part of the `CreateInstances` response that is read. -/
structure CreateInstancesResponse where
  DealId : Option String
  RequestId : Option String
deriving DecidableEq, Repr

/-- One entry of `response.Response.DealDetails`. -/
structure DealDetail where
  Status : Option Int
  InstanceIds : List (Option String)
deriving DecidableEq, Repr

/-- The part of the `ClearInstance` response that is read. -/
structure ClearInstanceResponse where
  RequestId : Option String
  TaskId : Option Int
deriving DecidableEq, Repr

/-- One entry of the `DescribeZones` zone set. -/
structure ZoneInfo where
  ZoneState : Option String
  Zone : Option String
  ZoneId : Option String
deriving DecidableEq, Repr

/-- The part of the `DescribeZones` response that is read. -/
structure DescribeZonesResponse where
  TotalCount : Option Nat
  ZoneSet : List ZoneInfo
deriving DecidableEq, Repr

/-- What the plugin does to the outside world, in the order it does it: the SDK calls, each
with the client it was issued through and its request, and the blocking sleeps. -/
inductive Event where
  | DescribeDisks (client : Client) (diskId : String)
  | CreateDisks (client : Client) (request : CreateDisksRequest)
  | AttachDisks (client : Client) (diskId : String) (instanceId : String)
      (deleteWithInstance : Bool)
  | DetachDisks (client : Client) (diskId : String)
  | TerminateDisks (client : Client) (diskId : String)
  | CreateNatGateway (client : Client) (request : CreateNatGatewayRequest)
  | DeleteNatGateway (client : Client) (vpcId : String) (natId : String)
  | DescribeVpcTaskResult (client : Client) (taskId : Option Int)
  | DescribeZones (client : Client)
  | CreateInstances (client : Client) (request : CreateInstancesRequest)
  | DescribeInstanceDealDetail (client : Client) (dealId : String)
  | ClearInstance (client : Client) (instanceId : String) (password : String)
  | Sleep (seconds : Nat)
deriving DecidableEq, Repr

/-- The history of events, oldest first. -/
abbrev Trace := List Event

/-- The remote control plane: the answer to each SDK call, as a function of everything the
plugin has done before the call and of the request. -/
structure World where
  describeDisks : Trace → Client → String → Except Err (List Disk)
  createDisks : Trace → Client → CreateDisksRequest → Except Err CreateDisksResponse
  attachDisks : Trace → Client → String → String → Bool → Except Err Unit
  detachDisks : Trace → Client → String → Except Err Unit
  terminateDisks : Trace → Client → String → Except Err (Option String)
  createNatGateway : Trace → Client → CreateNatGatewayRequest →
    Except Err CreateNatGatewayResponse
  deleteNatGateway : Trace → Client → String → String → Except Err DeleteNatGatewayResponse
  describeVpcTaskResult : Trace → Client → Option Int → Except Err VpcTaskResult
  describeZones : Trace → Client → Except Err DescribeZonesResponse
  createInstances : Trace → Client → CreateInstancesRequest →
    Except Err CreateInstancesResponse
  describeInstanceDealDetail : Trace → Client → String → Except Err (List DealDetail)
  clearInstance : Trace → Client → String → String → Except Err ClearInstanceResponse

/-- Code of this package and of the Go library that is used by the three files but defined
elsewhere: the provider-parameter parser (only its map result is read), the prepaid charge
type constant, and `strconv.ParseUint` with base 0. -/
structure Env where
  getMapFromProviderParams : String → String → Option String
  chargeTypePrepaid : String
  parseUintBase0 : String → Nat × Option Err

/-! ## Execution -/

/-- How a run ends: with a value, with a nil-pointer dereference, or still looping when the
fuel of the model is exhausted. Each case carries the trace up to that point. -/
inductive Res (α : Type) where
  | done (a : α) (tr : Trace)
  | panicked (tr : Trace)
  | outOfFuel (tr : Trace)
deriving DecidableEq, Repr

/-- The events issued up to the end of the run. -/
def Res.trace {α : Type} : Res α → Trace
  | .done _ tr => tr
  | .panicked tr => tr
  | .outOfFuel tr => tr

/-- A Go function body: from the trace so far to the way the run ends. -/
def Prog (α : Type) : Type := Trace → Res α

/-- Sequencing: the second part runs only when the first one returned. -/
def Prog.bind {α β : Type} (m : Prog α) (f : α → Prog β) : Prog β := fun tr =>
  match m tr with
  | .done a tr1 => f a tr1
  | .panicked tr1 => .panicked tr1
  | .outOfFuel tr1 => .outOfFuel tr1

instance : Monad Prog where
  pure a := fun tr => .done a tr
  bind := Prog.bind

/-- Record an event and hand back the answer computed from the history before it. -/
def emit {α : Type} (e : Event) (answer : Trace → α) : Prog α := fun tr =>
  .done (answer tr) (tr ++ [e])

/-- Pointer dereference `*p`: a nil pointer ends the run. -/
def deref {α : Type} : Option α → Prog α
  | some a => pure a
  | none => fun tr => .panicked tr

/-- The loop ran longer than the model follows it. -/
def exhausted {α : Type} : Prog α := fun tr => .outOfFuel tr

/-- The call `time.Sleep(seconds * time.Second)`. -/
def sleep (seconds : Nat) : Prog Unit := emit (.Sleep seconds) (fun _ => ())

/-- Formatting of an error operand by `%v`: a nil error prints as `<nil>`. -/
def fmtErr : Option Err → String
  | some e => e
  | none => "<nil>"

/-- Map lookup `m[key]`: the zero value when the key is absent. -/
def lookup (m : String → Option String) (key : String) : String :=
  (m key).getD ""

/-- The clients built by `CreateCbsClient`, `newVpcClient`, `CreateRedisClient` and
`CreateDescribeZonesClient` from the provider parameters. -/
def mkClient (paramsMap : String → Option String) : Client :=
  { region := lookup paramsMap "Region"
    secretId := lookup paramsMap "SecretID"
    secretKey := lookup paramsMap "SecretKey" }

/-! ## strconv -/

/-- The value of a decimal digit. -/
def digitVal (c : Char) : Option Nat :=
  if '0' ≤ c ∧ c ≤ '9' then some (c.toNat - '0'.toNat) else none

/-- The number written by a string of decimal digits, if every character is one. -/
def parseDigits : List Char → Nat → Option Nat
  | [], acc => some acc
  | c :: cs, acc =>
    match digitVal c with
    | some d => parseDigits cs (acc * 10 + d)
    | none => none

/-- Go `strconv.ParseInt(s, 10, 64)`, modelled from the library documentation: an optional
sign followed by one or more decimal digits; a malformed string gives 0 and a syntax error, a
number outside the signed 64-bit range gives the nearest bound and a range error. The quoting
of `s` in the message is plain. -/
def parseInt (s : String) : Int × Option Err :=
  let syntaxErr : Int × Option Err :=
    (0, some ("strconv.ParseInt: parsing \"" ++ s ++ "\": invalid syntax"))
  let rangeErr : Err := "strconv.ParseInt: parsing \"" ++ s ++ "\": value out of range"
  match s.toList with
  | [] => syntaxErr
  | c :: cs =>
    let neg := decide (c = '-')
    let body := if c = '+' ∨ c = '-' then cs else c :: cs
    match body with
    | [] => syntaxErr
    | b :: bs =>
      match parseDigits (b :: bs) 0 with
      | none => syntaxErr
      | some n =>
        if neg then
          if n > 2 ^ 63 then (-(2 ^ 63 : Int), some rangeErr) else (-(n : Int), none)
        else
          if n ≥ 2 ^ 63 then ((2 ^ 63 : Int) - 1, some rangeErr) else ((n : Int), none)

/-- Go conversion `uint64(x)` of a signed 64-bit integer. -/
def toUint64 (x : Int) : Nat := (x % (2 ^ 64 : Int)).toNat

/-! ## storage.go -/

/-- Modelled from the spec: the result code constants `RESULT_CODE_SUCCESS` and
`RESULT_CODE_ERROR` are declared outside the three files; the spec describes them as a closed
two-valued enumeration. -/
inductive ResultCode where
  | SUCCESS
  | ERROR
deriving DecidableEq, Repr

/-- The embedded `Result` of an output item. The zero value of the code is kept apart from
the two constants. -/
structure Result where
  Code : Option ResultCode := none
  Message : String := ""
deriving DecidableEq, Repr

/-- The embedded `CallBackParameter`. -/
structure CallBackParameter where
  Parameter : String := ""
deriving DecidableEq, Repr

/-- One volume request, `StorageInput`. -/
structure StorageInput where
  CallBackParameter : CallBackParameter := {}
  Guid : String := ""
  ProviderParams : String := ""
  DiskType : String := ""
  DiskSize : String := ""
  DiskName : String := ""
  Id : String := ""
  DiskChargeType : String := ""
  DiskChargePeriod : String := ""
  InstanceId : String := ""
  Location : String := ""
  APISecret : String := ""
deriving DecidableEq, Repr

/-- One volume outcome, `StorageOutput`. -/
structure StorageOutput where
  CallBackParameter : CallBackParameter := {}
  Result : Result := {}
  Guid : String := ""
  RequestId : String := ""
  Id : String := ""
deriving DecidableEq, Repr

/-- The assignment `storage.ProviderParams = fmt.Sprintf("%s;%s", Location, APISecret)` made
at the top of every storage handler when both fields are set. -/
def setProviderParams (storage : StorageInput) : StorageInput :=
  if storage.Location ≠ "" ∧ storage.APISecret ≠ "" then
    { storage with ProviderParams := storage.Location ++ ";" ++ storage.APISecret }
  else storage

/-- Source `queryStorageInfo`: returns `(disk, ok, err)`. -/
def queryStorageInfo (w : World) (client : Client) (storageId : String) :
    Prog (Option Disk × Bool × Option Err) := do
  let response ← emit (.DescribeDisks client storageId)
    (fun tr => w.describeDisks tr client storageId)
  match response with
  | .error err => pure (none, false, some err)
  | .ok diskSet =>
    if diskSet.length > 1 then
      pure (none, false,
        some ("describe disk[diskId=" ++ storageId ++ "], the response disks more than 1"))
    else
      match diskSet with
      | [] => pure (none, false, none)
      | d :: _ => pure (some d, true, none)

/-- The `for` loop of `checkDiksState`. The counter is passed along unchanged because the
body never assigns it. -/
def checkDiksStateLoop (w : World) (client : Client) (storageId : String) (isExist : Bool)
    (state : String) (count : Nat) : Nat → Prog (Option Err)
  | 0 => exhausted
  | fuel + 1 => do
    let (disk, ok, err) ← queryStorageInfo w client storageId
    match err with
    | some e => pure (some e)
    | none =>
      let reached ← (if state = "" then (pure (decide (isExist = ok)) : Prog Bool)
        else if ok then do
          let d ← deref disk
          let s ← deref d.DiskState
          pure (decide (s = state))
        else pure false)
      if reached then pure none
      else if count > 20 then do
        let d ← deref disk
        let s ← deref d.DiskState
        pure (some ("after " ++ toString (5 * count) ++ "s, the disk[" ++ storageId
          ++ "] state=" ++ s))
      else do
        sleep 5
        checkDiksStateLoop w client storageId isExist state count fuel

/-- Source `checkDiksState`: `count := 1` and the loop. -/
def checkDiksState (w : World) (client : Client) (storageId : String) (isExist : Bool)
    (state : String) (fuel : Nat) : Prog (Option Err) :=
  checkDiksStateLoop w client storageId isExist state 1 fuel

/-- Source `StorageCreateAction.checkCreateStorageParams`. -/
def checkCreateStorageParams (input : StorageInput) : Option Err :=
  if input.Guid = "" then some "Guid is empty"
  else if input.ProviderParams = "" ∧ input.APISecret = "" then some "APISecret is empty"
  else if input.ProviderParams = "" ∧ input.Location = "" then some "Location is empty"
  else if input.DiskType = "" then some "DiskType is empty"
  else if input.DiskSize = "" then some "DiskSize is empty"
  else if input.DiskChargeType = "" then some "DiskChargeType is empty"
  else if input.InstanceId = "" then some "InstanceId is empty"
  else none

/-- The second half of `createStorage`, from `cbs.NewCreateDisksRequest()` on: build the
request, call `CreateDisks`, wait for the new disk to be UNATTACHED. -/
def createStorageNew (env : Env) (w : World) (fuel : Nat) (storage : StorageInput)
    (paramsMap : String → Option String) (client : Client) :
    Prog (Option StorageOutput × Option Err) :=
  let diskName : Option String := if storage.DiskName ≠ "" then some storage.DiskName else none
  let (diskSize, err) := parseInt storage.DiskSize
  if err ≠ none ∧ diskSize ≤ 0 then
    pure (none, some ("wrong DiskSize string. " ++ fmtErr err))
  else
    let udiskSize := toUint64 diskSize
    let prepaid : Except Err (Option DiskChargePrepaid) :=
      if storage.DiskChargeType = env.chargeTypePrepaid then
        let (period, er) := env.parseUintBase0 storage.DiskChargePeriod
        if er ≠ none ∧ period ≤ 0 then
          .error ("wrong DiskChargePeriod string. " ++ fmtErr err)
        else .ok (some { Period := period, RenewFlag := "NOTIFY_AND_AUTO_RENEW" })
      else .ok none
    match prepaid with
    | .error e => pure (none, some e)
    | .ok chargePrepaid => do
      let request : CreateDisksRequest :=
        { DiskName := diskName
          DiskType := storage.DiskType
          DiskSize := udiskSize
          DiskChargeType := storage.DiskChargeType
          DiskChargePrepaid := chargePrepaid
          PlacementZone := lookup paramsMap "AvailableZone" }
      let response ← emit (.CreateDisks client request)
        (fun tr => w.createDisks tr client request)
      match response with
      | .error e => pure (none, some ("create storage in cloud meet err = " ++ e))
      | .ok resp =>
        match resp.DiskIdSet with
        | [] => pure (none, some "no storage is created")
        | first :: _ => do
          let requestId ← deref resp.RequestId
          let id ← deref first
          let output : StorageOutput := { RequestId := requestId, Id := id }
          let err ← checkDiksState w client id true "UNATTACHED" fuel
          match err with
          | some e => pure (some output, some e)
          | none => pure (some output, none)

/-- Source `StorageCreateAction.createStorage`. The request is passed by pointer and its
`ProviderParams` may be overwritten, so the request as the caller sees it afterwards is
returned next to `(output, err)`. -/
def createStorage (env : Env) (w : World) (fuel : Nat) (storage0 : StorageInput) :
    Prog (StorageInput × Option StorageOutput × Option Err) :=
  let storage := setProviderParams storage0
  let paramsMap := env.getMapFromProviderParams storage.ProviderParams
  if paramsMap "AvailableZone" = some "" then
    pure (storage, none, some "wrong AvailableZone value")
  else
    let client := mkClient paramsMap
    let create : Prog (StorageInput × Option StorageOutput × Option Err) := do
      let (output, err) ← createStorageNew env w fuel storage paramsMap client
      pure (storage, output, err)
    if storage.Id ≠ "" then do
      let (_, ok, err) ← queryStorageInfo w client storage.Id
      match err with
      | some e => pure (storage, none, some e)
      | none =>
        if ok then pure (storage, some { Id := storage.Id }, none)
        else create
    else create

/-- Source `StorageCreateAction.attachStorage`; returns the request as left behind and the
error. -/
def attachStorage (env : Env) (w : World) (fuel : Nat) (storage0 : StorageInput) :
    Prog (StorageInput × Option Err) := do
  let storage := setProviderParams storage0
  let paramsMap := env.getMapFromProviderParams storage.ProviderParams
  let client := mkClient paramsMap
  let (disk, ok, err) ← queryStorageInfo w client storage.Id
  match err with
  | some e => pure (storage, some e)
  | none =>
    if !ok then pure (storage, some "queryStorageInfo meet error=disk not found")
    else do
      let d ← deref disk
      let diskState ← deref d.DiskState
      if diskState = "ATTACHED" then do
        let instanceId ← deref d.InstanceId
        if instanceId = storage.InstanceId then pure (storage, none)
        else
          pure (storage, some ("disk[" ++ storage.Id ++ "] has been bound with instacne["
            ++ instanceId ++ "]"))
      else do
        let response ← emit (.AttachDisks client storage.Id storage.InstanceId true)
          (fun tr => w.attachDisks tr client storage.Id storage.InstanceId true)
        match response with
        | .error e => pure (storage, some e)
        | .ok _ => do
          let err ← checkDiksState w client storage.Id true "ATTACHED" fuel
          match err with
          | some e => pure (storage, some e)
          | none => pure (storage, none)

/-- The body of the `for` loop of `StorageCreateAction.Do` for one request: the output item
that is appended and the value that `finalErr` takes if the item assigns it. -/
def storageCreateItem (env : Env) (w : World) (fuel : Nat) (storage : StorageInput) :
    Prog (StorageOutput × Option Err) :=
  let output : StorageOutput :=
    { Guid := storage.Guid
      CallBackParameter := { Parameter := storage.CallBackParameter.Parameter }
      Result := { Code := some .SUCCESS } }
  match checkCreateStorageParams storage with
  | some e =>
    pure ({ output with Result := { Code := some .ERROR, Message := e } }, some e)
  | none => do
    let (storage1, result, err) ← createStorage env w fuel storage
    match err with
    | some e =>
      pure ({ output with Result := { Code := some .ERROR, Message := e } }, some e)
    | none => do
      let r ← deref result
      let output1 := { output with Id := r.Id }
      let storage2 := { storage1 with Id := r.Id }
      let (_, err) ← attachStorage env w fuel storage2
      match err with
      | some e =>
        pure ({ output1 with Result := { Code := some .ERROR, Message := e } }, some e)
      | none => pure (output1, none)

/-- The `for ... range` loop shared by the two storage actions: run the body on each request
in turn, append its output, and overwrite `finalErr` when the item set it. -/
def storageLoop (item : StorageInput → Prog (StorageOutput × Option Err)) :
    List StorageInput → List StorageOutput → Option Err →
    Prog (List StorageOutput × Option Err)
  | [], outputs, finalErr => pure (outputs, finalErr)
  | storage :: rest, outputs, finalErr => do
    let (output, err) ← item storage
    storageLoop item rest (outputs ++ [output]) (if err.isSome then err else finalErr)

/-- Source `StorageCreateAction.Do`: returns `(&outputs, finalErr)`. -/
def StorageCreateAction.Do (env : Env) (w : World) (fuel : Nat) (inputs : List StorageInput) :
    Prog (List StorageOutput × Option Err) :=
  storageLoop (storageCreateItem env w fuel) inputs [] none

/-- Source `StorageTerminateAction.checkTerminateStorageParams`. -/
def checkTerminateStorageParams (input : StorageInput) : Option Err :=
  if input.Guid = "" then some "Guid is empty"
  else if input.ProviderParams = "" ∧ input.APISecret = "" then some "APISecret is empty"
  else if input.ProviderParams = "" ∧ input.Location = "" then some "Location is empty"
  else if input.Id = "" then some "Id is empty"
  else none

/-- Source `StorageTerminateAction.detachStorage`. -/
def detachStorage (env : Env) (w : World) (fuel : Nat) (storage0 : StorageInput) :
    Prog (StorageInput × Option Err) := do
  let storage := setProviderParams storage0
  let paramsMap := env.getMapFromProviderParams storage.ProviderParams
  let client := mkClient paramsMap
  let response ← emit (.DetachDisks client storage.Id)
    (fun tr => w.detachDisks tr client storage.Id)
  match response with
  | .error e =>
    pure (storage, some ("detach storage(id = " ++ storage.Id ++ ") in cloud meet error = "
      ++ e))
  | .ok _ => do
    let err ← checkDiksState w client storage.Id true "UNATTACHED" fuel
    match err with
    | some e => pure (storage, some e)
    | none => pure (storage, none)

/-- Source `StorageTerminateAction.terminateStorage`. -/
def terminateStorage (env : Env) (w : World) (fuel : Nat) (storage0 : StorageInput) :
    Prog (StorageInput × Option StorageOutput × Option Err) := do
  let storage := setProviderParams storage0
  let paramsMap := env.getMapFromProviderParams storage.ProviderParams
  let client := mkClient paramsMap
  let response ← emit (.TerminateDisks client storage.Id)
    (fun tr => w.terminateDisks tr client storage.Id)
  match response with
  | .error e => pure (storage, none, some e)
  | .ok requestIdPtr => do
    let requestId ← deref requestIdPtr
    let output : StorageOutput := { RequestId := requestId, Id := storage.Id }
    let err ← checkDiksState w client storage.Id false "" fuel
    match err with
    | some e => pure (storage, some output, some e)
    | none => pure (storage, some output, none)

/-- The body of the `for` loop of `StorageTerminateAction.Do` for one request. -/
def storageTerminateItem (env : Env) (w : World) (fuel : Nat) (storage0 : StorageInput) :
    Prog (StorageOutput × Option Err) :=
  let output : StorageOutput :=
    { Guid := storage0.Guid
      Id := storage0.Id
      CallBackParameter := { Parameter := storage0.CallBackParameter.Parameter }
      Result := { Code := some .SUCCESS } }
  match checkTerminateStorageParams storage0 with
  | some e =>
    pure ({ output with Result := { Code := some .ERROR, Message := e } }, some e)
  | none => do
    let storage := setProviderParams storage0
    let paramsMap := env.getMapFromProviderParams storage.ProviderParams
    let client := mkClient paramsMap
    let (disk, ok, err) ← queryStorageInfo w client storage.Id
    match err with
    | some e =>
      pure ({ output with Result := { Code := some .ERROR, Message := e } }, some e)
    | none =>
      if !ok then pure (output, none)
      else do
        let d ← deref disk
        let diskState ← deref d.DiskState
        let detached : Prog (StorageInput × Option Err) :=
          if diskState = "ATTACHED" then detachStorage env w fuel storage
          else pure (storage, none)
        let (storage1, err) ← detached
        match err with
        | some e =>
          pure ({ output with Result := { Code := some .ERROR, Message := e } }, some e)
        | none => do
          let (_, _, err) ← terminateStorage env w fuel storage1
          match err with
          | some e =>
            pure ({ output with Result := { Code := some .ERROR, Message := e } }, some e)
          | none => pure (output, none)

/-- Source `StorageTerminateAction.Do`: returns `(&outputs, finalErr)`. -/
def StorageTerminateAction.Do (env : Env) (w : World) (fuel : Nat)
    (inputs : List StorageInput) : Prog (List StorageOutput × Option Err) :=
  storageLoop (storageTerminateItem env w fuel) inputs [] none

/-! ## nat_gateway.go -/

/-- One gateway request, `NatGatewayInput`. -/
structure NatGatewayInput where
  ProviderParams : String := ""
  Name : String := ""
  VpcId : String := ""
  MaxConcurrent : Int := 0
  BandWidth : Int := 0
  AssignedEipSet : String := ""
  AutoAllocEipNum : Int := 0
  Id : String := ""
deriving DecidableEq, Repr

/-- One gateway outcome, `NatGatewayOutput`. -/
structure NatGatewayOutput where
  Id : String := ""
deriving DecidableEq, Repr

/-- The request that `createNatGateway` builds from its input. -/
def natGatewayCreateReq (natGateway : NatGatewayInput) : CreateNatGatewayRequest :=
  { VpcId := natGateway.VpcId
    NatName := natGateway.Name
    MaxConcurrent := natGateway.MaxConcurrent
    Bandwidth := natGateway.BandWidth
    AutoAllocEipNum := natGateway.AutoAllocEipNum
    AssignedEipSet :=
      if natGateway.AssignedEipSet ≠ "" then [natGateway.AssignedEipSet] else [] }

/-- Source `NatGatewayCreateAction.createNatGateway`: returns `(id, err)`. -/
def createNatGateway (env : Env) (w : World) (natGateway : NatGatewayInput) :
    Prog (String × Option Err) := do
  let paramsMap := env.getMapFromProviderParams natGateway.ProviderParams
  let c := mkClient paramsMap
  let createReq := natGatewayCreateReq natGateway
  let createResp ← emit (.CreateNatGateway c createReq)
    (fun tr => w.createNatGateway tr c createReq)
  match createResp with
  | .error err => pure ("", some err)
  | .ok resp =>
    match resp.NatGatewayId with
    | none => pure ("", none)
    | some id => pure (id, none)

/-- The `for ... range` loop of `NatGatewayCreateAction.Do`; a failing item returns
`nil, err` on the spot. -/
def natGatewayCreateLoop (env : Env) (w : World) :
    List NatGatewayInput → List NatGatewayOutput →
    Prog (Option (List NatGatewayOutput) × Option Err)
  | [], outputs => pure (some outputs, none)
  | natGateway :: rest, outputs => do
    let (natGatewayId, err) ← createNatGateway env w natGateway
    match err with
    | some e => pure (none, some e)
    | none => natGatewayCreateLoop env w rest (outputs ++ [{ Id := natGatewayId }])

/-- Source `NatGatewayCreateAction.Do`: `(&outputs, nil)` or `(nil, err)`. -/
def NatGatewayCreateAction.Do (env : Env) (w : World) (inputs : List NatGatewayInput) :
    Prog (Option (List NatGatewayOutput) × Option Err) :=
  natGatewayCreateLoop env w inputs []

/-- The task-polling `for` loop of `terminateNatGateway`, entered with the current value of
`count`. -/
def terminateNatGatewayPoll (w : World) (c : Client) (taskId : Option Int) (count : Nat) :
    Nat → Prog (Option Err)
  | 0 => exhausted
  | fuel + 1 => do
    let taskResp ← emit (.DescribeVpcTaskResult c taskId)
      (fun tr => w.describeVpcTaskResult tr c taskId)
    match taskResp with
    | .error err => pure (some err)
    | .ok resp => do
      let status ← deref resp.Status
      if status = 0 then pure none
      else if status = 1 then pure (some "terminateNatGateway execute failed ,need retry")
      else do
        sleep 10
        if count + 1 ≥ 20 then pure (some "terminateNatGateway query result timeout")
        else terminateNatGatewayPoll w c taskId (count + 1) fuel

/-- Source `NatGatewayTerminateAction.terminateNatGateway`. -/
def terminateNatGateway (env : Env) (w : World) (fuel : Nat) (natGateway : NatGatewayInput) :
    Prog (Option Err) := do
  let paramsMap := env.getMapFromProviderParams natGateway.ProviderParams
  let c := mkClient paramsMap
  let deleteResp ← emit (.DeleteNatGateway c natGateway.VpcId natGateway.Id)
    (fun tr => w.deleteNatGateway tr c natGateway.VpcId natGateway.Id)
  match deleteResp with
  | .error err => pure (some err)
  | .ok resp => terminateNatGatewayPoll w c resp.TaskId 0 fuel

/-- Source `NatGatewayTerminateAction.Do`: `("", nil)` or `(nil, err)`. -/
def NatGatewayTerminateAction.Do (env : Env) (w : World) (fuel : Nat) :
    List NatGatewayInput → Prog (Option String × Option Err)
  | [] => pure (some "", none)
  | natGateway :: rest => do
    let err ← terminateNatGateway env w fuel natGateway
    match err with
    | some e => pure (none, some e)
    | none => NatGatewayTerminateAction.Do env w fuel rest

/-! ## redis.go -/

/-- The constant `REDIS_STATUS_RUNNING`. -/
def REDIS_STATUS_RUNNING : Int := 4

/-- One cache request, `RedisInput`. -/
structure RedisInput where
  Guid : String := ""
  ProviderParams : String := ""
  TypeID : Nat := 0
  MemSize : Nat := 0
  GoodsNum : Nat := 0
  Period : Nat := 0
  Password : String := ""
  BillingMode : Int := 0
  VpcID : String := ""
  SubnetID : String := ""
  ID : String := ""
deriving DecidableEq, Repr

/-- One cache outcome, `RedisOutput`. -/
structure RedisOutput where
  RequestId : String := ""
  Guid : String := ""
  DealID : String := ""
  TaskID : Int := 0
  ID : String := ""
deriving DecidableEq, Repr

/-- The `for ... range` loop of `GetAvaliableZoneInfo` that fills the zone map. -/
def zoneMapLoop : List ZoneInfo → (String → Option Int) → Prog (String → Option Int)
  | [], zoneMap => pure zoneMap
  | zoneinfo :: rest, zoneMap => do
    let zoneState ← deref zoneinfo.ZoneState
    if zoneState = "AVAILABLE" then do
      let zone ← deref zoneinfo.Zone
      let zoneId ← deref zoneinfo.ZoneId
      zoneMapLoop rest (fun key => if key = zone then some (parseInt zoneId).1 else zoneMap key)
    else zoneMapLoop rest zoneMap

/-- Source `GetAvaliableZoneInfo`: returns `(ZoneMap, err)`; the map is empty where the
source returns a nil map. -/
def GetAvaliableZoneInfo (w : World) (zoneClient : Client) :
    Prog ((String → Option Int) × Option Err) := do
  let zoneresponse ← emit (.DescribeZones zoneClient) (fun tr => w.describeZones tr zoneClient)
  match zoneresponse with
  | .error err => pure (fun _ => none, some err)
  | .ok resp => do
    let totalCount ← deref resp.TotalCount
    if totalCount = 0 then pure (fun _ => none, some "availablezone count is zero")
    else do
      let zoneMap ← zoneMapLoop resp.ZoneSet (fun _ => none)
      pure (zoneMap, none)

/-- The inner `for ... range` loop of `waitForRedisInstancesCreationToFinish`, which joins
the instance ids with commas. -/
def joinInstanceIds : List (Option String) → String → Prog String
  | [], instanceids => pure instanceids
  | instanceid :: rest, instanceids => do
    let id ← deref instanceid
    joinInstanceIds rest (if instanceids = "" then id else instanceids ++ "," ++ id)

/-- The deal-polling `for` loop of `waitForRedisInstancesCreationToFinish`, entered with the
current value of `count`. -/
def waitForRedisPoll (w : World) (client : Client) (dealid : String) (count : Nat) :
    Nat → Prog (String × Option Err)
  | 0 => exhausted
  | fuel + 1 => do
    let response ← emit (.DescribeInstanceDealDetail client dealid)
      (fun tr => w.describeInstanceDealDetail tr client dealid)
    match response with
    | .error err => pure ("", some err)
    | .ok dealDetails =>
      match dealDetails with
      | [] => pure ("", some ("the redis (dealid = " ++ dealid ++ ") not found"))
      | first :: _ => do
        let status ← deref first.Status
        if status = REDIS_STATUS_RUNNING then do
          let instanceids ← joinInstanceIds first.InstanceIds ""
          pure (instanceids, none)
        else do
          sleep 10
          if count + 1 ≥ 20 then
            pure ("", some "waitForRedisInstancesCreationToFinish timeout")
          else waitForRedisPoll w client dealid (count + 1) fuel

/-- Source `RedisCreateAction.waitForRedisInstancesCreationToFinish`: `count := 0` and the
loop. -/
def waitForRedisInstancesCreationToFinish (w : World) (client : Client) (dealid : String)
    (fuel : Nat) : Prog (String × Option Err) :=
  waitForRedisPoll w client dealid 0 fuel

/-- Source `RedisCreateAction.createRedis`. -/
def createRedis (env : Env) (w : World) (fuel : Nat) (redisInput : RedisInput) :
    Prog (Option RedisOutput × Option Err) := do
  let paramsMap := env.getMapFromProviderParams redisInput.ProviderParams
  let client := mkClient paramsMap
  let (zonemap, err) ← GetAvaliableZoneInfo w (mkClient paramsMap)
  match err with
  | some e => pure (none, some e)
  | none =>
    match zonemap (lookup paramsMap "AvailableZone") with
    | none => pure (none, some "not found available zone info")
    | some zone => do
      let request : CreateInstancesRequest :=
        { ZoneId := toUint64 zone
          TypeId := redisInput.TypeID
          MemSize := redisInput.MemSize
          GoodsNum := redisInput.GoodsNum
          Period := redisInput.Period
          Password := redisInput.Password
          BillingMode := redisInput.BillingMode
          VpcId := if redisInput.VpcID ≠ "" then some redisInput.VpcID else none
          SubnetId := if redisInput.SubnetID ≠ "" then some redisInput.SubnetID else none }
      let response ← emit (.CreateInstances client request)
        (fun tr => w.createInstances tr client request)
      match response with
      | .error e => pure (none, some e)
      | .ok resp => do
        let dealId ← deref resp.DealId
        let (instanceid, err) ← waitForRedisInstancesCreationToFinish w client dealId fuel
        match err with
        | some e => pure (none, some e)
        | none => do
          let requestId ← deref resp.RequestId
          pure (some { RequestId := requestId, Guid := redisInput.Guid, DealID := dealId,
                       ID := instanceid }, none)

/-- The `for ... range` loop of `RedisCreateAction.Do`. -/
def redisCreateLoop (env : Env) (w : World) (fuel : Nat) :
    List RedisInput → List RedisOutput → Prog (Option (List RedisOutput) × Option Err)
  | [], outputs => pure (some outputs, none)
  | redis :: rest, outputs => do
    let (redisOutput, err) ← createRedis env w fuel redis
    match err with
    | some e => pure (none, some e)
    | none => do
      let output ← deref redisOutput
      redisCreateLoop env w fuel rest (outputs ++ [output])

/-- Source `RedisCreateAction.Do`: `(&outputs, nil)` or `(nil, err)`. -/
def RedisCreateAction.Do (env : Env) (w : World) (fuel : Nat) (inputs : List RedisInput) :
    Prog (Option (List RedisOutput) × Option Err) :=
  redisCreateLoop env w fuel inputs []

/-- Source `RedisTerminateAction.terminateRedis`. -/
def terminateRedis (env : Env) (w : World) (redisInput : RedisInput) :
    Prog (Option RedisOutput × Option Err) := do
  let paramsMap := env.getMapFromProviderParams redisInput.ProviderParams
  let client := mkClient paramsMap
  let response ← emit (.ClearInstance client redisInput.ID redisInput.Password)
    (fun tr => w.clearInstance tr client redisInput.ID redisInput.Password)
  match response with
  | .error e =>
    pure (none, some ("Failed to ClearInstance(InstanceId=" ++ redisInput.ID ++ "), error="
      ++ e))
  | .ok resp => do
    let requestId ← deref resp.RequestId
    let taskId ← deref resp.TaskId
    pure (some { RequestId := requestId, Guid := redisInput.Guid, TaskID := taskId }, none)

/-- The `for ... range` loop of `RedisTerminateAction.Do`. -/
def redisTerminateLoop (env : Env) (w : World) :
    List RedisInput → List RedisOutput → Prog (Option (List RedisOutput) × Option Err)
  | [], outputs => pure (some outputs, none)
  | redis :: rest, outputs => do
    let (output, err) ← terminateRedis env w redis
    match err with
    | some e => pure (none, some e)
    | none => do
      let o ← deref output
      redisTerminateLoop env w rest (outputs ++ [o])

/-- Source `RedisTerminateAction.Do`: `(&outputs, nil)` or `(nil, err)`. -/
def RedisTerminateAction.Do (env : Env) (w : World) (inputs : List RedisInput) :
    Prog (Option (List RedisOutput) × Option Err) :=
  redisTerminateLoop env w inputs []

/-! ## Specification-side helpers -/

/-- The message of the last output item marked ERROR, if there is one. -/
def lastErrorMessage : List StorageOutput → Option String
  | [] => none
  | o :: rest =>
    match lastErrorMessage rest with
    | some m => some m
    | none => if o.Result.Code = some .ERROR then some o.Result.Message else none

/-- What one pass of a storage loop body leaves in its output item: the correlation id of the
request, and either SUCCESS with no error or ERROR with the error as message. -/
def ItemOk (s : StorageInput) (o : StorageOutput) (e : Option Err) : Prop :=
  o.Guid = s.Guid ∧
    ((e = none ∧ o.Result.Code = some .SUCCESS) ∨
      (∃ msg, e = some msg ∧ o.Result.Code = some .ERROR ∧ o.Result.Message = msg))

/-! ## A simulated control plane, for concrete runs -/

/-- A provider-parameter parser for concrete runs: the whole blob is the region and the zone
is fixed. -/
def simEnv : Env :=
  { getMapFromProviderParams := fun providerParams key =>
      if key = "Region" then some providerParams
      else if key = "AvailableZone" then some "zone-1"
      else none
    chargeTypePrepaid := "PREPAID"
    parseUintBase0 := fun s => ((parseInt s).1.toNat, (parseInt s).2) }

/-- The client that `simEnv` yields for provider parameters `"r"`. -/
def simClient : Client := { region := "r", secretId := "", secretKey := "" }

/-- The effect of one event on the disks of the simulated control plane. A created disk is
named after the requested disk name. -/
def simStep (disks : List (String × Disk)) : Event → List (String × Disk)
  | .CreateDisks _ request =>
    disks ++ [("disk-" ++ request.DiskName.getD "", { DiskState := some "UNATTACHED",
                                                       InstanceId := none })]
  | .AttachDisks _ diskId instanceId _ =>
    disks.map (fun kd => if kd.1 = diskId then
      (kd.1, { DiskState := some "ATTACHED", InstanceId := some instanceId }) else kd)
  | .DetachDisks _ diskId =>
    disks.map (fun kd => if kd.1 = diskId then
      (kd.1, { DiskState := some "UNATTACHED", InstanceId := none }) else kd)
  | .TerminateDisks _ diskId => disks.filter (fun kd => kd.1 ≠ diskId)
  | _ => disks

/-- Is the event a `DescribeDisks` call? -/
def isDiskQuery : Event → Bool
  | .DescribeDisks _ _ => true
  | _ => false

/-- Is the event a `DescribeVpcTaskResult` call? -/
def isTaskQuery : Event → Bool
  | .DescribeVpcTaskResult _ _ => true
  | _ => false

/-- Is the event a `DescribeInstanceDealDetail` call? -/
def isDealQuery : Event → Bool
  | .DescribeInstanceDealDetail _ _ => true
  | _ => false

/-- Is the event a sleep? -/
def isSleep : Event → Bool
  | .Sleep _ => true
  | _ => false

/-- The number of events of one kind in a history. -/
def countOf (kind : Event → Bool) (tr : Trace) : Nat := (tr.filter kind).length

/-- A control plane that applies every disk mutation at once, rejects what is named
`"rejected"`, finishes a gateway deletion on the third task query and a cache creation on the
third deal query. -/
def simWorld : World :=
  { describeDisks := fun tr _ diskId =>
      .ok (((tr.foldl simStep []).filter (fun kd => kd.1 = diskId)).map (fun kd => kd.2))
    createDisks := fun _ _ request =>
      .ok { DiskIdSet := [some ("disk-" ++ request.DiskName.getD "")],
            RequestId := some "req-create" }
    attachDisks := fun _ _ _ _ _ => .ok ()
    detachDisks := fun _ _ _ => .ok ()
    terminateDisks := fun _ _ _ => .ok (some "req-terminate")
    createNatGateway := fun _ _ request =>
      if request.NatName = "rejected" then .error "CreateNatGateway rejected"
      else .ok { NatGatewayId := some ("nat-" ++ request.NatName) }
    deleteNatGateway := fun _ _ _ natId =>
      if natId = "rejected" then .error "DeleteNatGateway rejected"
      else .ok { TaskId := some 7 }
    describeVpcTaskResult := fun tr _ _ =>
      .ok { Status := some (if countOf isTaskQuery tr < 2 then 2 else 0) }
    describeZones := fun _ _ =>
      .ok { TotalCount := some 1
            ZoneSet := [{ ZoneState := some "AVAILABLE", Zone := some "zone-1",
                          ZoneId := some "100001" }] }
    createInstances := fun _ _ request =>
      if request.Password = "rejected" then .error "CreateInstances rejected"
      else .ok { DealId := some "deal-1", RequestId := some "req-redis" }
    describeInstanceDealDetail := fun tr _ _ =>
      .ok [{ Status := some (if countOf isDealQuery tr < 2 then 1 else 4),
             InstanceIds := [some "crs-1", some "crs-2"] }]
    clearInstance := fun _ _ instanceId _ =>
      if instanceId = "rejected" then .error "ClearInstance rejected"
      else .ok { RequestId := some "req-clear", TaskId := some 9 } }

/-- A well-formed volume request. -/
def volumeA : StorageInput :=
  { Guid := "g1", ProviderParams := "r", DiskType := "CLOUD_PREMIUM", DiskSize := "10",
    DiskName := "a", DiskChargeType := "POSTPAID_BY_HOUR", InstanceId := "ins-1" }

/-- A volume request whose disk type is missing. -/
def volumeB : StorageInput :=
  { Guid := "g2", ProviderParams := "r", DiskType := "", DiskSize := "10",
    DiskName := "b", DiskChargeType := "POSTPAID_BY_HOUR", InstanceId := "ins-1" }

/-- Another well-formed volume request. -/
def volumeC : StorageInput :=
  { Guid := "g3", ProviderParams := "r", DiskType := "CLOUD_SSD", DiskSize := "20",
    DiskName := "c", DiskChargeType := "POSTPAID_BY_HOUR", InstanceId := "ins-2" }

/-- The handler is run on each item in turn, starting from the first trace, and every run
returns without error; the second trace is the history after the last one. -/
def CleanRun {α β : Type} (handler : α → Prog β) (errOf : β → Option Err) :
    List α → Trace → Trace → Prop
  | [], t, t1 => t1 = t
  | x :: rest, t, t1 =>
    ∃ b tm, handler x t = .done b tm ∧ errOf b = none ∧ CleanRun handler errOf rest tm t1

/-- A gateway request that the simulated control plane accepts. -/
def gatewayA : NatGatewayInput :=
  { ProviderParams := "r", Name := "a", VpcId := "vpc-1", Id := "nat-a" }

/-- A gateway request that the simulated control plane rejects, on creation and on
deletion. -/
def gatewayRejected : NatGatewayInput :=
  { ProviderParams := "r", Name := "rejected", VpcId := "vpc-1", Id := "rejected" }

/-- Another gateway request that the simulated control plane accepts. -/
def gatewayB : NatGatewayInput :=
  { ProviderParams := "r", Name := "b", VpcId := "vpc-1", Id := "nat-b" }

/-- A cache request that the simulated control plane accepts. -/
def redisA : RedisInput :=
  { Guid := "g1", ProviderParams := "r", GoodsNum := 1, Password := "secret", ID := "crs-1" }

/-- A cache request that the simulated control plane rejects, on creation and on clearing. -/
def redisRejected : RedisInput :=
  { Guid := "g2", ProviderParams := "r", GoodsNum := 1, Password := "rejected",
    ID := "rejected" }

/-- The history written by `n` rounds of a poll loop that finds its target not yet reached:
the query, then the sleep, `n` times over. -/
def pollTrace (query : Event) (seconds : Nat) : Nat → Trace
  | 0 => []
  | n + 1 => query :: .Sleep seconds :: pollTrace query seconds n

/-- The disk query succeeds at this point of the history and what it shows is not what
`checkDiksState` waits for. -/
def DiskNotReached (w : World) (client : Client) (storageId : String) (isExist : Bool)
    (state : String) (tr : Trace) : Prop :=
  (w.describeDisks tr client storageId = .ok [] ∧ (state = "" → isExist = true)) ∨
    (∃ d, w.describeDisks tr client storageId = .ok [d] ∧ (state = "" → isExist = false) ∧
      (state ≠ "" → ∃ s, d.DiskState = some s ∧ s ≠ state))

/-- The task query succeeds at this point of the history with an in-progress status, neither
0 nor 1. -/
def TaskInProgress (w : World) (c : Client) (taskId : Option Int) (tr : Trace) : Prop :=
  ∃ s : Int, w.describeVpcTaskResult tr c taskId = .ok { Status := some s } ∧ s ≠ 0 ∧ s ≠ 1

/-- The deal query succeeds at this point of the history with a non-empty deal list whose
first status is not 4. -/
def DealInProgress (w : World) (client : Client) (dealid : String) (tr : Trace) : Prop :=
  ∃ (d : DealDetail) (others : List DealDetail) (s : Int),
    w.describeInstanceDealDetail tr client dealid = .ok (d :: others) ∧
      d.Status = some s ∧ s ≠ 4

/-- The comma-separated list that `waitForRedisInstancesCreationToFinish` builds from instance
ids. -/
def joinIds (ids : List String) (start : String) : String :=
  ids.foldl (fun acc id => if acc = "" then id else acc ++ "," ++ id) start

/-- A control plane on which the disk `disk-1` exists and stays in state `CREATING`. -/
def stuckWorld : World :=
  { simWorld with
    describeDisks := fun _ _ _ => .ok [{ DiskState := some "CREATING", InstanceId := none }] }

/-- A control plane on which every task and every deal stays in progress. -/
def busyWorld : World :=
  { simWorld with
    describeVpcTaskResult := fun _ _ _ => .ok { Status := some 2 }
    describeInstanceDealDetail := fun _ _ _ => .ok [{ Status := some 1, InstanceIds := [] }] }

/-- The client that the gateway handlers build from the provider parameters of a request. -/
abbrev gatewayClient (env : Env) (natGateway : NatGatewayInput) : Client :=
  mkClient (env.getMapFromProviderParams natGateway.ProviderParams)

/-- The history once `terminateNatGateway` has issued its deletion call. -/
abbrev afterDelete (env : Env) (natGateway : NatGatewayInput) (t0 : Trace) : Trace :=
  t0 ++ [.DeleteNatGateway (gatewayClient env natGateway) natGateway.VpcId natGateway.Id]

/-- A control plane on which a gateway deletion task is in progress on the first two task
queries and reported failed from the third on. -/
def failingWorld : World :=
  { simWorld with
    describeVpcTaskResult := fun tr _ _ =>
      .ok { Status := some (if countOf isTaskQuery tr < 2 then 2 else 1) } }

/-- The client and the caller-supplied resource identifier that a mutating call acts on: the
deletion of a gateway, the clearing of a cache instance, and the attaching, detaching and
terminating of a disk. -/
def mutatedId : Event → Option (Client × String)
  | .AttachDisks client diskId _ _ => some (client, diskId)
  | .DetachDisks client diskId => some (client, diskId)
  | .TerminateDisks client diskId => some (client, diskId)
  | .DeleteNatGateway client _ natId => some (client, natId)
  | .ClearInstance client instanceId _ => some (client, instanceId)
  | _ => none

/-- The history contains a query on this identifier, through this client, that the control
plane answered with exactly one resource. `DescribeDisks` is the only query of the plugin
that takes a resource identifier. -/
def Confirms (w : World) (tr : Trace) (client : Client) (id : String) : Prop :=
  ∃ (before after : Trace) (d : Disk),
    tr = before ++ .DescribeDisks client id :: after ∧
      w.describeDisks before client id = .ok [d]

/-- Every mutating call on a caller-supplied identifier in the history comes after a query
that confirmed the identifier. -/
def Guarded (w : World) (tr : Trace) : Prop :=
  ∀ (before after : Trace) (e : Event) (client : Client) (id : String),
    tr = before ++ e :: after → mutatedId e = some (client, id) → Confirms w before client id

/-- The run from history `t` keeps the history guarded and only adds to it, however it ends,
and what it returns satisfies `Q`. -/
def Run {α : Type} (w : World) (m : Prog α) (t : Trace) (Q : α → Trace → Prop) : Prop :=
  match m t with
  | .done a t1 => Guarded w t1 ∧ t <+: t1 ∧ Q a t1
  | .panicked t1 => Guarded w t1 ∧ t <+: t1
  | .outOfFuel t1 => Guarded w t1 ∧ t <+: t1

/-- The client that the storage handlers build from a request. -/
abbrev storageClient (env : Env) (storage : StorageInput) : Client :=
  mkClient (env.getMapFromProviderParams (setProviderParams storage).ProviderParams)

/-- Is the event a `TerminateDisks` call? -/
def isTerminateDisks : Event → Bool
  | .TerminateDisks _ _ => true
  | _ => false

/-- The history of the simulated control plane once `volumeA` has been created as `disk-a`
and attached to `ins-1`. -/
def attachedHistory : Trace :=
  (StorageCreateAction.Do simEnv simWorld 3 [volumeA] []).trace

/-- The request to terminate `disk-a`. -/
def volumeAttached : StorageInput := { volumeA with Id := "disk-a" }

/-- The simulated control plane, except that it rejects every `DetachDisks` call. -/
def detachRejectWorld : World :=
  { simWorld with detachDisks := fun _ _ _ => .error "DetachDisks rejected" }

/-- The simulated control plane, except that it accepts every gateway creation and answers
without a gateway identifier. -/
def silentWorld : World :=
  { simWorld with createNatGateway := fun _ _ _ => .ok { NatGatewayId := none } }

/-- The simulated control plane, except that every disk query fails. -/
def flakyWorld : World :=
  { simWorld with describeDisks := fun _ _ _ => .error "DescribeDisks failed" }

/-- The simulated control plane, except that it rejects every `AttachDisks` call. -/
def attachRejectWorld : World :=
  { simWorld with attachDisks := fun _ _ _ _ _ => .error "AttachDisks rejected" }

/-- The `CreateDisks` request that `createStorage` builds for a request that is not
prepaid. -/
def postpaidDisksRequest (env : Env) (storage : StorageInput) : CreateDisksRequest :=
  { DiskName := if storage.DiskName ≠ "" then some storage.DiskName else none
    DiskType := storage.DiskType
    DiskSize := toUint64 (parseInt storage.DiskSize).1
    DiskChargeType := storage.DiskChargeType
    DiskChargePrepaid := none
    PlacementZone :=
      lookup (env.getMapFromProviderParams (setProviderParams storage).ProviderParams)
        "AvailableZone" }

/-! ## Execution lemmas -/

@[simp] theorem pure_run {α : Type} (a : α) (tr : Trace) : (pure a : Prog α) tr = .done a tr := rfl

@[simp] theorem bind_run {α β : Type} (m : Prog α) (f : α → Prog β) (tr : Trace) :
    (m >>= f) tr = Prog.bind m f tr := rfl

theorem bind_done {α β : Type} {m : Prog α} {f : α → Prog β} {tr tr2 : Trace} {b : β}
    (h : Prog.bind m f tr = .done b tr2) :
    ∃ a tr1, m tr = .done a tr1 ∧ f a tr1 = .done b tr2 := by
  unfold Prog.bind at h
  cases hm : m tr with
  | done a tr1 => rw [hm] at h; exact ⟨a, tr1, rfl, h⟩
  | panicked tr1 => rw [hm] at h; cases h
  | outOfFuel tr1 => rw [hm] at h; cases h

theorem storageCreateItem_ok (env : Env) (w : World) (fuel : Nat) (s : StorageInput)
    (t t1 : Trace) (o : StorageOutput) (e : Option Err)
    (h : storageCreateItem env w fuel s t = .done (o, e) t1) : ItemOk s o e := by
  unfold storageCreateItem at h
  cases hc : checkCreateStorageParams s with
  | some e0 =>
    simp [hc] at h
    obtain ⟨⟨rfl, rfl⟩, -⟩ := h
    simp [ItemOk]
  | none =>
    simp only [hc, bind_run] at h
    obtain ⟨⟨s1, r, err⟩, tr1, -, h⟩ := bind_done h
    cases err with
    | some e1 =>
      simp at h
      obtain ⟨⟨rfl, rfl⟩, -⟩ := h
      simp [ItemOk]
    | none =>
      simp only [bind_run] at h
      obtain ⟨r1, tr2, -, h⟩ := bind_done h
      obtain ⟨⟨s2, err2⟩, tr3, -, h⟩ := bind_done h
      cases err2 with
      | some e2 =>
        simp at h
        obtain ⟨⟨rfl, rfl⟩, -⟩ := h
        simp [ItemOk]
      | none =>
        simp at h
        obtain ⟨⟨rfl, rfl⟩, -⟩ := h
        simp [ItemOk]

theorem storageTerminateItem_ok (env : Env) (w : World) (fuel : Nat) (s : StorageInput)
    (t t1 : Trace) (o : StorageOutput) (e : Option Err)
    (h : storageTerminateItem env w fuel s t = .done (o, e) t1) : ItemOk s o e := by
  unfold storageTerminateItem at h
  cases hc : checkTerminateStorageParams s with
  | some e0 =>
    simp [hc] at h
    obtain ⟨⟨rfl, rfl⟩, -⟩ := h
    simp [ItemOk]
  | none =>
    simp only [hc, bind_run] at h
    obtain ⟨⟨disk, ok, err⟩, tr1, -, h⟩ := bind_done h
    cases err with
    | some e1 =>
      simp at h
      obtain ⟨⟨rfl, rfl⟩, -⟩ := h
      simp [ItemOk]
    | none =>
      cases ok with
      | false =>
        simp at h
        obtain ⟨⟨rfl, rfl⟩, -⟩ := h
        simp [ItemOk]
      | true =>
        simp only [Bool.not_true, Bool.false_eq_true, if_false, bind_run] at h
        obtain ⟨d, tr2, -, h⟩ := bind_done h
        obtain ⟨st, tr3, -, h⟩ := bind_done h
        obtain ⟨⟨s1, err1⟩, tr4, -, h⟩ := bind_done h
        cases err1 with
        | some e2 =>
          simp at h
          obtain ⟨⟨rfl, rfl⟩, -⟩ := h
          simp [ItemOk]
        | none =>
          simp only [bind_run] at h
          obtain ⟨⟨s2, r2, err2⟩, tr5, -, h⟩ := bind_done h
          cases err2 with
          | some e3 =>
            simp at h
            obtain ⟨⟨rfl, rfl⟩, -⟩ := h
            simp [ItemOk]
          | none =>
            simp at h
            obtain ⟨⟨rfl, rfl⟩, -⟩ := h
            simp [ItemOk]

theorem lastErrorMessage_append_one (outs : List StorageOutput) (o : StorageOutput) :
    lastErrorMessage (outs ++ [o]) =
      if o.Result.Code = some .ERROR then some o.Result.Message else lastErrorMessage outs := by
  induction outs with
  | nil => simp [lastErrorMessage]
  | cons x xs ih =>
    rw [List.cons_append, lastErrorMessage, ih, lastErrorMessage]
    by_cases ho : o.Result.Code = some .ERROR
    · simp [ho]
    · simp [ho]

/-- The loop appends one item per request, keeps the correlation ids in step with the
requests, and leaves in `finalErr` the message of the last ERROR item. -/
theorem storageLoop_spec (item : StorageInput → Prog (StorageOutput × Option Err))
    (hitem : ∀ s t o e t1, item s t = .done (o, e) t1 → ItemOk s o e) :
    ∀ (inputs : List StorageInput) (outs : List StorageOutput) (fe : Option Err) (t : Trace)
      (outs1 : List StorageOutput) (err : Option Err) (t1 : Trace),
      fe = lastErrorMessage outs →
      storageLoop item inputs outs fe t = .done (outs1, err) t1 →
      err = lastErrorMessage outs1 ∧
        outs1.map StorageOutput.Guid =
          outs.map StorageOutput.Guid ++ inputs.map StorageInput.Guid := by
  intro inputs
  induction inputs with
  | nil =>
    intro outs fe t outs1 err t1 hfe h
    simp [storageLoop] at h
    obtain ⟨⟨rfl, rfl⟩, -⟩ := h
    simp [hfe]
  | cons s rest ih =>
    intro outs fe t outs1 err t1 hfe h
    simp only [storageLoop, bind_run] at h
    obtain ⟨⟨o, e⟩, tr1, hi, h⟩ := bind_done h
    have hok := hitem s t o e tr1 hi
    simp only at h
    have hfe1 : (if e.isSome = true then e else fe) = lastErrorMessage (outs ++ [o]) := by
      rw [lastErrorMessage_append_one]
      rcases hok with ⟨-, ⟨rfl, hc⟩ | ⟨msg, rfl, hc, hm⟩⟩
      · simp [hc, hfe]
      · simp [hc, hm]
    obtain ⟨h1, h2⟩ := ih (outs ++ [o]) _ tr1 outs1 err t1 hfe1 h
    refine ⟨h1, ?_⟩
    rw [h2]
    simp [hok.1]

theorem lastErrorMessage_none {outs : List StorageOutput} (h : lastErrorMessage outs = none) :
    ∀ o ∈ outs, o.Result.Code ≠ some .ERROR := by
  induction outs with
  | nil => simp
  | cons x xs ih =>
    simp only [lastErrorMessage] at h
    cases hx : lastErrorMessage xs with
    | some m => rw [hx] at h; cases h
    | none =>
      rw [hx] at h
      simp only at h
      intro o ho
      rcases List.mem_cons.1 ho with rfl | ho
      · intro hc
        simp [hc] at h
      · exact ih hx o ho

theorem lastErrorMessage_some {outs : List StorageOutput} {e : String}
    (h : lastErrorMessage outs = some e) :
    ∃ before o after, outs = before ++ o :: after ∧ o.Result.Code = some .ERROR ∧
      o.Result.Message = e ∧ ∀ p ∈ after, p.Result.Code ≠ some .ERROR := by
  induction outs with
  | nil => simp [lastErrorMessage] at h
  | cons x xs ih =>
    simp only [lastErrorMessage] at h
    cases hx : lastErrorMessage xs with
    | some m =>
      rw [hx] at h
      simp only [Option.some.injEq] at h
      subst h
      obtain ⟨before, o, after, rfl, hc, hm, ha⟩ := ih hx
      exact ⟨x :: before, o, after, rfl, hc, hm, ha⟩
    | none =>
      rw [hx] at h
      simp only at h
      by_cases hc : x.Result.Code = some .ERROR
      · simp only [hc, if_true, Option.some.injEq] at h
        exact ⟨[], x, xs, rfl, hc, h, lastErrorMessage_none hx⟩
      · simp [hc] at h

theorem map_guid_getElem {outs : List StorageOutput} {inputs : List StorageInput}
    (h : outs.map StorageOutput.Guid = inputs.map StorageInput.Guid) :
    outs.length = inputs.length ∧
      ∀ i : Nat, (outs[i]?).map StorageOutput.Guid = (inputs[i]?).map StorageInput.Guid := by
  constructor
  · have := congrArg List.length h
    simpa using this
  · intro i
    have := congrArg (fun l => l[i]?) h
    simpa using this

theorem storageLoop_single {item : StorageInput → Prog (StorageOutput × Option Err)}
    {s : StorageInput} {t t1 : Trace} {o : StorageOutput}
    (h : storageLoop item [s] [] none t = .done ([o], none) t1) :
    item s t = .done (o, none) t1 := by
  simp only [storageLoop, bind_run] at h
  obtain ⟨⟨o1, e1⟩, tr1, hi, h⟩ := bind_done h
  simp at h
  obtain ⟨⟨rfl, he⟩, rfl⟩ := h
  cases e1 with
  | none => exact hi
  | some m => simp at he

theorem createRedis_some {env : Env} {w : World} {fuel : Nat} {x : RedisInput}
    {t t1 : Trace} {r : Option RedisOutput}
    (h : createRedis env w fuel x t = .done (r, none) t1) : ∃ o, r = some o := by
  unfold createRedis at h
  simp only [bind_run] at h
  obtain ⟨⟨zonemap, err⟩, tr1, -, h⟩ := bind_done h
  cases err with
  | some e => simp at h
  | none =>
    simp only at h
    cases hz : zonemap (lookup (env.getMapFromProviderParams x.ProviderParams) "AvailableZone") with
    | none => simp [hz] at h
    | some zone =>
      simp only [hz, bind_run] at h
      obtain ⟨resp, tr2, -, h⟩ := bind_done h
      cases resp with
      | error e => simp at h
      | ok resp =>
        simp only [bind_run] at h
        obtain ⟨dealId, tr3, -, h⟩ := bind_done h
        obtain ⟨⟨ids, err⟩, tr4, -, h⟩ := bind_done h
        cases err with
        | some e => simp at h
        | none =>
          simp only [bind_run] at h
          obtain ⟨requestId, tr5, -, h⟩ := bind_done h
          simp at h
          exact ⟨_, h.1.symm⟩

theorem terminateRedis_some {env : Env} {w : World} {x : RedisInput}
    {t t1 : Trace} {r : Option RedisOutput}
    (h : terminateRedis env w x t = .done (r, none) t1) : ∃ o, r = some o := by
  unfold terminateRedis at h
  simp only [bind_run] at h
  obtain ⟨resp, tr2, -, h⟩ := bind_done h
  cases resp with
  | error e => simp at h
  | ok resp =>
    simp only [bind_run] at h
    obtain ⟨requestId, tr3, -, h⟩ := bind_done h
    obtain ⟨taskId, tr4, -, h⟩ := bind_done h
    simp at h
    exact ⟨_, h.1.symm⟩

/-- After a clean run over the first items, the gateway-create loop stands at the remaining
items with one output collected per item so far. -/
theorem natGatewayCreateLoop_clean (env : Env) (w : World) (rest : List NatGatewayInput) :
    ∀ (pre : List NatGatewayInput) (acc : List NatGatewayOutput) (t0 tk : Trace),
      CleanRun (createNatGateway env w) Prod.snd pre t0 tk →
      ∃ outs, outs.length = acc.length + pre.length ∧
        natGatewayCreateLoop env w (pre ++ rest) acc t0 =
          natGatewayCreateLoop env w rest outs tk := by
  intro pre
  induction pre with
  | nil =>
    intro acc t0 tk h
    simp only [CleanRun] at h
    subst h
    exact ⟨acc, by simp, rfl⟩
  | cons x xs ih =>
    intro acc t0 tk h
    obtain ⟨⟨id, err⟩, tm, hx, he, hrest⟩ := h
    simp only at he
    subst he
    obtain ⟨outs, hlen, hloop⟩ := ih (acc ++ [{ Id := id }]) tm tk hrest
    refine ⟨outs, by simp [hlen]; omega, ?_⟩
    rw [← hloop]
    simp [natGatewayCreateLoop, Prog.bind, hx]

theorem natGatewayTerminateDo_clean (env : Env) (w : World) (fuel : Nat)
    (rest : List NatGatewayInput) :
    ∀ (pre : List NatGatewayInput) (t0 tk : Trace),
      CleanRun (terminateNatGateway env w fuel) id pre t0 tk →
      NatGatewayTerminateAction.Do env w fuel (pre ++ rest) t0 =
        NatGatewayTerminateAction.Do env w fuel rest tk := by
  intro pre
  induction pre with
  | nil =>
    intro t0 tk h
    simp only [CleanRun] at h
    subst h
    rfl
  | cons x xs ih =>
    intro t0 tk h
    obtain ⟨err, tm, hx, he, hrest⟩ := h
    simp only [id] at he
    subst he
    rw [← ih tm tk hrest]
    simp [NatGatewayTerminateAction.Do, Prog.bind, hx]

theorem redisCreateLoop_clean (env : Env) (w : World) (fuel : Nat) (rest : List RedisInput) :
    ∀ (pre : List RedisInput) (acc : List RedisOutput) (t0 tk : Trace),
      CleanRun (createRedis env w fuel) Prod.snd pre t0 tk →
      ∃ outs, outs.length = acc.length + pre.length ∧
        redisCreateLoop env w fuel (pre ++ rest) acc t0 =
          redisCreateLoop env w fuel rest outs tk := by
  intro pre
  induction pre with
  | nil =>
    intro acc t0 tk h
    simp only [CleanRun] at h
    subst h
    exact ⟨acc, by simp, rfl⟩
  | cons x xs ih =>
    intro acc t0 tk h
    obtain ⟨⟨r, err⟩, tm, hx, he, hrest⟩ := h
    simp only at he
    subst he
    obtain ⟨o, rfl⟩ := createRedis_some hx
    obtain ⟨outs, hlen, hloop⟩ := ih (acc ++ [o]) tm tk hrest
    refine ⟨outs, by simp [hlen]; omega, ?_⟩
    rw [← hloop]
    simp [redisCreateLoop, Prog.bind, hx, deref]

theorem redisTerminateLoop_clean (env : Env) (w : World) (rest : List RedisInput) :
    ∀ (pre : List RedisInput) (acc : List RedisOutput) (t0 tk : Trace),
      CleanRun (terminateRedis env w) Prod.snd pre t0 tk →
      ∃ outs, outs.length = acc.length + pre.length ∧
        redisTerminateLoop env w (pre ++ rest) acc t0 =
          redisTerminateLoop env w rest outs tk := by
  intro pre
  induction pre with
  | nil =>
    intro acc t0 tk h
    simp only [CleanRun] at h
    subst h
    exact ⟨acc, by simp, rfl⟩
  | cons x xs ih =>
    intro acc t0 tk h
    obtain ⟨⟨r, err⟩, tm, hx, he, hrest⟩ := h
    simp only at he
    subst he
    obtain ⟨o, rfl⟩ := terminateRedis_some hx
    obtain ⟨outs, hlen, hloop⟩ := ih (acc ++ [o]) tm tk hrest
    refine ⟨outs, by simp [hlen]; omega, ?_⟩
    rw [← hloop]
    simp [redisTerminateLoop, Prog.bind, hx, deref]

theorem natGatewayCreateDo_abort {env : Env} {w : World} {pre post : List NatGatewayInput}
    {x : NatGatewayInput} {t0 tk t1 : Trace} {id : String} {e : Err}
    (hpre : CleanRun (createNatGateway env w) Prod.snd pre t0 tk)
    (hx : createNatGateway env w x tk = .done (id, some e) t1) :
    NatGatewayCreateAction.Do env w (pre ++ x :: post) t0 = .done (none, some e) t1 := by
  obtain ⟨outs, -, hloop⟩ := natGatewayCreateLoop_clean env w (x :: post) pre [] t0 tk hpre
  rw [NatGatewayCreateAction.Do, hloop]
  simp [natGatewayCreateLoop, Prog.bind, hx]

theorem natGatewayTerminateDo_abort {env : Env} {w : World} {fuel : Nat}
    {pre post : List NatGatewayInput} {x : NatGatewayInput} {t0 tk t1 : Trace} {e : Err}
    (hpre : CleanRun (terminateNatGateway env w fuel) id pre t0 tk)
    (hx : terminateNatGateway env w fuel x tk = .done (some e) t1) :
    NatGatewayTerminateAction.Do env w fuel (pre ++ x :: post) t0 =
      .done (none, some e) t1 := by
  rw [natGatewayTerminateDo_clean env w fuel (x :: post) pre t0 tk hpre]
  simp [NatGatewayTerminateAction.Do, Prog.bind, hx]

theorem redisCreateDo_abort {env : Env} {w : World} {fuel : Nat}
    {pre post : List RedisInput} {x : RedisInput} {t0 tk t1 : Trace}
    {r : Option RedisOutput} {e : Err}
    (hpre : CleanRun (createRedis env w fuel) Prod.snd pre t0 tk)
    (hx : createRedis env w fuel x tk = .done (r, some e) t1) :
    RedisCreateAction.Do env w fuel (pre ++ x :: post) t0 = .done (none, some e) t1 := by
  obtain ⟨outs, -, hloop⟩ := redisCreateLoop_clean env w fuel (x :: post) pre [] t0 tk hpre
  rw [RedisCreateAction.Do, hloop]
  simp [redisCreateLoop, Prog.bind, hx]

theorem redisTerminateDo_abort {env : Env} {w : World}
    {pre post : List RedisInput} {x : RedisInput} {t0 tk t1 : Trace}
    {r : Option RedisOutput} {e : Err}
    (hpre : CleanRun (terminateRedis env w) Prod.snd pre t0 tk)
    (hx : terminateRedis env w x tk = .done (r, some e) t1) :
    RedisTerminateAction.Do env w (pre ++ x :: post) t0 = .done (none, some e) t1 := by
  obtain ⟨outs, -, hloop⟩ := redisTerminateLoop_clean env w (x :: post) pre [] t0 tk hpre
  rw [RedisTerminateAction.Do, hloop]
  simp [redisTerminateLoop, Prog.bind, hx]

@[simp] theorem emit_run {α : Type} (e : Event) (answer : Trace → α) (tr : Trace) :
    emit e answer tr = .done (answer tr) (tr ++ [e]) := rfl

@[simp] theorem sleep_run (seconds : Nat) (tr : Trace) :
    sleep seconds tr = .done () (tr ++ [.Sleep seconds]) := rfl

@[simp] theorem exhausted_run {α : Type} (tr : Trace) :
    (exhausted : Prog α) tr = .outOfFuel tr := rfl

@[simp] theorem deref_some_run {α : Type} (a : α) (tr : Trace) :
    deref (some a) tr = .done a tr := rfl

@[simp] theorem deref_none_run {α : Type} (tr : Trace) :
    deref (none : Option α) tr = .panicked tr := rfl

theorem pollTrace_shift (query : Event) (seconds : Nat) (n : Nat) (t0 : Trace) :
    (t0 ++ [query] ++ [.Sleep seconds]) ++ pollTrace query seconds n =
      t0 ++ pollTrace query seconds (n + 1) := by
  simp [pollTrace]

theorem pollTrace_succ (query : Event) (seconds : Nat) (n : Nat) :
    pollTrace query seconds (n + 1) = pollTrace query seconds n ++ [query, .Sleep seconds] := by
  induction n with
  | zero => rfl
  | succ k ih =>
    show query :: .Sleep seconds :: pollTrace query seconds (k + 1) =
      (query :: .Sleep seconds :: pollTrace query seconds k) ++ [query, .Sleep seconds]
    rw [ih]
    rfl

/-- One round of `checkDiksState` on a disk that has not reached the target: the query, the
sleep, and the loop again with the counter unchanged. -/
theorem checkDiksStateLoop_round {w : World} {client : Client} {storageId : String}
    {isExist : Bool} {state : String} {t0 : Trace}
    (h : DiskNotReached w client storageId isExist state t0) (fuel : Nat) :
    checkDiksStateLoop w client storageId isExist state 1 (fuel + 1) t0 =
      checkDiksStateLoop w client storageId isExist state 1 fuel
        (t0 ++ [.DescribeDisks client storageId] ++ [.Sleep 5]) := by
  rcases h with ⟨hq, hs⟩ | ⟨d, hq, hs, hn⟩
  · by_cases hst : state = ""
    · simp [checkDiksStateLoop, queryStorageInfo, Prog.bind, hq, hst, hs hst]
    · simp [checkDiksStateLoop, queryStorageInfo, Prog.bind, hq, hst]
  · by_cases hst : state = ""
    · simp [checkDiksStateLoop, queryStorageInfo, Prog.bind, hq, hst, hs hst]
    · obtain ⟨s, hd, hne⟩ := hn hst
      simp [checkDiksStateLoop, queryStorageInfo, Prog.bind, hq, hst, hd, hne]

theorem checkDiksStateLoop_stuck {w : World} {client : Client} {storageId : String}
    {isExist : Bool} {state : String}
    (h : ∀ tr, DiskNotReached w client storageId isExist state tr) :
    ∀ (fuel : Nat) (t0 : Trace),
      checkDiksStateLoop w client storageId isExist state 1 fuel t0 =
        .outOfFuel (t0 ++ pollTrace (.DescribeDisks client storageId) 5 fuel) := by
  intro fuel
  induction fuel with
  | zero => intro t0; simp [checkDiksStateLoop, pollTrace]
  | succ n ih =>
    intro t0
    rw [checkDiksStateLoop_round (h t0), ih, pollTrace_shift]

theorem countOf_append (kind : Event → Bool) (a b : Trace) :
    countOf kind (a ++ b) = countOf kind a + countOf kind b := by
  simp [countOf, List.filter_append]

theorem countOf_pollTrace (kind : Event → Bool) (query : Event) (seconds : Nat) (n : Nat) :
    countOf kind (pollTrace query seconds n) =
      n * ((if kind query then 1 else 0) + (if kind (.Sleep seconds) then 1 else 0)) := by
  induction n with
  | zero => simp [countOf, pollTrace]
  | succ k ih =>
    have h : pollTrace query seconds (k + 1) =
        [query, .Sleep seconds] ++ pollTrace query seconds k := rfl
    rw [h, countOf_append, ih]
    by_cases h1 : kind query <;> by_cases h2 : kind (.Sleep seconds) <;>
      simp [countOf, List.filter, h1, h2] <;> ring

/-- One round of the gateway poll on a task still in progress. -/
theorem terminateNatGatewayPoll_round {w : World} {c : Client} {taskId : Option Int}
    {t0 : Trace} (h : TaskInProgress w c taskId t0) (count fuel : Nat) :
    terminateNatGatewayPoll w c taskId count (fuel + 1) t0 =
      if count + 1 ≥ 20 then
        .done (some "terminateNatGateway query result timeout")
          (t0 ++ [.DescribeVpcTaskResult c taskId] ++ [.Sleep 10])
      else terminateNatGatewayPoll w c taskId (count + 1) fuel
          (t0 ++ [.DescribeVpcTaskResult c taskId] ++ [.Sleep 10]) := by
  obtain ⟨s, hq, h0, h1⟩ := h
  by_cases hc : count + 1 ≥ 20
  · simp [terminateNatGatewayPoll, Prog.bind, hq, h0, h1, hc]
  · simp [terminateNatGatewayPoll, Prog.bind, hq, h0, h1, hc]

/-- Rounds of the gateway poll on a task in progress, while the budget lasts. -/
theorem terminateNatGatewayPoll_rounds {w : World} {c : Client} {taskId : Option Int} :
    ∀ (n count fuel : Nat) (t0 : Trace),
      (∀ j, j < n →
        TaskInProgress w c taskId (t0 ++ pollTrace (.DescribeVpcTaskResult c taskId) 10 j)) →
      count + n < 20 →
      terminateNatGatewayPoll w c taskId count (fuel + n) t0 =
        terminateNatGatewayPoll w c taskId (count + n) fuel
          (t0 ++ pollTrace (.DescribeVpcTaskResult c taskId) 10 n) := by
  intro n
  induction n with
  | zero => intro count fuel t0 _ _; simp [pollTrace]
  | succ k ih =>
    intro count fuel t0 h hlt
    have h0 : TaskInProgress w c taskId t0 := by simpa [pollTrace] using h 0 (by omega)
    have hstep := terminateNatGatewayPoll_round h0 count (fuel + k)
    rw [if_neg (by omega)] at hstep
    have hfuel : fuel + (k + 1) = fuel + k + 1 := by omega
    rw [hfuel, hstep, ih (count + 1) fuel _ ?_ (by omega), pollTrace_shift]
    · congr 1
      omega
    · intro j hj
      rw [pollTrace_shift]
      exact h (j + 1) (by omega)

/-- Twenty rounds in progress exhaust the budget of the gateway poll. -/
theorem terminateNatGatewayPoll_timeout {w : World} {c : Client} {taskId : Option Int}
    {fuel : Nat} {t0 : Trace} (hfuel : 20 ≤ fuel)
    (h : ∀ j, j < 20 →
      TaskInProgress w c taskId (t0 ++ pollTrace (.DescribeVpcTaskResult c taskId) 10 j)) :
    terminateNatGatewayPoll w c taskId 0 fuel t0 =
      .done (some "terminateNatGateway query result timeout")
        (t0 ++ pollTrace (.DescribeVpcTaskResult c taskId) 10 20) := by
  obtain ⟨f, rfl⟩ : ∃ f, fuel = (f + 1) + 19 := ⟨fuel - 20, by omega⟩
  rw [terminateNatGatewayPoll_rounds 19 0 (f + 1) t0 (fun j hj => h j (by omega)) (by omega),
    terminateNatGatewayPoll_round (h 19 (by omega))]
  simp [pollTrace_succ _ _ 19]

/-- One round of the cache poll on a deal still in progress. -/
theorem waitForRedisPoll_round {w : World} {client : Client} {dealid : String}
    {t0 : Trace} (h : DealInProgress w client dealid t0) (count fuel : Nat) :
    waitForRedisPoll w client dealid count (fuel + 1) t0 =
      if count + 1 ≥ 20 then
        .done ("", some "waitForRedisInstancesCreationToFinish timeout")
          (t0 ++ [.DescribeInstanceDealDetail client dealid] ++ [.Sleep 10])
      else waitForRedisPoll w client dealid (count + 1) fuel
          (t0 ++ [.DescribeInstanceDealDetail client dealid] ++ [.Sleep 10]) := by
  obtain ⟨d, others, s, hq, hs, h4⟩ := h
  by_cases hc : count + 1 ≥ 20
  · simp [waitForRedisPoll, Prog.bind, hq, hs, h4, hc, REDIS_STATUS_RUNNING]
  · simp [waitForRedisPoll, Prog.bind, hq, hs, h4, hc, REDIS_STATUS_RUNNING]

/-- Rounds of the cache poll on a deal in progress, while the budget lasts. -/
theorem waitForRedisPoll_rounds {w : World} {client : Client} {dealid : String} :
    ∀ (n count fuel : Nat) (t0 : Trace),
      (∀ j, j < n →
        DealInProgress w client dealid
          (t0 ++ pollTrace (.DescribeInstanceDealDetail client dealid) 10 j)) →
      count + n < 20 →
      waitForRedisPoll w client dealid count (fuel + n) t0 =
        waitForRedisPoll w client dealid (count + n) fuel
          (t0 ++ pollTrace (.DescribeInstanceDealDetail client dealid) 10 n) := by
  intro n
  induction n with
  | zero => intro count fuel t0 _ _; simp [pollTrace]
  | succ k ih =>
    intro count fuel t0 h hlt
    have h0 : DealInProgress w client dealid t0 := by simpa [pollTrace] using h 0 (by omega)
    have hstep := waitForRedisPoll_round h0 count (fuel + k)
    rw [if_neg (by omega)] at hstep
    have hfuel : fuel + (k + 1) = fuel + k + 1 := by omega
    rw [hfuel, hstep, ih (count + 1) fuel _ ?_ (by omega), pollTrace_shift]
    · congr 1
      omega
    · intro j hj
      rw [pollTrace_shift]
      exact h (j + 1) (by omega)

/-- Twenty rounds in progress exhaust the budget of the cache poll. -/
theorem waitForRedisPoll_timeout {w : World} {client : Client} {dealid : String}
    {fuel : Nat} {t0 : Trace} (hfuel : 20 ≤ fuel)
    (h : ∀ j, j < 20 →
      DealInProgress w client dealid
        (t0 ++ pollTrace (.DescribeInstanceDealDetail client dealid) 10 j)) :
    waitForRedisPoll w client dealid 0 fuel t0 =
      .done ("", some "waitForRedisInstancesCreationToFinish timeout")
        (t0 ++ pollTrace (.DescribeInstanceDealDetail client dealid) 10 20) := by
  obtain ⟨f, rfl⟩ : ∃ f, fuel = (f + 1) + 19 := ⟨fuel - 20, by omega⟩
  rw [waitForRedisPoll_rounds 19 0 (f + 1) t0 (fun j hj => h j (by omega)) (by omega),
    waitForRedisPoll_round (h 19 (by omega))]
  simp [pollTrace_succ _ _ 19]

theorem joinInstanceIds_run (ids : List String) :
    ∀ (start : String) (t : Trace),
      joinInstanceIds (ids.map some) start t = .done (joinIds ids start) t := by
  induction ids with
  | nil => intro start t; rfl
  | cons x xs ih =>
    intro start t
    simp only [List.map_cons, joinInstanceIds, bind_run, Prog.bind, deref_some_run, ih]
    rfl

/-- The gateway poll up to its m+1-st query, when the first m queries show the task in
progress: what remains is the loop at count m, about to issue that query. -/
theorem terminateNatGatewayPoll_upto {w : World} {c : Client} {taskId : Option Int}
    {fuel m : Nat} {t0 : Trace} (hm : m < 20) (hfuel : m + 1 ≤ fuel)
    (h : ∀ j, j < m →
      TaskInProgress w c taskId (t0 ++ pollTrace (.DescribeVpcTaskResult c taskId) 10 j)) :
    terminateNatGatewayPoll w c taskId 0 fuel t0 =
      terminateNatGatewayPoll w c taskId m (fuel - m - 1 + 1)
        (t0 ++ pollTrace (.DescribeVpcTaskResult c taskId) 10 m) := by
  have hf : fuel = (fuel - m - 1 + 1) + m := by omega
  conv_lhs => rw [hf]
  rw [terminateNatGatewayPoll_rounds m 0 _ t0 h (by omega)]
  simp

/-- The cache poll up to its m+1-st query, when the first m queries show the deal in
progress. -/
theorem waitForRedisPoll_upto {w : World} {client : Client} {dealid : String}
    {fuel m : Nat} {t0 : Trace} (hm : m < 20) (hfuel : m + 1 ≤ fuel)
    (h : ∀ j, j < m →
      DealInProgress w client dealid
        (t0 ++ pollTrace (.DescribeInstanceDealDetail client dealid) 10 j)) :
    waitForRedisPoll w client dealid 0 fuel t0 =
      waitForRedisPoll w client dealid m (fuel - m - 1 + 1)
        (t0 ++ pollTrace (.DescribeInstanceDealDetail client dealid) 10 m) := by
  have hf : fuel = (fuel - m - 1 + 1) + m := by omega
  conv_lhs => rw [hf]
  rw [waitForRedisPoll_rounds m 0 _ t0 h (by omega)]
  simp

/-- The body of `terminateNatGateway` once the deletion call is accepted. -/
theorem terminateNatGateway_accepted {env : Env} {w : World} {fuel : Nat}
    {natGateway : NatGatewayInput} {t0 : Trace} {resp : DeleteNatGatewayResponse}
    (h : w.deleteNatGateway t0 (mkClient (env.getMapFromProviderParams natGateway.ProviderParams))
      natGateway.VpcId natGateway.Id = .ok resp) :
    terminateNatGateway env w fuel natGateway t0 =
      terminateNatGatewayPoll w (mkClient (env.getMapFromProviderParams natGateway.ProviderParams))
        resp.TaskId 0 fuel
        (t0 ++ [.DeleteNatGateway (mkClient (env.getMapFromProviderParams
          natGateway.ProviderParams)) natGateway.VpcId natGateway.Id]) := by
  simp [terminateNatGateway, Prog.bind, h]

theorem countOf_cons (kind : Event → Bool) (e : Event) (tr : Trace) :
    countOf kind (e :: tr) = (if kind e then 1 else 0) + countOf kind tr := by
  by_cases h : kind e
  · simp [countOf, List.filter, h]
    omega
  · simp [countOf, List.filter, h]

theorem countOf_nil (kind : Event → Bool) : countOf kind [] = 0 := rfl

/-- The gateway poll ends with success on the query that shows status 0. -/
theorem terminateNatGatewayPoll_converged {w : World} {c : Client} {taskId : Option Int}
    {t : Trace} (h : w.describeVpcTaskResult t c taskId = .ok { Status := some 0 })
    (count fuel : Nat) :
    terminateNatGatewayPoll w c taskId count (fuel + 1) t =
      .done none (t ++ [.DescribeVpcTaskResult c taskId]) := by
  simp [terminateNatGatewayPoll, Prog.bind, h]

/-- The gateway poll ends with the retry error on the query that shows status 1. -/
theorem terminateNatGatewayPoll_failed {w : World} {c : Client} {taskId : Option Int}
    {t : Trace} (h : w.describeVpcTaskResult t c taskId = .ok { Status := some 1 })
    (count fuel : Nat) :
    terminateNatGatewayPoll w c taskId count (fuel + 1) t =
      .done (some "terminateNatGateway execute failed ,need retry")
        (t ++ [.DescribeVpcTaskResult c taskId]) := by
  simp [terminateNatGatewayPoll, Prog.bind, h]

/-- The gateway poll ends with the query's own error on the query that fails. -/
theorem terminateNatGatewayPoll_queryError {w : World} {c : Client} {taskId : Option Int}
    {t : Trace} {e : Err} (h : w.describeVpcTaskResult t c taskId = .error e)
    (count fuel : Nat) :
    terminateNatGatewayPoll w c taskId count (fuel + 1) t =
      .done (some e) (t ++ [.DescribeVpcTaskResult c taskId]) := by
  simp [terminateNatGatewayPoll, Prog.bind, h]

/-- The cache poll ends with the joined instance ids on the query that shows status 4. -/
theorem waitForRedisPoll_converged {w : World} {client : Client} {dealid : String}
    {t : Trace} {d : DealDetail} {others : List DealDetail} {ids : List String}
    (h : w.describeInstanceDealDetail t client dealid = .ok (d :: others))
    (hst : d.Status = some 4) (hids : d.InstanceIds = ids.map some) (count fuel : Nat) :
    waitForRedisPoll w client dealid count (fuel + 1) t =
      .done (joinIds ids "", none) (t ++ [.DescribeInstanceDealDetail client dealid]) := by
  simp [waitForRedisPoll, Prog.bind, h, hst, hids, REDIS_STATUS_RUNNING, joinInstanceIds_run]

theorem confirms_mono {w : World} {t t1 : Trace} {client : Client} {id : String}
    (h : Confirms w t client id) (hext : t <+: t1) : Confirms w t1 client id := by
  obtain ⟨before, after, d, rfl, hq⟩ := h
  obtain ⟨s, rfl⟩ := hext
  exact ⟨before, after ++ s, d, by simp, hq⟩

theorem guarded_nil (w : World) : Guarded w [] := by
  intro before after e client id h
  simp at h

/-- Appending an event keeps the history guarded when the event is not a mutation, or is a
mutation of an identifier that the history confirms. -/
theorem guarded_snoc {w : World} {t : Trace} {e : Event} (ht : Guarded w t)
    (he : ∀ client id, mutatedId e = some (client, id) → Confirms w t client id) :
    Guarded w (t ++ [e]) := by
  intro before after e1 client id hsplit hmut
  rcases List.eq_nil_or_concat after with rfl | ⟨init, last, rfl⟩
  · have hlen : ([e] : Trace).length = [e1].length := rfl
    have hsplit1 : t ++ [e] = before ++ [e1] := hsplit
    obtain ⟨h1, h2⟩ := List.append_inj' hsplit1 hlen
    simp only [List.cons.injEq, and_true] at h2
    subst h1 h2
    exact he client id hmut
  · have hsplit1 : t ++ [e] = (before ++ e1 :: init) ++ [last] := by
      rw [hsplit]; simp
    obtain ⟨h1, -⟩ := List.append_inj' hsplit1 rfl
    exact ht before init e1 client id h1 hmut

theorem run_trace {α : Type} {w : World} {m : Prog α} {t : Trace} {Q : α → Trace → Prop}
    (h : Run w m t Q) : Guarded w (m t).trace ∧ t <+: (m t).trace := by
  unfold Run at h
  cases hm : m t with
  | done a t1 => rw [hm] at h; exact ⟨h.1, h.2.1⟩
  | panicked t1 => rw [hm] at h; exact h
  | outOfFuel t1 => rw [hm] at h; exact h

theorem run_pure {α : Type} {w : World} {t : Trace} {Q : α → Trace → Prop} {a : α}
    (ht : Guarded w t) (hq : Q a t) : Run w (pure a) t Q :=
  ⟨ht, List.prefix_refl t, hq⟩

theorem run_exhausted {α : Type} {w : World} {t : Trace} {Q : α → Trace → Prop}
    (ht : Guarded w t) : Run w (exhausted : Prog α) t Q :=
  ⟨ht, List.prefix_refl t⟩

theorem run_deref {α : Type} {w : World} {t : Trace} {Q : α → Trace → Prop} {o : Option α}
    (ht : Guarded w t) (hq : ∀ a, o = some a → Q a t) : Run w (deref o) t Q := by
  cases o with
  | none => exact ⟨ht, List.prefix_refl t⟩
  | some a => exact ⟨ht, List.prefix_refl t, hq a rfl⟩

theorem run_emit {α : Type} {w : World} {t : Trace} {Q : α → Trace → Prop} {e : Event}
    {answer : Trace → α} (ht : Guarded w t)
    (he : ∀ client id, mutatedId e = some (client, id) → Confirms w t client id)
    (hq : Guarded w (t ++ [e]) → Q (answer t) (t ++ [e])) : Run w (emit e answer) t Q :=
  ⟨guarded_snoc ht he, List.prefix_append t [e], hq (guarded_snoc ht he)⟩

theorem run_bind {α β : Type} {w : World} {m : Prog α} {f : α → Prog β} {t : Trace}
    {Q : β → Trace → Prop} (h : Run w m t (fun a t1 => Run w (f a) t1 Q)) :
    Run w (m >>= f) t Q := by
  unfold Run at h ⊢
  simp only [bind_run, Prog.bind]
  cases hm : m t with
  | done a t1 =>
    rw [hm] at h
    obtain ⟨-, hext, hf⟩ := h
    simp only
    cases hfa : f a t1 with
    | done b t2 => rw [hfa] at hf; exact ⟨hf.1, hext.trans hf.2.1, hf.2.2⟩
    | panicked t2 => rw [hfa] at hf; exact ⟨hf.1, hext.trans hf.2⟩
    | outOfFuel t2 => rw [hfa] at hf; exact ⟨hf.1, hext.trans hf.2⟩
  | panicked t1 => rw [hm] at h; exact h
  | outOfFuel t1 => rw [hm] at h; exact h

theorem run_mono {α : Type} {w : World} {m : Prog α} {t : Trace} {P Q : α → Trace → Prop}
    (h : Run w m t P) (hpq : ∀ a t1, Guarded w t1 → t <+: t1 → P a t1 → Q a t1) :
    Run w m t Q := by
  unfold Run at h ⊢
  cases hm : m t with
  | done a t1 => rw [hm] at h; exact ⟨h.1, h.2.1, hpq a t1 h.1 h.2.1 h.2.2⟩
  | panicked t1 => rw [hm] at h; exact h
  | outOfFuel t1 => rw [hm] at h; exact h

/-- Sequencing with a known specification of the first part. -/
theorem run_seq {α β : Type} {w : World} {m : Prog α} {f : α → Prog β} {t : Trace}
    {P : α → Trace → Prop} {Q : β → Trace → Prop} (h : Run w m t P)
    (hf : ∀ a t1, Guarded w t1 → t <+: t1 → P a t1 → Run w (f a) t1 Q) :
    Run w (m >>= f) t Q :=
  run_bind (run_mono h hf)


theorem queryStorageInfo_run {w : World} {client : Client} {storageId : String} {t : Trace}
    (ht : Guarded w t) :
    Run w (queryStorageInfo w client storageId) t
      (fun r t1 => r.2.1 = true → Confirms w t1 client storageId) := by
  unfold queryStorageInfo
  apply run_bind
  apply run_emit ht
  · intro c id h
    simp [mutatedId] at h
  · intro hg
    cases hq : w.describeDisks t client storageId with
    | error err => exact run_pure hg (by simp)
    | ok diskSet =>
      simp only
      by_cases hlen : diskSet.length > 1
      · rw [if_pos hlen]
        exact run_pure hg (by simp)
      · rw [if_neg hlen]
        cases diskSet with
        | nil => exact run_pure hg (by simp)
        | cons d rest =>
          have hrest : rest = [] := by
            cases rest with
            | nil => rfl
            | cons x xs => simp at hlen
          subst hrest
          exact run_pure hg (fun _ => ⟨t, [], d, rfl, hq⟩)

theorem sleep_run_guarded {w : World} {t : Trace} {Q : Unit → Trace → Prop} {seconds : Nat}
    (ht : Guarded w t) (hq : Guarded w (t ++ [.Sleep seconds]) → Q () (t ++ [.Sleep seconds])) :
    Run w (sleep seconds) t Q :=
  run_emit ht (by intro c id h; simp [mutatedId] at h) hq

theorem checkDiksStateLoop_run {w : World} {client : Client} {storageId : String}
    {isExist : Bool} {state : String} {count : Nat} :
    ∀ (fuel : Nat) (t : Trace), Guarded w t →
      Run w (checkDiksStateLoop w client storageId isExist state count fuel) t
        (fun _ _ => True) := by
  intro fuel
  induction fuel with
  | zero => intro t ht; exact run_exhausted ht
  | succ n ih =>
    intro t ht
    unfold checkDiksStateLoop
    apply run_seq (queryStorageInfo_run ht)
    rintro ⟨disk, ok, err⟩ t1 hg1 - -
    cases err with
    | some e => exact run_pure hg1 trivial
    | none =>
      simp only
      apply run_bind
      have hreached : Run w
          (if state = "" then (pure (decide (isExist = ok)) : Prog Bool)
            else if ok = true then do
              let d ← deref disk
              let s ← deref d.DiskState
              pure (decide (s = state))
            else pure false) t1 (fun _ _ => True) := by
        by_cases hs : state = ""
        · rw [if_pos hs]; exact run_pure hg1 trivial
        · rw [if_neg hs]
          cases ok with
          | false => exact run_pure hg1 trivial
          | true =>
            simp only [if_true]
            apply run_bind
            apply run_deref hg1
            intro d _
            apply run_bind
            apply run_deref hg1
            intro s _
            exact run_pure hg1 trivial
      apply run_mono hreached
      intro reached t2 hg2 _ _
      cases reached with
      | true => exact run_pure hg2 trivial
      | false =>
        simp only [Bool.false_eq_true, if_false]
        by_cases hc : count > 20
        · rw [if_pos hc]
          apply run_bind
          apply run_deref hg2
          intro d _
          apply run_bind
          apply run_deref hg2
          intro s _
          exact run_pure hg2 trivial
        · rw [if_neg hc]
          apply run_bind
          apply sleep_run_guarded hg2
          intro hg3
          exact ih _ hg3

theorem checkDiksState_run {w : World} {client : Client} {storageId : String}
    {isExist : Bool} {state : String} {fuel : Nat} {t : Trace} (ht : Guarded w t) :
    Run w (checkDiksState w client storageId isExist state fuel) t (fun _ _ => True) :=
  checkDiksStateLoop_run fuel t ht

theorem setProviderParams_idem (storage : StorageInput) :
    setProviderParams (setProviderParams storage) = setProviderParams storage := by
  unfold setProviderParams
  by_cases h : storage.Location ≠ "" ∧ storage.APISecret ≠ ""
  · simp [h]
  · simp [h]

theorem setProviderParams_Id (storage : StorageInput) :
    (setProviderParams storage).Id = storage.Id := by
  unfold setProviderParams
  split <;> rfl

theorem setProviderParams_withId (storage : StorageInput) (id : String) :
    setProviderParams { storage with Id := id } =
      { setProviderParams storage with Id := id } := by
  unfold setProviderParams
  by_cases h : storage.Location ≠ "" ∧ storage.APISecret ≠ ""
  · simp [h]
  · simp [h]

theorem createStorageNew_run {env : Env} {w : World} {fuel : Nat} {storage : StorageInput}
    {paramsMap : String → Option String} {client : Client} {t : Trace} (ht : Guarded w t) :
    Run w (createStorageNew env w fuel storage paramsMap client) t (fun _ _ => True) := by
  unfold createStorageNew
  simp only
  split
  · exact run_pure ht trivial
  · split
    · exact run_pure ht trivial
    · apply run_bind
      apply run_emit ht
      · intro c id h
        simp [mutatedId] at h
      · intro hg
        split
        · exact run_pure hg trivial
        · split
          · exact run_pure hg trivial
          · apply run_bind
            apply run_deref hg
            intro requestId _
            apply run_bind
            apply run_deref hg
            intro id _
            apply run_seq (checkDiksState_run hg)
            intro err t1 hg1 _ _
            cases err with
            | some e => exact run_pure hg1 trivial
            | none => exact run_pure hg1 trivial

theorem createStorage_run {env : Env} {w : World} {fuel : Nat} {storage : StorageInput}
    {t : Trace} (ht : Guarded w t) :
    Run w (createStorage env w fuel storage) t
      (fun r _ => r.1 = setProviderParams storage) := by
  unfold createStorage
  simp only
  have hcreate : ∀ t1, Guarded w t1 →
      Run w (do
          let (output, err) ← createStorageNew env w fuel (setProviderParams storage)
            (env.getMapFromProviderParams (setProviderParams storage).ProviderParams)
            (mkClient (env.getMapFromProviderParams (setProviderParams storage).ProviderParams))
          pure (setProviderParams storage, output, err)) t1
        (fun r _ => r.1 = setProviderParams storage) := by
    intro t1 hg1
    apply run_seq (createStorageNew_run hg1)
    rintro ⟨output, err⟩ t2 hg2 _ _
    exact run_pure hg2 rfl
  split
  · exact run_pure ht rfl
  · split
    · apply run_seq (queryStorageInfo_run ht)
      rintro ⟨disk, ok, err⟩ t1 hg1 _ _
      cases err with
      | some e => exact run_pure hg1 rfl
      | none =>
        cases ok with
        | true => exact run_pure hg1 rfl
        | false => exact hcreate t1 hg1
    · exact hcreate t ht

theorem attachStorage_run {env : Env} {w : World} {fuel : Nat} {storage : StorageInput}
    {t : Trace} (ht : Guarded w t) :
    Run w (attachStorage env w fuel storage) t (fun _ _ => True) := by
  unfold attachStorage
  apply run_seq (queryStorageInfo_run ht)
  rintro ⟨disk, ok, err⟩ t1 hg1 _ hconf
  cases err with
  | some e => exact run_pure hg1 trivial
  | none =>
    cases ok with
    | false => exact run_pure hg1 trivial
    | true =>
      simp only [Bool.not_true, Bool.false_eq_true, if_false]
      apply run_bind
      apply run_deref hg1
      intro d _
      apply run_bind
      apply run_deref hg1
      intro diskState _
      split
      · apply run_bind
        apply run_deref hg1
        intro instanceId _
        split
        · exact run_pure hg1 trivial
        · exact run_pure hg1 trivial
      · apply run_bind
        apply run_emit hg1
        · intro c id h
          simp only [mutatedId, Option.some.injEq, Prod.mk.injEq] at h
          obtain ⟨rfl, rfl⟩ := h
          exact hconf rfl
        · intro hg2
          split
          · exact run_pure hg2 trivial
          · apply run_seq (checkDiksState_run hg2)
            intro err t3 hg3 _ _
            cases err with
            | some e => exact run_pure hg3 trivial
            | none => exact run_pure hg3 trivial

theorem storageCreateItem_run {env : Env} {w : World} {fuel : Nat} {storage : StorageInput}
    {t : Trace} (ht : Guarded w t) :
    Run w (storageCreateItem env w fuel storage) t (fun _ _ => True) := by
  unfold storageCreateItem
  simp only
  split
  · exact run_pure ht trivial
  · apply run_seq (createStorage_run ht)
    rintro ⟨storage1, result, err⟩ t1 hg1 _ _
    cases err with
    | some e => exact run_pure hg1 trivial
    | none =>
      simp only
      apply run_bind
      apply run_deref hg1
      intro r _
      apply run_seq (attachStorage_run hg1)
      rintro ⟨storage2, err2⟩ t2 hg2 _ _
      cases err2 with
      | some e => exact run_pure hg2 trivial
      | none => exact run_pure hg2 trivial

theorem detachStorage_run {env : Env} {w : World} {fuel : Nat} {storage : StorageInput}
    {t : Trace} (ht : Guarded w t)
    (hconf : Confirms w t (storageClient env storage) storage.Id) :
    Run w (detachStorage env w fuel storage) t
      (fun r _ => r.1 = setProviderParams storage) := by
  unfold detachStorage
  apply run_bind
  apply run_emit ht
  · intro c id h
    simp only [mutatedId, Option.some.injEq, Prod.mk.injEq] at h
    obtain ⟨rfl, rfl⟩ := h
    rw [setProviderParams_Id]
    exact hconf
  · intro hg
    split
    · exact run_pure hg rfl
    · apply run_seq (checkDiksState_run hg)
      intro err t1 hg1 _ _
      cases err with
      | some e => exact run_pure hg1 rfl
      | none => exact run_pure hg1 rfl

theorem terminateStorage_run {env : Env} {w : World} {fuel : Nat} {storage : StorageInput}
    {t : Trace} (ht : Guarded w t)
    (hconf : Confirms w t (storageClient env storage) storage.Id) :
    Run w (terminateStorage env w fuel storage) t (fun _ _ => True) := by
  unfold terminateStorage
  apply run_bind
  apply run_emit ht
  · intro c id h
    simp only [mutatedId, Option.some.injEq, Prod.mk.injEq] at h
    obtain ⟨rfl, rfl⟩ := h
    rw [setProviderParams_Id]
    exact hconf
  · intro hg
    split
    · exact run_pure hg trivial
    · apply run_bind
      apply run_deref hg
      intro requestId _
      apply run_seq (checkDiksState_run hg)
      intro err t1 hg1 _ _
      cases err with
      | some e => exact run_pure hg1 trivial
      | none => exact run_pure hg1 trivial

theorem storageTerminateItem_run {env : Env} {w : World} {fuel : Nat} {storage : StorageInput}
    {t : Trace} (ht : Guarded w t) :
    Run w (storageTerminateItem env w fuel storage) t (fun _ _ => True) := by
  unfold storageTerminateItem
  simp only
  split
  · exact run_pure ht trivial
  · apply run_seq (queryStorageInfo_run ht)
    rintro ⟨disk, ok, err⟩ t1 hg1 _ hconf
    cases err with
    | some e => exact run_pure hg1 trivial
    | none =>
      cases ok with
      | false => exact run_pure hg1 trivial
      | true =>
        simp only [Bool.not_true, Bool.false_eq_true, if_false]
        have hc1 : Confirms w t1 (storageClient env storage) storage.Id := by
          have := hconf rfl
          rw [setProviderParams_Id] at this
          exact this
        apply run_bind
        apply run_deref hg1
        intro d _
        apply run_bind
        apply run_deref hg1
        intro diskState _
        have hdet : Run w
            (if diskState = "ATTACHED" then detachStorage env w fuel (setProviderParams storage)
              else pure (setProviderParams storage, none)) t1
            (fun r _ => r.1 = setProviderParams storage) := by
          split
          · have := @detachStorage_run env w fuel (setProviderParams storage) t1 hg1
              (by rw [storageClient, setProviderParams_idem, setProviderParams_Id]; exact hc1)
            rw [setProviderParams_idem] at this
            exact this
          · exact run_pure hg1 rfl
        apply run_seq hdet
        rintro ⟨storage1, err1⟩ t2 hg2 hext2 hs1
        simp only at hs1
        subst hs1
        cases err1 with
        | some e => exact run_pure hg2 trivial
        | none =>
          simp only
          apply run_seq (terminateStorage_run hg2
            (by rw [storageClient, setProviderParams_idem, setProviderParams_Id]
                exact confirms_mono hc1 hext2))
          rintro ⟨s2, r2, err2⟩ t3 hg3 _ _
          cases err2 with
          | some e => exact run_pure hg3 trivial
          | none => exact run_pure hg3 trivial

theorem storageLoop_run {w : World} {item : StorageInput → Prog (StorageOutput × Option Err)}
    (hitem : ∀ s t, Guarded w t → Run w (item s) t (fun _ _ => True)) :
    ∀ (inputs : List StorageInput) (outs : List StorageOutput) (fe : Option Err) (t : Trace),
      Guarded w t → Run w (storageLoop item inputs outs fe) t (fun _ _ => True) := by
  intro inputs
  induction inputs with
  | nil => intro outs fe t ht; exact run_pure ht trivial
  | cons s rest ih =>
    intro outs fe t ht
    unfold storageLoop
    apply run_seq (hitem s t ht)
    rintro ⟨o, e⟩ t1 hg1 _ _
    exact ih _ _ t1 hg1

theorem terminateNatGatewayPoll_extends {w : World} {c : Client} {taskId : Option Int} :
    ∀ (fuel count : Nat) (t : Trace),
      t <+: (terminateNatGatewayPoll w c taskId count fuel t).trace := by
  intro fuel
  induction fuel with
  | zero => intro count t; exact List.prefix_refl t
  | succ n ih =>
    intro count t
    simp only [terminateNatGatewayPoll, bind_run, Prog.bind, emit_run]
    cases w.describeVpcTaskResult t c taskId with
    | error e => exact List.prefix_append t _
    | ok resp =>
      simp only [bind_run, Prog.bind]
      cases resp.Status with
      | none => exact List.prefix_append t _
      | some s =>
        simp only [deref_some_run]
        by_cases h0 : s = 0
        · simp only [h0, if_true]
          exact List.prefix_append t _
        · by_cases h1 : s = 1
          · simp only [h1, if_true]
            exact List.prefix_append t _
          · simp only [h0, h1, if_false, bind_run, Prog.bind, sleep_run]
            by_cases hc : count + 1 ≥ 20
            · simp only [hc, if_true]
              exact (List.prefix_append t _).trans (List.prefix_append _ _)
            · simp only [hc, if_false]
              exact ((List.prefix_append t _).trans (List.prefix_append _ _)).trans (ih _ _)

theorem terminateNatGateway_starts_with_delete (env : Env) (w : World) (fuel : Nat)
    (natGateway : NatGatewayInput) (t0 : Trace) :
    afterDelete env natGateway t0 <+: (terminateNatGateway env w fuel natGateway t0).trace := by
  simp only [terminateNatGateway, bind_run, Prog.bind, emit_run]
  cases w.deleteNatGateway t0 (mkClient (env.getMapFromProviderParams natGateway.ProviderParams))
      natGateway.VpcId natGateway.Id with
  | error e => exact List.prefix_refl _
  | ok resp => exact terminateNatGatewayPoll_extends _ _ _

theorem terminateRedis_trace (env : Env) (w : World) (redisInput : RedisInput) (t0 : Trace) :
    (terminateRedis env w redisInput t0).trace =
      t0 ++ [.ClearInstance (mkClient (env.getMapFromProviderParams redisInput.ProviderParams))
        redisInput.ID redisInput.Password] := by
  simp only [terminateRedis, bind_run, Prog.bind, emit_run]
  cases w.clearInstance t0 (mkClient (env.getMapFromProviderParams redisInput.ProviderParams))
      redisInput.ID redisInput.Password with
  | error e => rfl
  | ok resp =>
    simp only [bind_run, Prog.bind]
    cases resp.RequestId with
    | none => rfl
    | some r =>
      simp only [deref_some_run]
      cases resp.TaskId with
      | none => rfl
      | some tid => rfl

theorem not_guarded_of_head {w : World} {e : Event} {rest : Trace} {client : Client}
    {id : String} (he : mutatedId e = some (client, id)) : ¬ Guarded w (e :: rest) := by
  intro h
  obtain ⟨before, after, d, hsplit, -⟩ := h [] rest e client id rfl he
  simp at hsplit

theorem createStorage_existing {env : Env} {w : World} {fuel : Nat} {storage : StorageInput}
    {t0 : Trace} {d : Disk} (hid : storage.Id ≠ "")
    (hzone : env.getMapFromProviderParams (setProviderParams storage).ProviderParams
      "AvailableZone" ≠ some "")
    (hq : w.describeDisks t0 (storageClient env storage) storage.Id = .ok [d]) :
    createStorage env w fuel storage t0 =
      .done (setProviderParams storage, some { Id := storage.Id }, none)
        (t0 ++ [.DescribeDisks (storageClient env storage) storage.Id]) := by
  unfold createStorage
  simp only [hzone, if_false, setProviderParams_Id, hid, ne_eq, not_false_eq_true, if_true]
  simp [queryStorageInfo, Prog.bind, hq]

theorem queryStorageInfo_found {w : World} {client : Client} {storageId : String} {t : Trace}
    {d : Disk} (hq : w.describeDisks t client storageId = .ok [d]) :
    queryStorageInfo w client storageId t =
      .done (some d, true, none) (t ++ [.DescribeDisks client storageId]) := by
  simp [queryStorageInfo, Prog.bind, hq]

/-- One round of `checkDiksState`, whatever the control plane answers: either the loop goes
round again after the query and the sleep, or the run ends right after the query, and it
ends with no error only if, when a state is awaited, the query showed one disk in it. -/
theorem checkDiksStateLoop_step (w : World) (client : Client) (storageId : String)
    (isExist : Bool) (state : String) (count fuel : Nat) (t : Trace) :
    checkDiksStateLoop w client storageId isExist state count (fuel + 1) t =
        checkDiksStateLoop w client storageId isExist state count fuel
          (t ++ [.DescribeDisks client storageId] ++ [.Sleep 5]) ∨
      ((checkDiksStateLoop w client storageId isExist state count (fuel + 1) t).trace =
          t ++ [.DescribeDisks client storageId] ∧
        (state ≠ "" → ∀ t1,
          checkDiksStateLoop w client storageId isExist state count (fuel + 1) t =
            .done none t1 →
          ∃ d, w.describeDisks t client storageId = .ok [d] ∧ d.DiskState = some state)) := by
  cases hq : w.describeDisks t client storageId with
  | error e =>
    right
    simp [checkDiksStateLoop, queryStorageInfo, Prog.bind, hq, Res.trace]
  | ok diskSet =>
    by_cases hc : count > 20
    · right
      rcases diskSet with _ | ⟨d, _ | ⟨d2, rest⟩⟩
      · by_cases hs : state = "" <;> cases isExist <;>
          simp [checkDiksStateLoop, queryStorageInfo, Prog.bind, hq, Res.trace, hs, hc, deref]
      · by_cases hs : state = ""
        · cases isExist <;> cases hd : d.DiskState <;>
            simp [checkDiksStateLoop, queryStorageInfo, Prog.bind, hq, Res.trace, hs, hc,
              deref, hd]
        · cases hd : d.DiskState with
          | none =>
            simp [checkDiksStateLoop, queryStorageInfo, Prog.bind, hq, Res.trace, hs, hc,
              deref, hd]
          | some s =>
            by_cases hm : s = state <;>
              simp [checkDiksStateLoop, queryStorageInfo, Prog.bind, hq, Res.trace, hs, hc,
                deref, hd, hm]
      · simp [checkDiksStateLoop, queryStorageInfo, Prog.bind, hq, Res.trace]
    · rcases diskSet with _ | ⟨d, _ | ⟨d2, rest⟩⟩
      · by_cases hs : state = ""
        · cases isExist
          · right
            simp [checkDiksStateLoop, queryStorageInfo, Prog.bind, hq, Res.trace, hs]
          · left
            simp [checkDiksStateLoop, queryStorageInfo, Prog.bind, hq, hs, hc]
        · left
          simp [checkDiksStateLoop, queryStorageInfo, Prog.bind, hq, hs, hc]
      · by_cases hs : state = ""
        · cases isExist
          · left
            simp [checkDiksStateLoop, queryStorageInfo, Prog.bind, hq, hs, hc]
          · right
            simp [checkDiksStateLoop, queryStorageInfo, Prog.bind, hq, Res.trace, hs]
        · cases hd : d.DiskState with
          | none =>
            right
            simp [checkDiksStateLoop, queryStorageInfo, Prog.bind, hq, Res.trace, hs, deref,
              hd]
          | some s =>
            by_cases hm : s = state
            · right
              simp [checkDiksStateLoop, queryStorageInfo, Prog.bind, hq, Res.trace, hs, hd,
                hm]
            · left
              simp [checkDiksStateLoop, queryStorageInfo, Prog.bind, hq, hs, hc, hd, hm]
      · right
        simp [checkDiksStateLoop, queryStorageInfo, Prog.bind, hq, Res.trace]

/-- What a run of the `checkDiksState` loop adds to the history: disk queries and sleeps
only; and when it returns no error while waiting for a state, its last event is a query
that showed one disk in that state. -/
theorem checkDiksStateLoop_polls (w : World) (client : Client) (storageId : String)
    (isExist : Bool) (state : String) (count : Nat) :
    ∀ (fuel : Nat) (t : Trace), ∃ ext : Trace,
      (checkDiksStateLoop w client storageId isExist state count fuel t).trace = t ++ ext ∧
      (∀ e ∈ ext, e = .DescribeDisks client storageId ∨ e = .Sleep 5) ∧
      (state ≠ "" → ∀ t1,
        checkDiksStateLoop w client storageId isExist state count fuel t = .done none t1 →
        ∃ polled d, ext = polled ++ [.DescribeDisks client storageId] ∧
          w.describeDisks (t ++ polled) client storageId = .ok [d] ∧
          d.DiskState = some state) := by
  intro fuel
  induction fuel with
  | zero =>
    intro t
    refine ⟨[], by simp [checkDiksStateLoop, Res.trace], by simp, ?_⟩
    intro _ t1 h
    simp [checkDiksStateLoop] at h
  | succ n ih =>
    intro t
    rcases checkDiksStateLoop_step w client storageId isExist state count n t with
      hstep | ⟨htr, hdone⟩
    · obtain ⟨ext, hext, hev, hlast⟩ :=
        ih (t ++ [.DescribeDisks client storageId] ++ [.Sleep 5])
      refine ⟨.DescribeDisks client storageId :: .Sleep 5 :: ext, ?_, ?_, ?_⟩
      · rw [hstep, hext]; simp
      · intro e he
        simp only [List.mem_cons] at he
        rcases he with rfl | rfl | he
        · exact Or.inl rfl
        · exact Or.inr rfl
        · exact hev e he
      · intro hs t1 h
        rw [hstep] at h
        obtain ⟨polled, d, hp, hq, hd⟩ := hlast hs t1 h
        refine ⟨.DescribeDisks client storageId :: .Sleep 5 :: polled, d, by simp [hp], ?_, hd⟩
        simpa using hq
    · refine ⟨[.DescribeDisks client storageId], htr, by simp, ?_⟩
      intro hs t1 h
      obtain ⟨d, hq, hd⟩ := hdone hs t1 h
      exact ⟨[], d, rfl, by simpa using hq, hd⟩

theorem countOf_eq_zero {kind : Event → Bool} {ext : Trace}
    (h : ∀ e ∈ ext, kind e = false) : countOf kind ext = 0 := by
  induction ext with
  | nil => rfl
  | cons x xs ih =>
    rw [countOf_cons, h x (List.mem_cons_self x xs),
      ih (fun e he => h e (List.mem_cons_of_mem x he))]
    simp

theorem polls_not_terminate {client : Client} {storageId : String} {ext : Trace}
    (h : ∀ e ∈ ext, e = .DescribeDisks client storageId ∨ e = .Sleep 5) :
    ∀ e ∈ ext, isTerminateDisks e = false := by
  intro e he
  rcases h e he with rfl | rfl <;> rfl

/-- The shape of a run of `detachStorage`: the `DetachDisks` call, then disk queries and
sleeps; and when it returns no error, the last of these is a query that showed the disk
UNATTACHED. -/
theorem detachStorage_shape (env : Env) (w : World) (fuel : Nat) (storage : StorageInput)
    (t : Trace) :
    ∃ ext : Trace,
      (detachStorage env w fuel storage t).trace =
        t ++ .DetachDisks (storageClient env storage) storage.Id :: ext ∧
      (∀ e ∈ ext, e = .DescribeDisks (storageClient env storage) storage.Id ∨ e = .Sleep 5) ∧
      (∀ s1 err t1, detachStorage env w fuel storage t = .done (s1, err) t1 →
        s1 = setProviderParams storage) ∧
      (∀ s1 t1, detachStorage env w fuel storage t = .done (s1, none) t1 →
        ∃ polled d, ext = polled ++ [.DescribeDisks (storageClient env storage) storage.Id] ∧
          w.describeDisks
            (t ++ [.DetachDisks (storageClient env storage) storage.Id] ++ polled)
            (storageClient env storage) storage.Id = .ok [d] ∧
          d.DiskState = some "UNATTACHED") := by
  cases hr : w.detachDisks t (storageClient env storage) storage.Id with
  | error e =>
    refine ⟨[], ?_, by simp, ?_, ?_⟩
    · simp [detachStorage, Prog.bind, setProviderParams_Id, hr, Res.trace]
    · intro s1 err t1 h
      simp [detachStorage, Prog.bind, setProviderParams_Id, hr] at h
      exact h.1.1.symm
    · intro s1 t1 h
      simp [detachStorage, Prog.bind, setProviderParams_Id, hr] at h
  | ok u =>
    obtain ⟨ext, hext, hev, hlast⟩ :=
      checkDiksStateLoop_polls w (storageClient env storage) storage.Id true "UNATTACHED" 1
        fuel (t ++ [.DetachDisks (storageClient env storage) storage.Id])
    have hrun : detachStorage env w fuel storage t =
        Prog.bind (checkDiksState w (storageClient env storage) storage.Id true "UNATTACHED"
            fuel)
          (fun err => match err with
            | some e => pure (setProviderParams storage, some e)
            | none => pure (setProviderParams storage, none))
          (t ++ [.DetachDisks (storageClient env storage) storage.Id]) := by
      simp [detachStorage, Prog.bind, setProviderParams_Id, hr]
    rw [hrun]
    unfold checkDiksState
    cases hp : checkDiksStateLoop w (storageClient env storage) storage.Id true "UNATTACHED" 1
        fuel (t ++ [.DetachDisks (storageClient env storage) storage.Id]) with
    | done err t2 =>
      rw [hp] at hext hlast
      simp only [Res.trace] at hext
      refine ⟨ext, ?_, hev, ?_, ?_⟩
      · cases err <;> simp [Prog.bind, hp, Res.trace, hext]
      · intro s1 err1 t1 h
        cases err <;> simp [Prog.bind, hp] at h <;> exact h.1.1.symm
      · intro s1 t1 h
        cases err with
        | some e => simp [Prog.bind, hp] at h
        | none => exact hlast (by decide) t2 rfl
    | panicked t2 =>
      rw [hp] at hext
      simp only [Res.trace] at hext
      refine ⟨ext, by simp [Prog.bind, hp, Res.trace, hext], hev, ?_, ?_⟩
      · intro s1 err1 t1 h
        simp [Prog.bind, hp] at h
      · intro s1 t1 h
        simp [Prog.bind, hp] at h
    | outOfFuel t2 =>
      rw [hp] at hext
      simp only [Res.trace] at hext
      refine ⟨ext, by simp [Prog.bind, hp, Res.trace, hext], hev, ?_, ?_⟩
      · intro s1 err1 t1 h
        simp [Prog.bind, hp] at h
      · intro s1 t1 h
        simp [Prog.bind, hp] at h

/-- The shape of a run of `terminateStorage`: the `TerminateDisks` call, then disk queries
and sleeps. -/
theorem terminateStorage_shape (env : Env) (w : World) (fuel : Nat) (storage : StorageInput)
    (t : Trace) :
    ∃ ext : Trace,
      (terminateStorage env w fuel storage t).trace =
        t ++ .TerminateDisks (storageClient env storage) storage.Id :: ext ∧
      (∀ e ∈ ext, e = .DescribeDisks (storageClient env storage) storage.Id ∨ e = .Sleep 5) := by
  cases hr : w.terminateDisks t (storageClient env storage) storage.Id with
  | error e =>
    exact ⟨[], by simp [terminateStorage, Prog.bind, setProviderParams_Id, hr, Res.trace],
      by simp⟩
  | ok requestIdPtr =>
    cases requestIdPtr with
    | none =>
      exact ⟨[], by simp [terminateStorage, Prog.bind, setProviderParams_Id, hr, Res.trace],
        by simp⟩
    | some requestId =>
      obtain ⟨ext, hext, hev, -⟩ :=
        checkDiksStateLoop_polls w (storageClient env storage) storage.Id false "" 1
          fuel (t ++ [.TerminateDisks (storageClient env storage) storage.Id])
      refine ⟨ext, ?_, hev⟩
      cases hp : checkDiksStateLoop w (storageClient env storage) storage.Id false "" 1
          fuel (t ++ [.TerminateDisks (storageClient env storage) storage.Id]) with
      | done err t2 =>
        rw [hp] at hext
        simp only [Res.trace] at hext
        cases err <;>
          simp [terminateStorage, Prog.bind, setProviderParams_Id, hr, checkDiksState, hp,
            Res.trace, hext]
      | panicked t2 =>
        rw [hp] at hext
        simp only [Res.trace] at hext
        simp [terminateStorage, Prog.bind, setProviderParams_Id, hr, checkDiksState, hp,
          Res.trace, hext]
      | outOfFuel t2 =>
        rw [hp] at hext
        simp only [Res.trace] at hext
        simp [terminateStorage, Prog.bind, setProviderParams_Id, hr, checkDiksState, hp,
          Res.trace, hext]

theorem storageClient_setProviderParams (env : Env) (storage : StorageInput) :
    storageClient env (setProviderParams storage) = storageClient env storage := by
  simp only [storageClient, setProviderParams_idem]

theorem bind_trace_of_pure {α β : Type} {m : Prog α} {f : α → Prog β}
    (hf : ∀ a t, (f a t).trace = t) (t : Trace) :
    (Prog.bind m f t).trace = (m t).trace := by
  unfold Prog.bind
  cases m t with
  | done a t1 => exact hf a t1
  | panicked t1 => rfl
  | outOfFuel t1 => rfl

/-- The body of the terminate loop once the parameters are accepted and the existence query
has shown one disk in a known state: the detach step if the disk is ATTACHED, then, unless
that step returned an error, `terminateStorage`. -/
theorem storageTerminateItem_found {env : Env} {w : World} {fuel : Nat}
    {storage : StorageInput} {t0 : Trace} {d : Disk} {st : String}
    (hc : checkTerminateStorageParams storage = none)
    (hq : w.describeDisks t0 (storageClient env storage) storage.Id = .ok [d])
    (hd : d.DiskState = some st) :
    storageTerminateItem env w fuel storage t0 =
      Prog.bind
        (if st = "ATTACHED" then detachStorage env w fuel (setProviderParams storage)
          else pure (setProviderParams storage, none))
        (fun r => match r.2 with
          | some e =>
            pure ({ Guid := storage.Guid, Id := storage.Id
                    CallBackParameter := { Parameter := storage.CallBackParameter.Parameter }
                    Result := { Code := some .ERROR, Message := e } }, some e)
          | none =>
            Prog.bind (terminateStorage env w fuel r.1)
              (fun r2 => match r2.2.2 with
                | some e =>
                  pure ({ Guid := storage.Guid, Id := storage.Id
                          CallBackParameter :=
                            { Parameter := storage.CallBackParameter.Parameter }
                          Result := { Code := some .ERROR, Message := e } }, some e)
                | none =>
                  pure ({ Guid := storage.Guid, Id := storage.Id
                          CallBackParameter :=
                            { Parameter := storage.CallBackParameter.Parameter }
                          Result := { Code := some .SUCCESS } }, none)))
        (t0 ++ [.DescribeDisks (storageClient env storage) storage.Id]) := by
  simp only [storageTerminateItem, hc, bind_run]
  rw [Prog.bind, setProviderParams_Id, queryStorageInfo_found hq]
  simp only [Bool.not_true, Bool.false_eq_true, if_false, bind_run, Prog.bind,
    deref_some_run, hd]
  rfl

theorem bind_done_trace {α β : Type} {m : Prog α} {f : α → Prog β} {t t1 : Trace} {a : α}
    (h : m t = .done a t1) : (Prog.bind m f t).trace = (f a t1).trace := by
  unfold Prog.bind
  rw [h]

theorem setProviderParams_fields (storage : StorageInput) :
    (setProviderParams storage).DiskSize = storage.DiskSize ∧
      (setProviderParams storage).DiskChargeType = storage.DiskChargeType ∧
      (setProviderParams storage).DiskName = storage.DiskName ∧
      (setProviderParams storage).DiskType = storage.DiskType := by
  unfold setProviderParams
  split <;> exact ⟨rfl, rfl, rfl, rfl⟩

/-- When the size guard of `createStorage` does not fire and the charge type is not prepaid,
the next thing the creation path does is the `CreateDisks` call, with the parsed size
converted to `uint64`. -/
theorem createStorageNew_issues {env : Env} {w : World} {fuel : Nat} {storage : StorageInput}
    {paramsMap : String → Option String} {client : Client} (t : Trace)
    (hsize : ¬ ((parseInt storage.DiskSize).2 ≠ none ∧ (parseInt storage.DiskSize).1 ≤ 0))
    (hcharge : storage.DiskChargeType ≠ env.chargeTypePrepaid) :
    ∃ rest : Trace,
      (createStorageNew env w fuel storage paramsMap client t).trace =
        t ++ .CreateDisks client
          { DiskName := if storage.DiskName ≠ "" then some storage.DiskName else none
            DiskType := storage.DiskType
            DiskSize := toUint64 (parseInt storage.DiskSize).1
            DiskChargeType := storage.DiskChargeType
            DiskChargePrepaid := none
            PlacementZone := lookup paramsMap "AvailableZone" } :: rest := by
  unfold createStorageNew
  simp only [hsize, if_false, hcharge, bind_run, Prog.bind, emit_run]
  cases w.createDisks t client
      { DiskName := if storage.DiskName ≠ "" then some storage.DiskName else none
        DiskType := storage.DiskType
        DiskSize := toUint64 (parseInt storage.DiskSize).1
        DiskChargeType := storage.DiskChargeType
        DiskChargePrepaid := none
        PlacementZone := lookup paramsMap "AvailableZone" } with
  | error e => exact ⟨[], by simp [Res.trace]⟩
  | ok resp =>
    simp only
    cases hset : resp.DiskIdSet with
    | nil => exact ⟨[], by simp [Res.trace]⟩
    | cons first others =>
      simp only [bind_run, Prog.bind]
      cases resp.RequestId with
      | none => exact ⟨[], by simp [Res.trace]⟩
      | some requestId =>
        cases first with
        | none => exact ⟨[], by simp [Res.trace]⟩
        | some id =>
          simp only [deref_some_run]
          obtain ⟨ext, hext, -, -⟩ :=
            checkDiksStateLoop_polls w client id true "UNATTACHED" 1 fuel
              (t ++ [.CreateDisks client
                { DiskName := if storage.DiskName ≠ "" then some storage.DiskName else none
                  DiskType := storage.DiskType
                  DiskSize := toUint64 (parseInt storage.DiskSize).1
                  DiskChargeType := storage.DiskChargeType
                  DiskChargePrepaid := none
                  PlacementZone := lookup paramsMap "AvailableZone" }])
          refine ⟨ext, ?_⟩
          unfold checkDiksState
          cases hp : checkDiksStateLoop w client id true "UNATTACHED" 1 fuel
              (t ++ [.CreateDisks client
                { DiskName := if storage.DiskName ≠ "" then some storage.DiskName else none
                  DiskType := storage.DiskType
                  DiskSize := toUint64 (parseInt storage.DiskSize).1
                  DiskChargeType := storage.DiskChargeType
                  DiskChargePrepaid := none
                  PlacementZone := lookup paramsMap "AvailableZone" }]) with
          | done err t2 =>
            rw [hp] at hext
            simp only [Res.trace] at hext
            cases err <;> simp [Res.trace, hext]
          | panicked t2 =>
            rw [hp] at hext
            simp only [Res.trace] at hext
            simp [Res.trace, hext]
          | outOfFuel t2 =>
            rw [hp] at hext
            simp only [Res.trace] at hext
            simp [Res.trace, hext]

/-- The creation path of `createStorage` when `CreateDisks` returns an identifier and the
first poll query fails: the handler returns the output carrying the identifier together with
the query's error. -/
theorem createStorage_poll_error {env : Env} {w : World} {fuel : Nat} {storage : StorageInput}
    {t0 : Trace} {id rid : String} {others : List (Option String)} {e : Err}
    (hid : storage.Id = "")
    (hzone : env.getMapFromProviderParams (setProviderParams storage).ProviderParams
      "AvailableZone" ≠ some "")
    (hcharge : storage.DiskChargeType ≠ env.chargeTypePrepaid)
    (hsize : ¬ ((parseInt storage.DiskSize).2 ≠ none ∧ (parseInt storage.DiskSize).1 ≤ 0))
    (hcreate : w.createDisks t0 (storageClient env storage) (postpaidDisksRequest env storage) =
      .ok { DiskIdSet := some id :: others, RequestId := some rid })
    (hquery : w.describeDisks
        (t0 ++ [.CreateDisks (storageClient env storage) (postpaidDisksRequest env storage)])
        (storageClient env storage) id = .error e) :
    createStorage env w (fuel + 1) storage t0 =
      .done (setProviderParams storage, some { RequestId := rid, Id := id }, some e)
        (t0 ++ [.CreateDisks (storageClient env storage) (postpaidDisksRequest env storage),
          .DescribeDisks (storageClient env storage) id]) := by
  obtain ⟨h1, h2, h3, h4⟩ := setProviderParams_fields storage
  simp only [postpaidDisksRequest] at hcreate hquery
  unfold createStorage
  simp only [hzone, if_false, setProviderParams_Id, hid, ne_eq, not_true_eq_false, bind_run]
  unfold createStorageNew
  simp only [h1, h2, h3, h4, hsize, if_false, hcharge, bind_run, Prog.bind, emit_run, hcreate,
    deref_some_run, checkDiksState, checkDiksStateLoop, queryStorageInfo, hquery, pure_run]
  simp [postpaidDisksRequest]

/-! ## Claims -/

/-- C1: whenever `StorageCreateAction.Do` or `StorageTerminateAction.Do` returns, whatever the
control plane answered, the output list is as long as the input list and the i-th output
carries the Guid of the i-th input: no item is dropped, duplicated or reordered. -/
theorem storage_do_outputs_mirror_inputs (env : Env) (w : World) (fuel : Nat)
    (inputs : List StorageInput) (t0 t1 : Trace) (outs : List StorageOutput)
    (err : Option Err)
    (h : StorageCreateAction.Do env w fuel inputs t0 = .done (outs, err) t1 ∨
      StorageTerminateAction.Do env w fuel inputs t0 = .done (outs, err) t1) :
    outs.length = inputs.length ∧
      ∀ i : Nat, (outs[i]?).map StorageOutput.Guid = (inputs[i]?).map StorageInput.Guid := by
  apply map_guid_getElem
  rcases h with h | h
  · have := (storageLoop_spec _
      (fun s t o e t1 => storageCreateItem_ok env w fuel s t t1 o e) inputs [] none t0 outs err
      t1 rfl h).2
    simpa using this
  · have := (storageLoop_spec _
      (fun s t o e t1 => storageTerminateItem_ok env w fuel s t t1 o e) inputs [] none t0 outs
      err t1 rfl h).2
    simpa using this

/-- A three-item create batch and a two-item terminate batch on the simulated control plane
return, with outputs that mirror their inputs. -/
theorem storage_do_outputs_mirror_inputs_witness :
    (∃ outs err t1,
      StorageCreateAction.Do simEnv simWorld 3 [volumeA, volumeB, volumeC] [] =
        .done (outs, err) t1 ∧
      outs.length = [volumeA, volumeB, volumeC].length ∧
      ∀ i : Nat, (outs[i]?).map StorageOutput.Guid =
        ([volumeA, volumeB, volumeC][i]?).map StorageInput.Guid) ∧
    (∃ outs err t1,
      StorageTerminateAction.Do simEnv simWorld 3
          [{ volumeA with Id := "disk-a" }, { volumeC with Id := "" }] [] =
        .done (outs, err) t1 ∧
      outs.length = [{ volumeA with Id := "disk-a" }, { volumeC with Id := "" }].length ∧
      ∀ i : Nat, (outs[i]?).map StorageOutput.Guid =
        ([{ volumeA with Id := "disk-a" }, { volumeC with Id := "" }][i]?).map
          StorageInput.Guid) :=
  ⟨⟨_, _, _, rfl, storage_do_outputs_mirror_inputs simEnv simWorld 3
      [volumeA, volumeB, volumeC] [] _ _ _ (Or.inl rfl)⟩,
   ⟨_, _, _, rfl, storage_do_outputs_mirror_inputs simEnv simWorld 3
      [{ volumeA with Id := "disk-a" }, { volumeC with Id := "" }] [] _ _ _ (Or.inr rfl)⟩⟩

/-- C2: when `StorageCreateAction.Do` or `StorageTerminateAction.Do` returns, the full
per-item list comes back with it, the returned error is non-nil exactly when some output item
is marked ERROR, and it is then the message of the last item marked ERROR. In particular a
create batch of three in which items 1 and 3 succeed and item 2 is otherwise well-formed but
has an empty DiskType returns three outputs, SUCCESS, ERROR with message "DiskType is empty",
SUCCESS, and a non-nil error. -/
theorem storage_do_error_iff_item_error :
    (∀ (env : Env) (w : World) (fuel : Nat) (inputs : List StorageInput) (t0 t1 : Trace)
        (outs : List StorageOutput) (err : Option Err),
      (StorageCreateAction.Do env w fuel inputs t0 = .done (outs, err) t1 ∨
        StorageTerminateAction.Do env w fuel inputs t0 = .done (outs, err) t1) →
      outs.length = inputs.length ∧
        (err ≠ none ↔ ∃ o ∈ outs, o.Result.Code = some .ERROR) ∧
        (∀ e, err = some e →
          ∃ before o after, outs = before ++ o :: after ∧
            o.Result.Code = some .ERROR ∧ o.Result.Message = e ∧
            ∀ p ∈ after, p.Result.Code ≠ some .ERROR)) ∧
    (∀ (env : Env) (w : World) (fuel : Nat) (a b c : StorageInput) (t0 t1 t2 : Trace)
        (oa oc : StorageOutput),
      b.Guid ≠ "" →
      (b.ProviderParams ≠ "" ∨ (b.APISecret ≠ "" ∧ b.Location ≠ "")) →
      b.DiskType = "" →
      StorageCreateAction.Do env w fuel [a] t0 = .done ([oa], none) t1 →
      StorageCreateAction.Do env w fuel [c] t1 = .done ([oc], none) t2 →
      StorageCreateAction.Do env w fuel [a, b, c] t0 =
          .done ([oa,
            { Guid := b.Guid
              CallBackParameter := { Parameter := b.CallBackParameter.Parameter }
              Result := { Code := some .ERROR, Message := "DiskType is empty" } },
            oc], some "DiskType is empty") t2 ∧
        oa.Result.Code = some .SUCCESS ∧ oc.Result.Code = some .SUCCESS) := by
  constructor
  · intro env w fuel inputs t0 t1 outs err h
    have key : err = lastErrorMessage outs ∧
        outs.map StorageOutput.Guid = inputs.map StorageInput.Guid := by
      rcases h with h | h
      · have := storageLoop_spec _
          (fun s t o e t1 => storageCreateItem_ok env w fuel s t t1 o e) inputs [] none t0
          outs err t1 rfl h
        simpa using this
      · have := storageLoop_spec _
          (fun s t o e t1 => storageTerminateItem_ok env w fuel s t t1 o e) inputs [] none t0
          outs err t1 rfl h
        simpa using this
    obtain ⟨herr, hmap⟩ := key
    refine ⟨(map_guid_getElem hmap).1, ?_, ?_⟩
    · constructor
      · intro hne
        cases he : err with
        | none => exact absurd he hne
        | some e =>
          obtain ⟨before, o, after, rfl, hc, -, -⟩ :=
            lastErrorMessage_some (herr.symm.trans he)
          exact ⟨o, by simp, hc⟩
      · rintro ⟨o, ho, hc⟩ hnone
        exact lastErrorMessage_none (herr.symm.trans hnone) o ho hc
    · intro e he
      exact lastErrorMessage_some (herr.symm.trans he)
  · intro env w fuel a b c t0 t1 t2 oa oc hguid hpp hdt ha hc
    have ha1 := storageLoop_single ha
    have hc1 := storageLoop_single hc
    have hb : checkCreateStorageParams b = some "DiskType is empty" := by
      unfold checkCreateStorageParams
      rcases hpp with hpp | ⟨h1, h2⟩
      · simp [hguid, hpp, hdt]
      · simp [hguid, h1, h2, hdt]
    have hb1 : storageCreateItem env w fuel b t1 =
        .done ({ Guid := b.Guid
                 CallBackParameter := { Parameter := b.CallBackParameter.Parameter }
                 Result := { Code := some .ERROR, Message := "DiskType is empty" } },
          some "DiskType is empty") t1 := by
      simp [storageCreateItem, hb]
    refine ⟨?_, ?_, ?_⟩
    · simp [StorageCreateAction.Do, storageLoop, Prog.bind, ha1, hb1, hc1]
    · have := storageCreateItem_ok env w fuel a t0 t1 oa none ha1
      simpa [ItemOk] using this.2
    · have := storageCreateItem_ok env w fuel c t1 t2 oc none hc1
      simpa [ItemOk] using this.2

/-- The three-item scenario on the simulated control plane. -/
theorem storage_do_error_iff_item_error_witness :
    (∃ outs err t1,
      StorageCreateAction.Do simEnv simWorld 3 [volumeA, volumeB, volumeC] [] =
        .done (outs, err) t1 ∧
      outs.length = 3 ∧
      (err ≠ none ↔ ∃ o ∈ outs, o.Result.Code = some .ERROR) ∧
      (∀ e, err = some e →
        ∃ before o after, outs = before ++ o :: after ∧
          o.Result.Code = some .ERROR ∧ o.Result.Message = e ∧
          ∀ p ∈ after, p.Result.Code ≠ some .ERROR)) ∧
    (∃ oa oc t2,
      StorageCreateAction.Do simEnv simWorld 3 [volumeA, volumeB, volumeC] [] =
          .done ([oa,
            { Guid := "g2"
              Result := { Code := some .ERROR, Message := "DiskType is empty" } },
            oc], some "DiskType is empty") t2 ∧
        oa.Result.Code = some .SUCCESS ∧ oc.Result.Code = some .SUCCESS) :=
  ⟨⟨_, _, _, rfl, storage_do_error_iff_item_error.1 simEnv simWorld 3
      [volumeA, volumeB, volumeC] [] _ _ _ (Or.inl rfl)⟩,
   ⟨_, _, _, storage_do_error_iff_item_error.2 simEnv simWorld 3 volumeA volumeB volumeC
      [] _ _ _ _ (by decide) (by decide) rfl rfl rfl⟩⟩

/-- C3: in the four abort-on-first-failure actions, when the handlers of the items before
item k return without error and the handler of item k returns an error, `Do` returns exactly
that error, and the run ends in the history left by item k's handler: nothing is issued for
any later item. In particular, when the creation call of the first of two gateway requests is
rejected, `Do` returns no output and the rejection error after that single call. -/
theorem abort_on_first_failure (env : Env) (w : World) (fuel : Nat) :
    (∀ (pre post : List NatGatewayInput) (x : NatGatewayInput) (t0 tk t1 : Trace)
        (id : String) (e : Err),
      CleanRun (createNatGateway env w) Prod.snd pre t0 tk →
      createNatGateway env w x tk = .done (id, some e) t1 →
      NatGatewayCreateAction.Do env w (pre ++ x :: post) t0 = .done (none, some e) t1) ∧
    (∀ (pre post : List NatGatewayInput) (x : NatGatewayInput) (t0 tk t1 : Trace) (e : Err),
      CleanRun (terminateNatGateway env w fuel) id pre t0 tk →
      terminateNatGateway env w fuel x tk = .done (some e) t1 →
      NatGatewayTerminateAction.Do env w fuel (pre ++ x :: post) t0 =
        .done (none, some e) t1) ∧
    (∀ (pre post : List RedisInput) (x : RedisInput) (t0 tk t1 : Trace)
        (r : Option RedisOutput) (e : Err),
      CleanRun (createRedis env w fuel) Prod.snd pre t0 tk →
      createRedis env w fuel x tk = .done (r, some e) t1 →
      RedisCreateAction.Do env w fuel (pre ++ x :: post) t0 = .done (none, some e) t1) ∧
    (∀ (pre post : List RedisInput) (x : RedisInput) (t0 tk t1 : Trace)
        (r : Option RedisOutput) (e : Err),
      CleanRun (terminateRedis env w) Prod.snd pre t0 tk →
      terminateRedis env w x tk = .done (r, some e) t1 →
      RedisTerminateAction.Do env w (pre ++ x :: post) t0 = .done (none, some e) t1) ∧
    (∀ (a b : NatGatewayInput) (t0 : Trace) (e : Err),
      w.createNatGateway t0 (mkClient (env.getMapFromProviderParams a.ProviderParams))
          (natGatewayCreateReq a) = .error e →
      NatGatewayCreateAction.Do env w [a, b] t0 =
        .done (none, some e)
          (t0 ++ [.CreateNatGateway (mkClient (env.getMapFromProviderParams a.ProviderParams))
            (natGatewayCreateReq a)])) := by
  refine ⟨?_, ?_, ?_, ?_, ?_⟩
  · intro pre post x t0 tk t1 id e hpre hx
    exact natGatewayCreateDo_abort hpre hx
  · intro pre post x t0 tk t1 e hpre hx
    exact natGatewayTerminateDo_abort hpre hx
  · intro pre post x t0 tk t1 r e hpre hx
    exact redisCreateDo_abort hpre hx
  · intro pre post x t0 tk t1 r e hpre hx
    exact redisTerminateDo_abort hpre hx
  · intro a b t0 e hrej
    have hx : createNatGateway env w a t0 = .done ("", some e)
        (t0 ++ [.CreateNatGateway (mkClient (env.getMapFromProviderParams a.ProviderParams))
          (natGatewayCreateReq a)]) := by
      simp [createNatGateway, Prog.bind, emit, hrej]
    exact @natGatewayCreateDo_abort env w [] [b] a t0 t0 _ "" e rfl hx

/-- Batches on the simulated control plane whose second item is rejected after the first one
succeeded, for the four actions, and the two-gateway batch whose first item is rejected. -/
theorem abort_on_first_failure_witness :
    (∃ t1, NatGatewayCreateAction.Do simEnv simWorld
        ([gatewayA] ++ gatewayRejected :: [gatewayB]) [] =
        .done (none, some "CreateNatGateway rejected") t1 ∧ t1.length = 2) ∧
    (∃ t1, NatGatewayTerminateAction.Do simEnv simWorld 20
        ([gatewayA] ++ gatewayRejected :: [gatewayB]) [] =
        .done (none, some "DeleteNatGateway rejected") t1 ∧ t1.length = 7) ∧
    (∃ t1, RedisCreateAction.Do simEnv simWorld 20 ([redisA] ++ redisRejected :: [redisA]) [] =
        .done (none, some "CreateInstances rejected") t1 ∧ t1.length = 9) ∧
    (∃ t1, RedisTerminateAction.Do simEnv simWorld ([redisA] ++ redisRejected :: [redisA]) [] =
        .done (none, some "Failed to ClearInstance(InstanceId=rejected), error=ClearInstance rejected")
          t1 ∧ t1.length = 2) ∧
    NatGatewayCreateAction.Do simEnv simWorld [gatewayRejected, gatewayB] [] =
      .done (none, some "CreateNatGateway rejected")
        ([] ++ [.CreateNatGateway simClient (natGatewayCreateReq gatewayRejected)]) :=
  ⟨⟨_, (abort_on_first_failure simEnv simWorld 20).1 [gatewayA] [gatewayB] gatewayRejected
      [] _ _ _ _ ⟨_, _, rfl, rfl, rfl⟩ rfl, by decide⟩,
   ⟨_, (abort_on_first_failure simEnv simWorld 20).2.1 [gatewayA] [gatewayB] gatewayRejected
      [] _ _ _ ⟨_, _, rfl, rfl, rfl⟩ rfl, by decide⟩,
   ⟨_, (abort_on_first_failure simEnv simWorld 20).2.2.1 [redisA] [redisA] redisRejected
      [] _ _ _ _ ⟨_, _, rfl, rfl, rfl⟩ rfl, by decide⟩,
   ⟨_, (abort_on_first_failure simEnv simWorld 20).2.2.2.1 [redisA] [redisA] redisRejected
      [] _ _ _ _ ⟨_, _, rfl, rfl, rfl⟩ rfl, by decide⟩,
   (abort_on_first_failure simEnv simWorld 20).2.2.2.2 gatewayRejected gatewayB [] _ rfl⟩

/-- C4, as the code has it: when an item of a gateway-create or cache-create batch fails
after the items before it succeeded, `NatGatewayCreateAction.Do` and `RedisCreateAction.Do`
return a nil output together with that first error: the loop reaches the failing item with
one output collected per earlier item, and that list is not returned. -/
theorem create_abort_returns_no_output (env : Env) (w : World) (fuel : Nat) :
    (∀ (pre post : List NatGatewayInput) (x : NatGatewayInput) (t0 tk t1 : Trace)
        (id : String) (e : Err),
      CleanRun (createNatGateway env w) Prod.snd pre t0 tk →
      createNatGateway env w x tk = .done (id, some e) t1 →
      ∃ collected : List NatGatewayOutput, collected.length = pre.length ∧
        natGatewayCreateLoop env w (pre ++ x :: post) [] t0 =
          natGatewayCreateLoop env w (x :: post) collected tk ∧
        NatGatewayCreateAction.Do env w (pre ++ x :: post) t0 = .done (none, some e) t1) ∧
    (∀ (pre post : List RedisInput) (x : RedisInput) (t0 tk t1 : Trace)
        (r : Option RedisOutput) (e : Err),
      CleanRun (createRedis env w fuel) Prod.snd pre t0 tk →
      createRedis env w fuel x tk = .done (r, some e) t1 →
      ∃ collected : List RedisOutput, collected.length = pre.length ∧
        redisCreateLoop env w fuel (pre ++ x :: post) [] t0 =
          redisCreateLoop env w fuel (x :: post) collected tk ∧
        RedisCreateAction.Do env w fuel (pre ++ x :: post) t0 = .done (none, some e) t1) := by
  constructor
  · intro pre post x t0 tk t1 id e hpre hx
    obtain ⟨outs, hlen, hloop⟩ :=
      natGatewayCreateLoop_clean env w (x :: post) pre [] t0 tk hpre
    exact ⟨outs, by simpa using hlen, hloop, natGatewayCreateDo_abort hpre hx⟩
  · intro pre post x t0 tk t1 r e hpre hx
    obtain ⟨outs, hlen, hloop⟩ :=
      redisCreateLoop_clean env w fuel (x :: post) pre [] t0 tk hpre
    exact ⟨outs, by simpa using hlen, hloop, redisCreateDo_abort hpre hx⟩

/-- On the simulated control plane, a gateway batch and a cache batch whose second item is
rejected after the first one succeeded return a nil output. -/
theorem create_abort_returns_no_output_witness :
    (∃ t1, NatGatewayCreateAction.Do simEnv simWorld ([gatewayA] ++ gatewayRejected :: []) [] =
        .done (none, some "CreateNatGateway rejected") t1) ∧
    (∃ t1, RedisCreateAction.Do simEnv simWorld 20 ([redisA] ++ redisRejected :: []) [] =
        .done (none, some "CreateInstances rejected") t1) :=
  ⟨⟨_, ((create_abort_returns_no_output simEnv simWorld 20).1 [gatewayA] []
      gatewayRejected [] _ _ _ _ ⟨_, _, rfl, rfl, rfl⟩ rfl).choose_spec.2.2⟩,
   ⟨_, ((create_abort_returns_no_output simEnv simWorld 20).2 [redisA] []
      redisRejected [] _ _ _ _ ⟨_, _, rfl, rfl, rfl⟩ rfl).choose_spec.2.2⟩⟩

/-- C4 fails as stated: the first of two gateway requests is created and yields the output
`nat-a`, the second is rejected, and `Do` returns no output list at all, not the one-element
list collected so far. -/
theorem create_abort_output_counterexample :
    createNatGateway simEnv simWorld gatewayA [] =
        .done ("nat-a", none) [.CreateNatGateway simClient (natGatewayCreateReq gatewayA)] ∧
    createNatGateway simEnv simWorld gatewayRejected
        [.CreateNatGateway simClient (natGatewayCreateReq gatewayA)] =
      .done ("", some "CreateNatGateway rejected")
        [.CreateNatGateway simClient (natGatewayCreateReq gatewayA),
         .CreateNatGateway simClient (natGatewayCreateReq gatewayRejected)] ∧
    ¬ ∃ outs err t1,
      NatGatewayCreateAction.Do simEnv simWorld [gatewayA, gatewayRejected] [] =
        .done (some outs, err) t1 := by
  refine ⟨by decide, by decide, ?_⟩
  rintro ⟨outs, err, t1, h⟩
  have hrun : NatGatewayCreateAction.Do simEnv simWorld [gatewayA, gatewayRejected] [] =
      .done (none, some "CreateNatGateway rejected")
        [.CreateNatGateway simClient (natGatewayCreateReq gatewayA),
         .CreateNatGateway simClient (natGatewayCreateReq gatewayRejected)] := by decide
  rw [hrun] at h
  cases h

/-- C5, what the code does instead: when every disk query succeeds and never shows the
target, `checkDiksState` does not return. Its counter stays at 1, so however long the run is
followed it is still in the loop, having issued one query per round: more than 20 as soon
as more than 20 rounds are followed. -/
theorem checkDiksState_polls_without_bound (w : World) (client : Client) (storageId : String)
    (isExist : Bool) (state : String)
    (h : ∀ tr, DiskNotReached w client storageId isExist state tr) (fuel : Nat) (t0 : Trace) :
    checkDiksState w client storageId isExist state fuel t0 =
        .outOfFuel (t0 ++ pollTrace (.DescribeDisks client storageId) 5 fuel) ∧
      countOf isDiskQuery (checkDiksState w client storageId isExist state fuel t0).trace =
        countOf isDiskQuery t0 + fuel := by
  have hrun := checkDiksStateLoop_stuck h fuel t0
  refine ⟨hrun, ?_⟩
  rw [checkDiksState, hrun]
  simp [Res.trace, countOf_append, countOf_pollTrace, isDiskQuery, isSleep]

/-- Waiting for `disk-1` to become UNATTACHED while it stays in state CREATING: after 21
rounds the loop has issued 21 queries and has not returned. -/
theorem checkDiksState_polls_without_bound_witness :
    checkDiksState stuckWorld simClient "disk-1" true "UNATTACHED" 21 [] =
        .outOfFuel ([] ++ pollTrace (.DescribeDisks simClient "disk-1") 5 21) ∧
      countOf isDiskQuery
          (checkDiksState stuckWorld simClient "disk-1" true "UNATTACHED" 21 []).trace =
        countOf isDiskQuery [] + 21 :=
  checkDiksState_polls_without_bound stuckWorld simClient "disk-1" true "UNATTACHED"
    (fun _ => Or.inr ⟨_, rfl, by decide, fun _ => ⟨"CREATING", rfl, by decide⟩⟩) 21 []

/-- C6: when every task query (gateway terminate) or deal query (cache create) succeeds and
reports an in-progress status, the poll loop returns its timeout error after exactly 20
queries, each followed by a 10 second sleep, and issues no 21st query; the model needs fuel
for 20 rounds. -/
theorem poll_timeout_after_twenty_queries (env : Env) (w : World) (fuel : Nat)
    (hfuel : 20 ≤ fuel) :
    (∀ (natGateway : NatGatewayInput) (t0 : Trace) (resp : DeleteNatGatewayResponse),
      w.deleteNatGateway t0 (gatewayClient env natGateway) natGateway.VpcId natGateway.Id =
        .ok resp →
      (∀ tr, TaskInProgress w (gatewayClient env natGateway) resp.TaskId tr) →
      terminateNatGateway env w fuel natGateway t0 =
          .done (some "terminateNatGateway query result timeout")
            (afterDelete env natGateway t0 ++
              pollTrace (.DescribeVpcTaskResult (gatewayClient env natGateway) resp.TaskId)
                10 20) ∧
        countOf isTaskQuery (terminateNatGateway env w fuel natGateway t0).trace =
          countOf isTaskQuery t0 + 20) ∧
    (∀ (client : Client) (dealid : String) (t0 : Trace),
      (∀ tr, DealInProgress w client dealid tr) →
      waitForRedisInstancesCreationToFinish w client dealid fuel t0 =
          .done ("", some "waitForRedisInstancesCreationToFinish timeout")
            (t0 ++ pollTrace (.DescribeInstanceDealDetail client dealid) 10 20) ∧
        countOf isDealQuery
            (waitForRedisInstancesCreationToFinish w client dealid fuel t0).trace =
          countOf isDealQuery t0 + 20) := by
  constructor
  · intro natGateway t0 resp hdel hbusy
    have hrun : terminateNatGateway env w fuel natGateway t0 =
        .done (some "terminateNatGateway query result timeout")
          (afterDelete env natGateway t0 ++
            pollTrace (.DescribeVpcTaskResult (gatewayClient env natGateway) resp.TaskId)
              10 20) := by
      rw [terminateNatGateway_accepted hdel]
      exact terminateNatGatewayPoll_timeout hfuel (fun j _ => hbusy _)
    refine ⟨hrun, ?_⟩
    rw [hrun]
    simp [Res.trace, countOf_append, countOf_pollTrace, countOf_cons, countOf_nil, isTaskQuery, isSleep]
  · intro client dealid t0 hbusy
    have hrun : waitForRedisInstancesCreationToFinish w client dealid fuel t0 =
        .done ("", some "waitForRedisInstancesCreationToFinish timeout")
          (t0 ++ pollTrace (.DescribeInstanceDealDetail client dealid) 10 20) :=
      waitForRedisPoll_timeout hfuel (fun j _ => hbusy _)
    refine ⟨hrun, ?_⟩
    rw [hrun]
    simp [Res.trace, countOf_append, countOf_pollTrace, isDealQuery, isSleep]

/-- On a control plane where tasks and deals stay in progress, both polls time out after 20
queries. -/
theorem poll_timeout_after_twenty_queries_witness :
    (terminateNatGateway simEnv busyWorld 25 gatewayA [] =
        .done (some "terminateNatGateway query result timeout")
          (afterDelete simEnv gatewayA [] ++
            pollTrace (.DescribeVpcTaskResult (gatewayClient simEnv gatewayA) (some 7)) 10 20) ∧
      countOf isTaskQuery (terminateNatGateway simEnv busyWorld 25 gatewayA []).trace =
        countOf isTaskQuery [] + 20) ∧
    (waitForRedisInstancesCreationToFinish busyWorld simClient "deal-1" 25 [] =
        .done ("", some "waitForRedisInstancesCreationToFinish timeout")
          ([] ++ pollTrace (.DescribeInstanceDealDetail simClient "deal-1") 10 20) ∧
      countOf isDealQuery
          (waitForRedisInstancesCreationToFinish busyWorld simClient "deal-1" 25 []).trace =
        countOf isDealQuery [] + 20) :=
  ⟨(poll_timeout_after_twenty_queries simEnv busyWorld 25 (by decide)).1 gatewayA []
      { TaskId := some 7 } rfl (fun _ => ⟨2, rfl, by decide, by decide⟩),
   (poll_timeout_after_twenty_queries simEnv busyWorld 25 (by decide)).2 simClient "deal-1" []
      (fun _ => ⟨_, _, 1, rfl, rfl, by decide⟩)⟩

/-- C7: if the first N-1 queries show the task (or deal) in progress and query N shows it
converged, with 1 ≤ N ≤ 20, the poll loops of `terminateNatGateway` and
`waitForRedisInstancesCreationToFinish` return success after exactly N queries and N-1
sleeps of 10 seconds, N = 20 included; and if the first 20 queries are all in progress the
loops return their timeout error whatever a 21st query would have shown. The model needs
fuel for the rounds that run. -/
theorem poll_converges_on_query (env : Env) (w : World) (fuel : Nat) :
    (∀ (N : Nat) (natGateway : NatGatewayInput) (t0 : Trace) (resp : DeleteNatGatewayResponse),
      1 ≤ N → N ≤ 20 → N ≤ fuel →
      w.deleteNatGateway t0 (gatewayClient env natGateway) natGateway.VpcId natGateway.Id =
        .ok resp →
      (∀ j, j < N - 1 →
        TaskInProgress w (gatewayClient env natGateway) resp.TaskId
          (afterDelete env natGateway t0 ++
            pollTrace (.DescribeVpcTaskResult (gatewayClient env natGateway) resp.TaskId)
              10 j)) →
      w.describeVpcTaskResult
          (afterDelete env natGateway t0 ++
            pollTrace (.DescribeVpcTaskResult (gatewayClient env natGateway) resp.TaskId)
              10 (N - 1))
          (gatewayClient env natGateway) resp.TaskId = .ok { Status := some 0 } →
      terminateNatGateway env w fuel natGateway t0 =
          .done none
            (afterDelete env natGateway t0 ++
              pollTrace (.DescribeVpcTaskResult (gatewayClient env natGateway) resp.TaskId)
                10 (N - 1) ++
              [.DescribeVpcTaskResult (gatewayClient env natGateway) resp.TaskId]) ∧
        countOf isTaskQuery (terminateNatGateway env w fuel natGateway t0).trace =
          countOf isTaskQuery t0 + N ∧
        countOf isSleep (terminateNatGateway env w fuel natGateway t0).trace =
          countOf isSleep t0 + (N - 1)) ∧
    (∀ (natGateway : NatGatewayInput) (t0 : Trace) (resp : DeleteNatGatewayResponse),
      20 ≤ fuel →
      w.deleteNatGateway t0 (gatewayClient env natGateway) natGateway.VpcId natGateway.Id =
        .ok resp →
      (∀ j, j < 20 →
        TaskInProgress w (gatewayClient env natGateway) resp.TaskId
          (afterDelete env natGateway t0 ++
            pollTrace (.DescribeVpcTaskResult (gatewayClient env natGateway) resp.TaskId)
              10 j)) →
      terminateNatGateway env w fuel natGateway t0 =
        .done (some "terminateNatGateway query result timeout")
          (afterDelete env natGateway t0 ++
            pollTrace (.DescribeVpcTaskResult (gatewayClient env natGateway) resp.TaskId)
              10 20)) ∧
    (∀ (N : Nat) (client : Client) (dealid : String) (t0 : Trace) (d : DealDetail)
        (others : List DealDetail) (ids : List String),
      1 ≤ N → N ≤ 20 → N ≤ fuel →
      (∀ j, j < N - 1 →
        DealInProgress w client dealid
          (t0 ++ pollTrace (.DescribeInstanceDealDetail client dealid) 10 j)) →
      w.describeInstanceDealDetail
          (t0 ++ pollTrace (.DescribeInstanceDealDetail client dealid) 10 (N - 1))
          client dealid = .ok (d :: others) →
      d.Status = some 4 → d.InstanceIds = ids.map some →
      waitForRedisInstancesCreationToFinish w client dealid fuel t0 =
          .done (joinIds ids "", none)
            (t0 ++ pollTrace (.DescribeInstanceDealDetail client dealid) 10 (N - 1) ++
              [.DescribeInstanceDealDetail client dealid]) ∧
        countOf isDealQuery
            (waitForRedisInstancesCreationToFinish w client dealid fuel t0).trace =
          countOf isDealQuery t0 + N ∧
        countOf isSleep (waitForRedisInstancesCreationToFinish w client dealid fuel t0).trace =
          countOf isSleep t0 + (N - 1)) ∧
    (∀ (client : Client) (dealid : String) (t0 : Trace),
      20 ≤ fuel →
      (∀ j, j < 20 →
        DealInProgress w client dealid
          (t0 ++ pollTrace (.DescribeInstanceDealDetail client dealid) 10 j)) →
      waitForRedisInstancesCreationToFinish w client dealid fuel t0 =
        .done ("", some "waitForRedisInstancesCreationToFinish timeout")
          (t0 ++ pollTrace (.DescribeInstanceDealDetail client dealid) 10 20)) := by
  refine ⟨?_, ?_, ?_, ?_⟩
  · intro N natGateway t0 resp h1 h20 hfuel hdel hbusy hconv
    have hrun : terminateNatGateway env w fuel natGateway t0 =
        .done none
          (afterDelete env natGateway t0 ++
            pollTrace (.DescribeVpcTaskResult (gatewayClient env natGateway) resp.TaskId)
              10 (N - 1) ++
            [.DescribeVpcTaskResult (gatewayClient env natGateway) resp.TaskId]) := by
      rw [terminateNatGateway_accepted hdel,
        terminateNatGatewayPoll_upto (m := N - 1) (by omega) (by omega) hbusy,
        terminateNatGatewayPoll_converged hconv]
    refine ⟨hrun, ?_, ?_⟩
    · rw [hrun]
      simp [Res.trace, countOf_append, countOf_pollTrace, countOf_cons, countOf_nil,
        isTaskQuery, isSleep]
      omega
    · rw [hrun]
      simp [Res.trace, countOf_append, countOf_pollTrace, countOf_cons, countOf_nil,
        isTaskQuery, isSleep]
  · intro natGateway t0 resp hfuel hdel hbusy
    rw [terminateNatGateway_accepted hdel]
    exact terminateNatGatewayPoll_timeout hfuel hbusy
  · intro N client dealid t0 d others ids h1 h20 hfuel hbusy hconv hst hids
    have hrun : waitForRedisInstancesCreationToFinish w client dealid fuel t0 =
        .done (joinIds ids "", none)
          (t0 ++ pollTrace (.DescribeInstanceDealDetail client dealid) 10 (N - 1) ++
            [.DescribeInstanceDealDetail client dealid]) := by
      rw [waitForRedisInstancesCreationToFinish,
        waitForRedisPoll_upto (m := N - 1) (by omega) (by omega) hbusy,
        waitForRedisPoll_converged hconv hst hids]
    refine ⟨hrun, ?_, ?_⟩
    · rw [hrun]
      simp [Res.trace, countOf_append, countOf_pollTrace, countOf_cons, countOf_nil,
        isDealQuery, isSleep]
      omega
    · rw [hrun]
      simp [Res.trace, countOf_append, countOf_pollTrace, countOf_cons, countOf_nil,
        isDealQuery, isSleep]
  · intro client dealid t0 hfuel hbusy
    exact waitForRedisPoll_timeout hfuel hbusy

/-- On the simulated control plane the gateway deletion converges on the third task query
and the cache creation on the third deal query: three queries, two sleeps; on the control
plane that stays in progress both time out. -/
theorem poll_converges_on_query_witness :
    (terminateNatGateway simEnv simWorld 20 gatewayA [] =
        .done none
          (afterDelete simEnv gatewayA [] ++
            pollTrace (.DescribeVpcTaskResult (gatewayClient simEnv gatewayA) (some 7))
              10 (3 - 1) ++
            [.DescribeVpcTaskResult (gatewayClient simEnv gatewayA) (some 7)]) ∧
      countOf isTaskQuery (terminateNatGateway simEnv simWorld 20 gatewayA []).trace =
        countOf isTaskQuery [] + 3 ∧
      countOf isSleep (terminateNatGateway simEnv simWorld 20 gatewayA []).trace =
        countOf isSleep [] + (3 - 1)) ∧
    terminateNatGateway simEnv busyWorld 20 gatewayA [] =
      .done (some "terminateNatGateway query result timeout")
        (afterDelete simEnv gatewayA [] ++
          pollTrace (.DescribeVpcTaskResult (gatewayClient simEnv gatewayA) (some 7)) 10 20) ∧
    (waitForRedisInstancesCreationToFinish simWorld simClient "deal-1" 20 [] =
        .done (joinIds ["crs-1", "crs-2"] "", none)
          ([] ++ pollTrace (.DescribeInstanceDealDetail simClient "deal-1") 10 (3 - 1) ++
            [.DescribeInstanceDealDetail simClient "deal-1"]) ∧
      countOf isDealQuery
          (waitForRedisInstancesCreationToFinish simWorld simClient "deal-1" 20 []).trace =
        countOf isDealQuery [] + 3 ∧
      countOf isSleep
          (waitForRedisInstancesCreationToFinish simWorld simClient "deal-1" 20 []).trace =
        countOf isSleep [] + (3 - 1)) ∧
    waitForRedisInstancesCreationToFinish busyWorld simClient "deal-1" 20 [] =
      .done ("", some "waitForRedisInstancesCreationToFinish timeout")
        ([] ++ pollTrace (.DescribeInstanceDealDetail simClient "deal-1") 10 20) :=
  ⟨(poll_converges_on_query simEnv simWorld 20).1 3 gatewayA [] { TaskId := some 7 }
      (by decide) (by decide) (by decide) rfl
      (fun j hj => by
        have hj2 : j < 2 := hj
        interval_cases j <;> exact ⟨2, rfl, by decide, by decide⟩)
      rfl,
   (poll_converges_on_query simEnv busyWorld 20).2.1 gatewayA [] { TaskId := some 7 }
      (by decide) rfl (fun _ _ => ⟨2, rfl, by decide, by decide⟩),
   (poll_converges_on_query simEnv simWorld 20).2.2.1 3 simClient "deal-1" []
      { Status := some 4, InstanceIds := [some "crs-1", some "crs-2"] } [] ["crs-1", "crs-2"]
      (by decide) (by decide) (by decide)
      (fun j hj => by
        have hj2 : j < 2 := hj
        interval_cases j <;> exact ⟨_, _, 1, rfl, rfl, by decide⟩)
      rfl rfl rfl,
   (poll_converges_on_query simEnv busyWorld 20).2.2.2 simClient "deal-1" []
      (by decide) (fun _ _ => ⟨_, _, 1, rfl, rfl, by decide⟩)⟩

/-- C8: in the gateway-terminate poll, the first query that fails, or that reports status 1,
ends the loop on the spot, at whatever position N of the 20-query budget it comes: the
function returns the query's own error, or the retry error, and the history ends with that
query, with no sleep and no further query after it. -/
theorem gateway_poll_fails_at_once (env : Env) (w : World) (fuel : Nat) (N : Nat)
    (natGateway : NatGatewayInput) (t0 : Trace) (resp : DeleteNatGatewayResponse)
    (h1 : 1 ≤ N) (h20 : N ≤ 20) (hfuel : N ≤ fuel)
    (hdel : w.deleteNatGateway t0 (gatewayClient env natGateway) natGateway.VpcId
      natGateway.Id = .ok resp)
    (hbusy : ∀ j, j < N - 1 →
      TaskInProgress w (gatewayClient env natGateway) resp.TaskId
        (afterDelete env natGateway t0 ++
          pollTrace (.DescribeVpcTaskResult (gatewayClient env natGateway) resp.TaskId)
            10 j)) :
    (∀ e : Err,
      w.describeVpcTaskResult
          (afterDelete env natGateway t0 ++
            pollTrace (.DescribeVpcTaskResult (gatewayClient env natGateway) resp.TaskId)
              10 (N - 1))
          (gatewayClient env natGateway) resp.TaskId = .error e →
      terminateNatGateway env w fuel natGateway t0 =
        .done (some e)
          (afterDelete env natGateway t0 ++
            pollTrace (.DescribeVpcTaskResult (gatewayClient env natGateway) resp.TaskId)
              10 (N - 1) ++
            [.DescribeVpcTaskResult (gatewayClient env natGateway) resp.TaskId])) ∧
    (w.describeVpcTaskResult
          (afterDelete env natGateway t0 ++
            pollTrace (.DescribeVpcTaskResult (gatewayClient env natGateway) resp.TaskId)
              10 (N - 1))
          (gatewayClient env natGateway) resp.TaskId = .ok { Status := some 1 } →
      terminateNatGateway env w fuel natGateway t0 =
        .done (some "terminateNatGateway execute failed ,need retry")
          (afterDelete env natGateway t0 ++
            pollTrace (.DescribeVpcTaskResult (gatewayClient env natGateway) resp.TaskId)
              10 (N - 1) ++
            [.DescribeVpcTaskResult (gatewayClient env natGateway) resp.TaskId])) := by
  constructor
  · intro e herr
    rw [terminateNatGateway_accepted hdel,
      terminateNatGatewayPoll_upto (m := N - 1) (by omega) (by omega) hbusy,
      terminateNatGatewayPoll_queryError herr]
  · intro hfail
    rw [terminateNatGateway_accepted hdel,
      terminateNatGatewayPoll_upto (m := N - 1) (by omega) (by omega) hbusy,
      terminateNatGatewayPoll_failed hfail]

/-- A task that is in progress on the first two queries and reported failed on the third:
the poll returns the retry error after three queries and two sleeps. -/
theorem gateway_poll_fails_at_once_witness :
    terminateNatGateway simEnv failingWorld 20 gatewayA [] =
      .done (some "terminateNatGateway execute failed ,need retry")
        (afterDelete simEnv gatewayA [] ++
          pollTrace (.DescribeVpcTaskResult (gatewayClient simEnv gatewayA) (some 7))
            10 (3 - 1) ++
          [.DescribeVpcTaskResult (gatewayClient simEnv gatewayA) (some 7)]) :=
  (gateway_poll_fails_at_once simEnv failingWorld 20 3 gatewayA [] { TaskId := some 7 }
      (by decide) (by decide) (by decide) rfl
      (fun j hj => by
        have hj2 : j < 2 := hj
        interval_cases j <;> exact ⟨2, rfl, by decide, by decide⟩)).2 rfl

/-- C9, as the code has it: in the calls issued by the two storage actions, every
`AttachDisks`, `DetachDisks` and `TerminateDisks` call comes after a `DescribeDisks` query on
the same identifier, through the same client, that returned exactly one disk; this holds
however the run ends. The gateway and cache terminate handlers have no such query: the first
thing `terminateNatGateway` issues is `DeleteNatGateway`, and the only thing `terminateRedis`
issues is `ClearInstance`, on the identifier as supplied. -/
theorem storage_mutations_follow_confirming_query (env : Env) (w : World) (fuel : Nat)
    (t0 : Trace) (h0 : Guarded w t0) :
    (∀ inputs : List StorageInput,
      Guarded w (StorageCreateAction.Do env w fuel inputs t0).trace) ∧
    (∀ inputs : List StorageInput,
      Guarded w (StorageTerminateAction.Do env w fuel inputs t0).trace) ∧
    (∀ natGateway : NatGatewayInput,
      t0 ++ [.DeleteNatGateway (gatewayClient env natGateway) natGateway.VpcId natGateway.Id]
        <+: (terminateNatGateway env w fuel natGateway t0).trace) ∧
    (∀ redisInput : RedisInput,
      (terminateRedis env w redisInput t0).trace =
        t0 ++ [.ClearInstance (mkClient (env.getMapFromProviderParams redisInput.ProviderParams))
          redisInput.ID redisInput.Password]) := by
  refine ⟨?_, ?_, ?_, ?_⟩
  · intro inputs
    exact (run_trace (storageLoop_run (fun s t ht => storageCreateItem_run ht) inputs [] none
      t0 h0)).1
  · intro inputs
    exact (run_trace (storageLoop_run (fun s t ht => storageTerminateItem_run ht) inputs []
      none t0 h0)).1
  · intro natGateway
    exact terminateNatGateway_starts_with_delete env w fuel natGateway t0
  · intro redisInput
    exact terminateRedis_trace env w redisInput t0

/-- The storage batches on the simulated control plane, started from the empty history. -/
theorem storage_mutations_follow_confirming_query_witness :
    Guarded simWorld
        (StorageCreateAction.Do simEnv simWorld 3 [volumeA, volumeB, volumeC] []).trace ∧
      Guarded simWorld
        (StorageTerminateAction.Do simEnv simWorld 3 [{ volumeA with Id := "disk-a" }]
          []).trace :=
  ⟨(storage_mutations_follow_confirming_query simEnv simWorld 3 [] (guarded_nil simWorld)).1
      [volumeA, volumeB, volumeC],
   (storage_mutations_follow_confirming_query simEnv simWorld 3 []
      (guarded_nil simWorld)).2.1 [{ volumeA with Id := "disk-a" }]⟩

/-- C9 fails as stated for gateways and cache instances: terminating the gateway `nat-a`
issues `DeleteNatGateway` as its very first call, and terminating the cache instance `crs-1`
issues `ClearInstance` and nothing else; neither identifier was queried before. -/
theorem terminate_without_query_counterexample :
    (terminateNatGateway simEnv simWorld 20 gatewayA []).trace.head? =
        some (.DeleteNatGateway simClient "vpc-1" "nat-a") ∧
      ¬ Guarded simWorld (terminateNatGateway simEnv simWorld 20 gatewayA []).trace ∧
      (terminateRedis simEnv simWorld redisA []).trace =
        [.ClearInstance simClient "crs-1" "secret"] ∧
      ¬ Guarded simWorld (terminateRedis simEnv simWorld redisA []).trace := by
  have hg : ∃ rest, (terminateNatGateway simEnv simWorld 20 gatewayA []).trace =
      .DeleteNatGateway simClient "vpc-1" "nat-a" :: rest := ⟨_, rfl⟩
  have hr : (terminateRedis simEnv simWorld redisA []).trace =
      [.ClearInstance simClient "crs-1" "secret"] := by decide
  obtain ⟨rest, hrest⟩ := hg
  refine ⟨by rw [hrest]; rfl, ?_, hr, ?_⟩
  · rw [hrest]
    exact not_guarded_of_head rfl
  · rw [hr]
    exact not_guarded_of_head rfl

/-- C10: for a volume request with a non-empty Id whose existence query, issued once the
AvailableZone guard at the top of `createStorage` has passed, reports the disk present,
`createStorage` returns an output with that Id and no error, and the query is the only call
it issues: no `CreateDisks`. Consequently, after an invocation that returned an output with a
non-empty Id, invoking `createStorage` again with that Id, at any later point where the
control plane reports the disk present, returns the same Id and again issues the query
only. -/
theorem createStorage_idempotent (env : Env) (w : World) (fuel : Nat) :
    (∀ (storage : StorageInput) (t0 : Trace) (d : Disk),
      storage.Id ≠ "" →
      env.getMapFromProviderParams (setProviderParams storage).ProviderParams
        "AvailableZone" ≠ some "" →
      w.describeDisks t0 (storageClient env storage) storage.Id = .ok [d] →
      createStorage env w fuel storage t0 =
        .done (setProviderParams storage, some { Id := storage.Id }, none)
          (t0 ++ [.DescribeDisks (storageClient env storage) storage.Id])) ∧
    (∀ (storage s1 : StorageInput) (out1 : StorageOutput) (t0 t1 t2 : Trace) (d : Disk),
      createStorage env w fuel storage t0 = .done (s1, some out1, none) t1 →
      out1.Id ≠ "" →
      w.describeDisks t2 (storageClient env storage) out1.Id = .ok [d] →
      createStorage env w fuel { storage with Id := out1.Id } t2 =
        .done (setProviderParams { storage with Id := out1.Id }, some { Id := out1.Id }, none)
          (t2 ++ [.DescribeDisks (storageClient env storage) out1.Id])) := by
  constructor
  · intro storage t0 d hid hzone hq
    exact createStorage_existing hid hzone hq
  · intro storage s1 out1 t0 t1 t2 d hfirst hid hq
    have hzone : env.getMapFromProviderParams (setProviderParams storage).ProviderParams
        "AvailableZone" ≠ some "" := by
      intro hz
      simp [createStorage, hz] at hfirst
    have hpp : (setProviderParams { storage with Id := out1.Id }).ProviderParams =
        (setProviderParams storage).ProviderParams := by
      rw [setProviderParams_withId]
    have hclient : storageClient env { storage with Id := out1.Id } =
        storageClient env storage := by
      simp only [storageClient, hpp]
    have := @createStorage_existing env w fuel { storage with Id := out1.Id } t2 d hid
      (by rw [hpp]; exact hzone) (by rw [hclient]; exact hq)
    rw [hclient] at this
    exact this

/-- On the simulated control plane: the first invocation creates `disk-a`; the second one,
given that Id, returns it after a single query. -/
theorem createStorage_idempotent_witness :
    (∃ t1,
      createStorage simEnv simWorld 3 { volumeA with Id := "disk-a" }
          (createStorage simEnv simWorld 3 volumeA []).trace =
        .done (setProviderParams { volumeA with Id := "disk-a" }, some { Id := "disk-a" },
          none) t1 ∧
      t1 = (createStorage simEnv simWorld 3 volumeA []).trace ++
        [.DescribeDisks simClient "disk-a"]) ∧
    (∃ t1 t2 out1,
      createStorage simEnv simWorld 3 volumeA [] = .done (volumeA, some out1, none) t1 ∧
      createStorage simEnv simWorld 3 { volumeA with Id := out1.Id } t1 =
        .done (setProviderParams { volumeA with Id := out1.Id }, some { Id := out1.Id },
          none) t2 ∧
      t2 = t1 ++ [.DescribeDisks simClient out1.Id]) :=
  ⟨⟨_, (createStorage_idempotent simEnv simWorld 3).1 { volumeA with Id := "disk-a" }
      (createStorage simEnv simWorld 3 volumeA []).trace
      { DiskState := some "UNATTACHED", InstanceId := none }
      (by decide) (by decide) rfl, rfl⟩,
   ⟨_, _, _, rfl, (createStorage_idempotent simEnv simWorld 3).2 volumeA volumeA
      { RequestId := "req-create", Id := "disk-a" } [] _ _
      { DiskState := some "UNATTACHED", InstanceId := none } rfl (by decide) rfl,
      rfl⟩⟩

/-- C11: when the existence query of `attachStorage` shows the disk in state ATTACHED, the
query is the only call the handler issues, so there is no `AttachDisks`; the handler returns
no error when the disk's instance is the requested InstanceId, and the conflict error naming
the other instance when it is not. -/
theorem attachStorage_already_attached (env : Env) (w : World) (fuel : Nat)
    (storage : StorageInput) (t0 : Trace) (d : Disk)
    (hq : w.describeDisks t0 (storageClient env storage) storage.Id = .ok [d])
    (hst : d.DiskState = some "ATTACHED") :
    (attachStorage env w fuel storage t0).trace =
        t0 ++ [.DescribeDisks (storageClient env storage) storage.Id] ∧
      (∀ ins, d.InstanceId = some ins → ins = storage.InstanceId →
        attachStorage env w fuel storage t0 =
          .done (setProviderParams storage, none)
            (t0 ++ [.DescribeDisks (storageClient env storage) storage.Id])) ∧
      (∀ ins, d.InstanceId = some ins → ins ≠ storage.InstanceId →
        attachStorage env w fuel storage t0 =
          .done (setProviderParams storage,
              some ("disk[" ++ storage.Id ++ "] has been bound with instacne[" ++ ins ++ "]"))
            (t0 ++ [.DescribeDisks (storageClient env storage) storage.Id])) := by
  have hInst : (setProviderParams storage).InstanceId = storage.InstanceId := by
    unfold setProviderParams; split <;> rfl
  refine ⟨?_, ?_, ?_⟩
  · cases hi : d.InstanceId with
    | none =>
      simp [attachStorage, Prog.bind, queryStorageInfo_found hq, hst, hi, Res.trace,
        setProviderParams_Id]
    | some ins =>
      by_cases he : ins = storage.InstanceId
      · simp [attachStorage, Prog.bind, queryStorageInfo_found hq, hst, hi, Res.trace,
          setProviderParams_Id, hInst, he]
      · simp [attachStorage, Prog.bind, queryStorageInfo_found hq, hst, hi, Res.trace,
          setProviderParams_Id, hInst, he]
  · intro ins hi he
    simp [attachStorage, Prog.bind, queryStorageInfo_found hq, hst, hi,
      setProviderParams_Id, hInst, he]
  · intro ins hi he
    simp [attachStorage, Prog.bind, queryStorageInfo_found hq, hst, hi,
      setProviderParams_Id, hInst, he]

/-- On the simulated control plane, after `disk-a` has been created and attached to `ins-1`:
attaching it to `ins-1` again succeeds and attaching it to `ins-9` is refused, each after a
single query. -/
theorem attachStorage_already_attached_witness :
    attachStorage simEnv simWorld 3 { volumeA with Id := "disk-a" }
        (StorageCreateAction.Do simEnv simWorld 3 [volumeA] []).trace =
      .done (setProviderParams { volumeA with Id := "disk-a" }, none)
        ((StorageCreateAction.Do simEnv simWorld 3 [volumeA] []).trace ++
          [.DescribeDisks simClient "disk-a"]) ∧
    attachStorage simEnv simWorld 3 { volumeA with Id := "disk-a", InstanceId := "ins-9" }
        (StorageCreateAction.Do simEnv simWorld 3 [volumeA] []).trace =
      .done (setProviderParams { volumeA with Id := "disk-a", InstanceId := "ins-9" },
          some "disk[disk-a] has been bound with instacne[ins-1]")
        ((StorageCreateAction.Do simEnv simWorld 3 [volumeA] []).trace ++
          [.DescribeDisks simClient "disk-a"]) :=
  ⟨(attachStorage_already_attached simEnv simWorld 3 { volumeA with Id := "disk-a" }
      (StorageCreateAction.Do simEnv simWorld 3 [volumeA] []).trace
      { DiskState := some "ATTACHED", InstanceId := some "ins-1" } rfl rfl).2.1
      "ins-1" rfl rfl,
   (attachStorage_already_attached simEnv simWorld 3
      { volumeA with Id := "disk-a", InstanceId := "ins-9" }
      (StorageCreateAction.Do simEnv simWorld 3 [volumeA] []).trace
      { DiskState := some "ATTACHED", InstanceId := some "ins-1" } rfl rfl).2.2
      "ins-1" rfl (by decide)⟩

/-- C12: for the body that `StorageTerminateAction.Do` runs on each request, from whatever
history the earlier items left: if the item issues `TerminateDisks` at all, then its
existence query found the disk, it issues the call exactly once, and either the disk was in
a state other than ATTACHED and the call comes right after that query, or the disk was
ATTACHED and the call comes after `DetachDisks` and after the poll query that showed the disk
UNATTACHED. When the detach step returns an error, the item is marked ERROR with that error
and no `TerminateDisks` is issued for it. -/
theorem storage_terminate_after_detach (env : Env) (w : World) (fuel : Nat)
    (storage : StorageInput) (t0 : Trace) :
    (countOf isTerminateDisks (storageTerminateItem env w fuel storage t0).trace ≠
        countOf isTerminateDisks t0 →
      ∃ d, w.describeDisks t0 (storageClient env storage) storage.Id = .ok [d] ∧
        countOf isTerminateDisks (storageTerminateItem env w fuel storage t0).trace =
          countOf isTerminateDisks t0 + 1 ∧
        ((∃ st, d.DiskState = some st ∧ st ≠ "ATTACHED" ∧
            t0 ++ [.DescribeDisks (storageClient env storage) storage.Id,
                .TerminateDisks (storageClient env storage) storage.Id] <+:
              (storageTerminateItem env w fuel storage t0).trace) ∨
          (d.DiskState = some "ATTACHED" ∧
            ∃ (polled : Trace) (d1 : Disk),
              t0 ++ [.DescribeDisks (storageClient env storage) storage.Id,
                  .DetachDisks (storageClient env storage) storage.Id] ++ polled ++
                  [.DescribeDisks (storageClient env storage) storage.Id,
                    .TerminateDisks (storageClient env storage) storage.Id] <+:
                (storageTerminateItem env w fuel storage t0).trace ∧
              (∀ e ∈ polled,
                e = .DescribeDisks (storageClient env storage) storage.Id ∨ e = .Sleep 5) ∧
              w.describeDisks
                  (t0 ++ [.DescribeDisks (storageClient env storage) storage.Id,
                    .DetachDisks (storageClient env storage) storage.Id] ++ polled)
                  (storageClient env storage) storage.Id = .ok [d1] ∧
              d1.DiskState = some "UNATTACHED"))) ∧
    (∀ (d : Disk) (s1 : StorageInput) (e : Err) (t1 : Trace),
      checkTerminateStorageParams storage = none →
      w.describeDisks t0 (storageClient env storage) storage.Id = .ok [d] →
      d.DiskState = some "ATTACHED" →
      detachStorage env w fuel (setProviderParams storage)
          (t0 ++ [.DescribeDisks (storageClient env storage) storage.Id]) =
        .done (s1, some e) t1 →
      storageTerminateItem env w fuel storage t0 =
          .done ({ Guid := storage.Guid, Id := storage.Id
                   CallBackParameter := { Parameter := storage.CallBackParameter.Parameter }
                   Result := { Code := some .ERROR, Message := e } }, some e) t1 ∧
        countOf isTerminateDisks t1 = countOf isTerminateDisks t0) := by
  have hcl := storageClient_setProviderParams env storage
  have hid := setProviderParams_Id storage
  have hpure : ∀ (r2 : StorageInput × Option StorageOutput × Option Err) (t : Trace),
      ((match r2.2.2 with
        | some e =>
          (pure ({ Guid := storage.Guid, Id := storage.Id
                   CallBackParameter := { Parameter := storage.CallBackParameter.Parameter }
                   Result := { Code := some .ERROR, Message := e } }, some e) :
            Prog (StorageOutput × Option Err))
        | none =>
          pure ({ Guid := storage.Guid, Id := storage.Id
                  CallBackParameter := { Parameter := storage.CallBackParameter.Parameter }
                  Result := { Code := some .SUCCESS } }, none)) t).trace = t := by
    intro r2 t
    cases r2.2.2 <;> rfl
  constructor
  · intro hcount
    cases hc : checkTerminateStorageParams storage with
    | some e =>
      exfalso; apply hcount
      simp [storageTerminateItem, hc, Res.trace]
    | none =>
      cases hq : w.describeDisks t0 (storageClient env storage) storage.Id with
      | error e =>
        exfalso; apply hcount
        simp [storageTerminateItem, hc, queryStorageInfo, Prog.bind, setProviderParams_Id, hq,
          Res.trace, countOf_append, countOf_cons, countOf_nil, isTerminateDisks]
      | ok diskSet =>
        rcases diskSet with _ | ⟨d, _ | ⟨d2, rest⟩⟩
        · exfalso; apply hcount
          simp [storageTerminateItem, hc, queryStorageInfo, Prog.bind, setProviderParams_Id,
            hq, Res.trace, countOf_append, countOf_cons, countOf_nil, isTerminateDisks]
        · refine ⟨d, rfl, ?_⟩
          cases hd : d.DiskState with
          | none =>
            exfalso; apply hcount
            simp [storageTerminateItem, hc, queryStorageInfo, Prog.bind, setProviderParams_Id,
              hq, hd, Res.trace, countOf_append, countOf_cons, countOf_nil, isTerminateDisks]
          | some st =>
            rw [storageTerminateItem_found hc hq hd] at hcount ⊢
            by_cases hst : st = "ATTACHED"
            · subst hst
              rw [if_pos rfl] at hcount ⊢
              obtain ⟨ext, hext, hev, hs1, hlast⟩ :=
                detachStorage_shape env w fuel (setProviderParams storage)
                  (t0 ++ [.DescribeDisks (storageClient env storage) storage.Id])
              rw [hcl, hid] at hext hev hlast
              cases hdet : detachStorage env w fuel (setProviderParams storage)
                  (t0 ++ [.DescribeDisks (storageClient env storage) storage.Id]) with
              | done r t2 =>
                obtain ⟨s1, err⟩ := r
                have hs := hs1 s1 err t2 hdet
                rw [setProviderParams_idem] at hs
                subst hs
                rw [hdet] at hext
                simp only [Res.trace] at hext
                cases err with
                | some e =>
                  exfalso; apply hcount
                  simp [Prog.bind, hdet, Res.trace, hext, countOf_append, countOf_cons,
                    countOf_nil, isTerminateDisks, countOf_eq_zero (polls_not_terminate hev)]
                | none =>
                  obtain ⟨polled, d1, hp, hq1, hd1⟩ := hlast _ t2 hdet
                  obtain ⟨ext2, hext2, hev2⟩ :=
                    terminateStorage_shape env w fuel (setProviderParams storage) t2
                  rw [hcl, hid] at hext2 hev2
                  clear hcount
                  rw [bind_done_trace hdet]
                  simp only
                  rw [bind_trace_of_pure hpure, hext2]
                  have hev1 : ∀ e ∈ polled ++
                      [.DescribeDisks (storageClient env storage) storage.Id],
                      e = .DescribeDisks (storageClient env storage) storage.Id ∨
                        e = .Sleep 5 := by
                    rw [← hp]; exact hev
                  refine ⟨?_, Or.inr ⟨trivial, polled, d1, ?_, ?_, ?_, hd1⟩⟩
                  · rw [hext, hp]
                    simp [countOf_append, countOf_cons, countOf_nil, isTerminateDisks,
                      countOf_eq_zero (polls_not_terminate hev2),
                      countOf_eq_zero (polls_not_terminate
                        (fun e he => hev1 e (List.mem_append_left _ he)))]
                  · rw [hext, hp]
                    exact ⟨ext2, by simp⟩
                  · intro e he
                    exact hev1 e (List.mem_append_left _ he)
                  · simpa using hq1
              | panicked t2 =>
                rw [hdet] at hext
                simp only [Res.trace] at hext
                exfalso; apply hcount
                simp [Prog.bind, hdet, Res.trace, hext, countOf_append, countOf_cons,
                  countOf_nil, isTerminateDisks, countOf_eq_zero (polls_not_terminate hev)]
              | outOfFuel t2 =>
                rw [hdet] at hext
                simp only [Res.trace] at hext
                exfalso; apply hcount
                simp [Prog.bind, hdet, Res.trace, hext, countOf_append, countOf_cons,
                  countOf_nil, isTerminateDisks, countOf_eq_zero (polls_not_terminate hev)]
            · rw [if_neg hst]
              obtain ⟨ext2, hext2, hev2⟩ :=
                terminateStorage_shape env w fuel (setProviderParams storage)
                  (t0 ++ [.DescribeDisks (storageClient env storage) storage.Id])
              rw [hcl, hid] at hext2 hev2
              clear hcount
              rw [bind_done_trace (pure_run (setProviderParams storage, none) _)]
              simp only
              rw [bind_trace_of_pure hpure, hext2]
              refine ⟨?_, Or.inl ⟨st, rfl, hst, ⟨ext2, by simp⟩⟩⟩
              simp [countOf_append, countOf_cons, countOf_nil, isTerminateDisks,
                countOf_eq_zero (polls_not_terminate hev2)]
        · exfalso; apply hcount
          simp [storageTerminateItem, hc, queryStorageInfo, Prog.bind, setProviderParams_Id,
            hq, Res.trace, countOf_append, countOf_cons, countOf_nil, isTerminateDisks]
  · intro d s1 e t1 hc hq hd hdet
    obtain ⟨ext, hext, hev, -, -⟩ :=
      detachStorage_shape env w fuel (setProviderParams storage)
        (t0 ++ [.DescribeDisks (storageClient env storage) storage.Id])
    rw [hcl, hid, hdet] at hext
    simp only [Res.trace] at hext
    rw [hcl, hid] at hev
    constructor
    · rw [storageTerminateItem_found hc hq hd, if_pos rfl, Prog.bind, hdet]
      rfl
    · rw [hext]
      simp [countOf_append, countOf_cons, countOf_nil, isTerminateDisks,
        countOf_eq_zero (polls_not_terminate hev)]

/-- Terminating the attached `disk-a` on the simulated control plane issues `DetachDisks`,
sees the disk UNATTACHED and only then issues `TerminateDisks`, once; on the control plane
that rejects the detach call the item is marked ERROR and nothing is terminated. -/
theorem storage_terminate_after_detach_witness :
    (∃ d, simWorld.describeDisks attachedHistory (storageClient simEnv volumeAttached)
          volumeAttached.Id = .ok [d] ∧
        countOf isTerminateDisks
            (storageTerminateItem simEnv simWorld 3 volumeAttached attachedHistory).trace =
          countOf isTerminateDisks attachedHistory + 1 ∧
        ((∃ st, d.DiskState = some st ∧ st ≠ "ATTACHED" ∧
            attachedHistory ++
                [.DescribeDisks (storageClient simEnv volumeAttached) volumeAttached.Id,
                  .TerminateDisks (storageClient simEnv volumeAttached) volumeAttached.Id] <+:
              (storageTerminateItem simEnv simWorld 3 volumeAttached attachedHistory).trace) ∨
          (d.DiskState = some "ATTACHED" ∧
            ∃ (polled : Trace) (d1 : Disk),
              attachedHistory ++
                  [.DescribeDisks (storageClient simEnv volumeAttached) volumeAttached.Id,
                    .DetachDisks (storageClient simEnv volumeAttached) volumeAttached.Id] ++
                  polled ++
                  [.DescribeDisks (storageClient simEnv volumeAttached) volumeAttached.Id,
                    .TerminateDisks (storageClient simEnv volumeAttached)
                      volumeAttached.Id] <+:
                (storageTerminateItem simEnv simWorld 3 volumeAttached attachedHistory).trace ∧
              (∀ e ∈ polled,
                e = .DescribeDisks (storageClient simEnv volumeAttached) volumeAttached.Id ∨
                  e = .Sleep 5) ∧
              simWorld.describeDisks
                  (attachedHistory ++
                    [.DescribeDisks (storageClient simEnv volumeAttached) volumeAttached.Id,
                      .DetachDisks (storageClient simEnv volumeAttached) volumeAttached.Id] ++
                    polled)
                  (storageClient simEnv volumeAttached) volumeAttached.Id = .ok [d1] ∧
              d1.DiskState = some "UNATTACHED"))) ∧
    (∃ t1,
      storageTerminateItem simEnv detachRejectWorld 3 volumeAttached attachedHistory =
          .done ({ Guid := "g1", Id := "disk-a"
                   Result :=
                     { Code := some .ERROR
                       Message :=
                         "detach storage(id = disk-a) in cloud meet error = DetachDisks rejected" } },
            some "detach storage(id = disk-a) in cloud meet error = DetachDisks rejected") t1 ∧
        countOf isTerminateDisks t1 = countOf isTerminateDisks attachedHistory) :=
  ⟨(storage_terminate_after_detach simEnv simWorld 3 volumeAttached attachedHistory).1
      (by decide),
   ⟨_, (storage_terminate_after_detach simEnv detachRejectWorld 3 volumeAttached
      attachedHistory).2 { DiskState := some "ATTACHED", InstanceId := some "ins-1" }
      _ _ _ rfl rfl rfl rfl⟩⟩

/-- C13, what the code does instead: the size guard of `createStorage` rejects a DiskSize
only when parsing failed and the parsed value is not positive, so "0", "-5" and
"99999999999999999999" pass it; and whenever the guard does not fire, for a request without
Id that passes the AvailableZone guard and is not prepaid, the next call is `CreateDisks`,
carrying the parsed value converted to `uint64`. -/
theorem createStorage_size_guard_lets_through :
    (∀ s ∈ ["0", "-5", "99999999999999999999"],
      ¬ ((parseInt s).2 ≠ none ∧ (parseInt s).1 ≤ 0)) ∧
    toUint64 (parseInt "0").1 = 0 ∧
    toUint64 (parseInt "-5").1 = 2 ^ 64 - 5 ∧
    toUint64 (parseInt "99999999999999999999").1 = 2 ^ 63 - 1 ∧
    (∀ (env : Env) (w : World) (fuel : Nat) (storage : StorageInput) (t0 : Trace),
      storage.Id = "" →
      env.getMapFromProviderParams (setProviderParams storage).ProviderParams
        "AvailableZone" ≠ some "" →
      storage.DiskChargeType ≠ env.chargeTypePrepaid →
      ¬ ((parseInt storage.DiskSize).2 ≠ none ∧ (parseInt storage.DiskSize).1 ≤ 0) →
      ∃ (request : CreateDisksRequest) (rest : Trace),
        request.DiskSize = toUint64 (parseInt storage.DiskSize).1 ∧
          (createStorage env w fuel storage t0).trace =
            t0 ++ .CreateDisks (storageClient env storage) request :: rest) := by
  refine ⟨by decide, by decide, by decide, by decide, ?_⟩
  intro env w fuel storage t0 hid hzone hcharge hsize
  obtain ⟨h1, h2, -, -⟩ := setProviderParams_fields storage
  obtain ⟨rest, hrest⟩ :=
    @createStorageNew_issues env w fuel (setProviderParams storage)
      (env.getMapFromProviderParams (setProviderParams storage).ProviderParams)
      (storageClient env storage) t0 (by rw [h1]; exact hsize) (by rw [h2]; exact hcharge)
  refine ⟨{ DiskName := if (setProviderParams storage).DiskName ≠ "" then
                some (setProviderParams storage).DiskName else none
            DiskType := (setProviderParams storage).DiskType
            DiskSize := toUint64 (parseInt (setProviderParams storage).DiskSize).1
            DiskChargeType := (setProviderParams storage).DiskChargeType
            DiskChargePrepaid := none
            PlacementZone := lookup
              (env.getMapFromProviderParams (setProviderParams storage).ProviderParams)
              "AvailableZone" }, rest, ?_, ?_⟩
  · simp only [h1]
  · rw [← hrest]
    unfold createStorage
    simp only [hzone, if_false, setProviderParams_Id, hid, ne_eq, not_true_eq_false, bind_run]
    refine bind_trace_of_pure ?_ t0
    rintro ⟨output, err⟩ t
    rfl

/-- A create request with DiskSize "0" on the simulated control plane: `CreateDisks` is
issued with size 0 and the item ends SUCCESS. -/
theorem createStorage_size_guard_lets_through_witness :
    (∃ (request : CreateDisksRequest) (rest : Trace),
      request.DiskSize = toUint64 (parseInt "0").1 ∧
        (createStorage simEnv simWorld 3 { volumeA with DiskSize := "0" } []).trace =
          [] ++ .CreateDisks (storageClient simEnv { volumeA with DiskSize := "0" })
            request :: rest) ∧
    (∃ t1, StorageCreateAction.Do simEnv simWorld 3 [{ volumeA with DiskSize := "0" }] [] =
      .done ([{ Guid := "g1", Id := "disk-a", Result := { Code := some .SUCCESS } }], none)
        t1) :=
  ⟨createStorage_size_guard_lets_through.2.2.2.2 simEnv simWorld 3
      { volumeA with DiskSize := "0" } [] rfl (by decide) (by decide) (by decide),
   ⟨_, rfl⟩⟩

/-- C14, what the code does instead: when the control plane accepts a gateway creation and
its response carries no gateway identifier, `createNatGateway` returns the empty string with
a nil error, and `NatGatewayCreateAction.Do` returns without error an output item whose Id
is empty. -/
theorem natGatewayCreate_reports_missing_id (env : Env) (w : World) (a : NatGatewayInput)
    (t0 : Trace)
    (h : w.createNatGateway t0 (gatewayClient env a) (natGatewayCreateReq a) =
      .ok { NatGatewayId := none }) :
    createNatGateway env w a t0 =
        .done ("", none)
          (t0 ++ [.CreateNatGateway (gatewayClient env a) (natGatewayCreateReq a)]) ∧
      NatGatewayCreateAction.Do env w [a] t0 =
        .done (some [{ Id := "" }], none)
          (t0 ++ [.CreateNatGateway (gatewayClient env a) (natGatewayCreateReq a)]) := by
  have hx : createNatGateway env w a t0 =
      .done ("", none)
        (t0 ++ [.CreateNatGateway (gatewayClient env a) (natGatewayCreateReq a)]) := by
    simp [createNatGateway, Prog.bind, h]
  refine ⟨hx, ?_⟩
  simp [NatGatewayCreateAction.Do, natGatewayCreateLoop, Prog.bind, hx]

/-- One gateway request against the control plane that answers without an identifier. -/
theorem natGatewayCreate_reports_missing_id_witness :
    createNatGateway simEnv silentWorld gatewayA [] =
        .done ("", none)
          ([] ++ [.CreateNatGateway (gatewayClient simEnv gatewayA)
            (natGatewayCreateReq gatewayA)]) ∧
      NatGatewayCreateAction.Do simEnv silentWorld [gatewayA] [] =
        .done (some [{ Id := "" }], none)
          ([] ++ [.CreateNatGateway (gatewayClient simEnv gatewayA)
            (natGatewayCreateReq gatewayA)]) :=
  natGatewayCreate_reports_missing_id simEnv silentWorld gatewayA [] rfl

/-- C15, what the code does instead: when `CreateDisks` succeeded and returned an identifier
and the poll after it fails, `createStorage` hands the identifier back next to the error, but
`StorageCreateAction.Do` takes the error branch before it copies the identifier, so the item
is marked ERROR with an empty Id. When it is the attach step that fails, the item is marked
ERROR and keeps the identifier. -/
theorem storageCreate_drops_id_when_poll_fails (env : Env) (w : World) (fuel : Nat)
    (storage : StorageInput) (t0 : Trace) (hparams : checkCreateStorageParams storage = none) :
    (∀ (id rid : String) (others : List (Option String)) (e : Err),
      storage.Id = "" →
      env.getMapFromProviderParams (setProviderParams storage).ProviderParams
        "AvailableZone" ≠ some "" →
      storage.DiskChargeType ≠ env.chargeTypePrepaid →
      ¬ ((parseInt storage.DiskSize).2 ≠ none ∧ (parseInt storage.DiskSize).1 ≤ 0) →
      w.createDisks t0 (storageClient env storage) (postpaidDisksRequest env storage) =
        .ok { DiskIdSet := some id :: others, RequestId := some rid } →
      w.describeDisks
          (t0 ++ [.CreateDisks (storageClient env storage) (postpaidDisksRequest env storage)])
          (storageClient env storage) id = .error e →
      createStorage env w (fuel + 1) storage t0 =
          .done (setProviderParams storage, some { RequestId := rid, Id := id }, some e)
            (t0 ++ [.CreateDisks (storageClient env storage) (postpaidDisksRequest env storage),
              .DescribeDisks (storageClient env storage) id]) ∧
        StorageCreateAction.Do env w (fuel + 1) [storage] t0 =
          .done ([{ Guid := storage.Guid
                    CallBackParameter := { Parameter := storage.CallBackParameter.Parameter }
                    Result := { Code := some .ERROR, Message := e }
                    Id := "" }], some e)
            (t0 ++ [.CreateDisks (storageClient env storage) (postpaidDisksRequest env storage),
              .DescribeDisks (storageClient env storage) id])) ∧
    (∀ (s1 s2 : StorageInput) (r : StorageOutput) (e : Err) (t1 t2 : Trace),
      createStorage env w fuel storage t0 = .done (s1, some r, none) t1 →
      attachStorage env w fuel { s1 with Id := r.Id } t1 = .done (s2, some e) t2 →
      StorageCreateAction.Do env w fuel [storage] t0 =
        .done ([{ Guid := storage.Guid
                  CallBackParameter := { Parameter := storage.CallBackParameter.Parameter }
                  Result := { Code := some .ERROR, Message := e }
                  Id := r.Id }], some e) t2) := by
  constructor
  · intro id rid others e hid hzone hcharge hsize hcreate hquery
    have hrun := @createStorage_poll_error env w fuel storage t0 id rid others e hid hzone
      hcharge hsize hcreate hquery
    refine ⟨hrun, ?_⟩
    simp [StorageCreateAction.Do, storageLoop, storageCreateItem, hparams, Prog.bind, hrun]
  · intro s1 s2 r e t1 t2 hcreate hattach
    simp [StorageCreateAction.Do, storageLoop, storageCreateItem, hparams, Prog.bind, hcreate,
      hattach]

/-- On the control plane whose disk queries fail, `volumeA` is created as `disk-a` and
reported ERROR without Id; on the control plane that rejects the attach call it is reported
ERROR with Id `disk-a`. -/
theorem storageCreate_drops_id_when_poll_fails_witness :
    (createStorage simEnv flakyWorld (2 + 1) volumeA [] =
        .done (setProviderParams volumeA, some { RequestId := "req-create", Id := "disk-a" },
            some "DescribeDisks failed")
          ([] ++ [.CreateDisks (storageClient simEnv volumeA)
              (postpaidDisksRequest simEnv volumeA),
            .DescribeDisks (storageClient simEnv volumeA) "disk-a"]) ∧
      StorageCreateAction.Do simEnv flakyWorld (2 + 1) [volumeA] [] =
        .done ([{ Guid := volumeA.Guid
                  CallBackParameter := { Parameter := volumeA.CallBackParameter.Parameter }
                  Result := { Code := some .ERROR, Message := "DescribeDisks failed" }
                  Id := "" }], some "DescribeDisks failed")
          ([] ++ [.CreateDisks (storageClient simEnv volumeA)
              (postpaidDisksRequest simEnv volumeA),
            .DescribeDisks (storageClient simEnv volumeA) "disk-a"])) ∧
    (∃ t2, StorageCreateAction.Do simEnv attachRejectWorld 3 [volumeA] [] =
      .done ([{ Guid := volumeA.Guid
                CallBackParameter := { Parameter := volumeA.CallBackParameter.Parameter }
                Result := { Code := some .ERROR, Message := "AttachDisks rejected" }
                Id := "disk-a" }], some "AttachDisks rejected") t2) :=
  ⟨(storageCreate_drops_id_when_poll_fails simEnv flakyWorld 2 volumeA [] rfl).1
      "disk-a" "req-create" [] "DescribeDisks failed" rfl (by decide) (by decide) (by decide)
      rfl rfl,
   ⟨_, (storageCreate_drops_id_when_poll_fails simEnv attachRejectWorld 3 volumeA [] rfl).2
      _ _ { RequestId := "req-create", Id := "disk-a" } _ _ _ rfl rfl⟩⟩

end Qcloud
